import Mathlib

/-!
# Ghost Escape: the room, the ghost and the player

A shallow embedding of the simulation core of the audio game in
`src/Sources` (Room, Ghost, Player, Listener, Emitter, MovingCritter) and
the properties proved about it.

Conventions of the embedding.

* A C++ `float` is a rational number.  Every value the room logic computes
  on a reachable state (grid coordinates, the axis unit vectors, the small
  integers stored in the grid) is exactly representable, so no rounding
  takes place there.
* Every object is a structure; a member function is a function from the
  object to the updated object.
* The audio framework (`XASound`, `XACore`, `GameTimer`), the C math
  library and `rand()` are outside the repository.  What they are is fixed
  by a `Platform` (which sound files loaded, what `sqrt` returns); what
  they answer during one call is given by an `Env` (which sounds report
  `IsPlaying()`, the elapsed time of the timers, the values `rand()`
  returns).  The calls a class forwards to its sounds are recorded, in
  order, in the `calls` field of the object that issues them.
* A member left uninitialised by a constructor takes its value from a
  parameter of the constructor's model.
-/

namespace Escape

/-! ## Vectors and numbers -/

/-- The struct X3DAUDIO_VECTOR (also used for `stu::v3f`). -/
structure X3DAUDIO_VECTOR where
  x : ℚ
  y : ℚ
  z : ℚ
deriving DecidableEq, Repr

/-- Conversion `int(f)` of a float: truncation toward zero. -/
def toInt (f : ℚ) : Int :=
  if 0 ≤ f then ⌊f⌋ else ⌈f⌉

/-! ## The audio framework seen from the game -/

/-- Every `XASound` object the game creates, named after the member that
owns it (`mGhostLaughSound` is the object built in the Ghost constructor
before the pointer is redirected). -/
inductive Sound
  -- Ghost
  | mGhostDefaultSound | mTypeWriterSound | mPianoSound | mDoorSound
  | mGhostYellSound | mGhostLaughSound | mGhostLaugh1 | mGhostLaugh2
  | mGhostLaugh3 | mVoiceIntroSound | mRadioSound | mGhostDeathSound
  -- Room
  | mHitWallSound | mForestSound | mHitDoorSound | mAmbientMusic
  | mDoorOpenSound | mTableCollisionSound | mPianoCollisionSound
  | mRadioCollisionSound | mTypeWriterCollisionSound
  -- Player
  | mIntroSound | mOutroSound | mNormalFootsteps | mCreakingFootsteps
  | mVariant1Footsteps | mTurning | mCaptureSound | mPainSound1
  | mPainSound2 | mPainSound3 | mBreathing | mHeartBeat
  -- MovingCritter
  | mMiceSound | mBatsSound
deriving DecidableEq, Repr

/-- The two values of XAUDIO2_FILTER_TYPE the game uses. -/
inductive FilterType
  | LowPassFilter | HighPassFilter
deriving DecidableEq, Repr

/-- One call forwarded to the audio framework. -/
inductive AudioCall
  | Play (s : Sound)
  | Stop (s : Sound)
  | Pause (s : Sound)
  | SetLooped (s : Sound) (looped : Bool)
  | SetVolume (s : Sound) (volume : ℚ)
  | SetPitch (s : Sound) (pitch : ℚ)
  | SetFilter (s : Sound) (kind : FilterType) (frequency attenuation : ℚ)
  | Apply3D (s : Sound) (emitterPosition : X3DAUDIO_VECTOR)
deriving DecidableEq, Repr

/-- What is fixed once the program has started: which sound files loaded
(`XASound::IsValid`), their channel count, and the math library. -/
structure Platform where
  IsValid : Sound → Bool
  InputChannels : Sound → Nat
  sqrt : ℚ → ℚ
  atan : ℚ → ℚ

/-- What the outside world answers during one call of a public operation:
`XASound::IsPlaying`, `GameTimer::GetElapsedTime` of the three timers, and
the value returned by `rand()` at each place that draws. -/
structure Env where
  IsPlaying : Sound → Bool
  footstepElapsed : ℚ
  turningElapsed : ℚ
  critterElapsed : ℚ
  /-- The draws of the retry loop of `Ghost::SetNewStage`, in order. -/
  stageDraws : List Nat
  laughDraw : Nat
  footstepDraw : Nat
  painDraw : Nat
  critterZDraw : Nat
  critterTimeDraw : Nat
  /-- The value an uninitialised local variable happens to hold. -/
  indeterminate : X3DAUDIO_VECTOR

/-! ## stu::v3f -/

/-- Modelled from the spec: `stu::v3f` subtraction (StuVector3.hpp is not
in the repository), "3D vector arithmetic". -/
def v3f.sub (a b : X3DAUDIO_VECTOR) : X3DAUDIO_VECTOR :=
  ⟨a.x - b.x, a.y - b.y, a.z - b.z⟩

/-- Modelled from the spec: `stu::v3f` scalar multiplication. -/
def v3f.scale (a : X3DAUDIO_VECTOR) (k : ℚ) : X3DAUDIO_VECTOR :=
  ⟨a.x * k, a.y * k, a.z * k⟩

/-- Modelled from the spec: `stu::v3f::Magnitude`. -/
def v3f.Magnitude (w : Platform) (a : X3DAUDIO_VECTOR) : ℚ :=
  w.sqrt (a.x * a.x + a.y * a.y + a.z * a.z)

/-- Modelled from the spec: `stu::v3f::Normalise`, "normalize (no-op guard
against zero length)". -/
def v3f.Normalise (w : Platform) (a : X3DAUDIO_VECTOR) : X3DAUDIO_VECTOR :=
  if v3f.Magnitude w a = 0 then a
  else ⟨a.x / v3f.Magnitude w a, a.y / v3f.Magnitude w a, a.z / v3f.Magnitude w a⟩

/-- Modelled from the spec: `stu::v3f::Distance`, "distance between two
points". -/
def v3f.Distance (w : Platform) (a b : X3DAUDIO_VECTOR) : ℚ :=
  v3f.Magnitude w (v3f.sub a b)

/-! ## Emitter -/

/-- The struct X3DAUDIO_CONE, the four members the game sets (the others
stay zero). -/
structure X3DAUDIO_CONE where
  InnerAngle : ℚ
  InnerVolume : ℚ
  OuterAngle : ℚ
  OuterVolume : ℚ
deriving DecidableEq, Repr

/-- The class Emitter.  `ChannelCount`, `CurveDistanceScaler`, `Position`,
`OrientFront` and `pCone` are the members of the X3DAUDIO_EMITTER struct
`mEmitter` the code touches; `pCone` is true when the pointer is set (it
only ever points at `mCone`).  The listener pointer is the player's
listener throughout and is not stored. -/
structure Emitter where
  mSound : Sound
  mStartPosition : X3DAUDIO_VECTOR
  mConeOn : Bool
  mSoundPosition : X3DAUDIO_VECTOR
  mOrientationPosition : X3DAUDIO_VECTOR
  ChannelCount : Nat
  CurveDistanceScaler : ℚ
  Position : X3DAUDIO_VECTOR
  OrientFront : X3DAUDIO_VECTOR
  pCone : Bool
  mCone : X3DAUDIO_CONE
  calls : List AudioCall
deriving DecidableEq, Repr

namespace Emitter

/-- Emitter::Emitter for an emitter without a cone.  `raw` is the object
before construction: an invalid sound makes the constructor return early
and leaves the other members as they were. -/
def new (w : Platform) (raw : Emitter) (EmitterSound : Sound)
    (EmitterPosition : X3DAUDIO_VECTOR) (IsLooped : Bool) : Emitter :=
  let e := { raw with mSound := EmitterSound, mStartPosition := EmitterPosition }
  if !w.IsValid e.mSound then e
  else
    { e with
      calls := e.calls ++ [AudioCall.SetLooped e.mSound IsLooped]
      ChannelCount := w.InputChannels e.mSound
      CurveDistanceScaler := 1
      Position := EmitterPosition
      OrientFront := ⟨0, 0, 0⟩
      pCone := false
      mConeOn := false }

/-- Emitter::CreateEmitterCone. -/
def CreateEmitterCone (w : Platform) (e : Emitter) : Emitter :=
  let coneOrientation := v3f.sub e.mOrientationPosition e.mSoundPosition
  let OrientationMagnitude := v3f.Magnitude w coneOrientation
  let coneOrientation := v3f.Normalise w coneOrientation
  let InnerAngle := 2 * w.atan ((3 / 2) / OrientationMagnitude)
  { e with
    OrientFront := coneOrientation
    mCone := ⟨InnerAngle, 3 / 2, InnerAngle + 1 / 5, 1 / 2⟩
    pCone := true }

/-- Emitter::Emitter for an emitter with a cone. -/
def newWithCone (w : Platform) (raw : Emitter) (EmitterSound : Sound)
    (EmitterPosition SoundPosition OrientationPosition : X3DAUDIO_VECTOR)
    (IsLooped : Bool) : Emitter :=
  let e := { raw with mSound := EmitterSound, mStartPosition := EmitterPosition }
  if !w.IsValid e.mSound then e
  else
    let e := { e with
      calls := e.calls ++ [AudioCall.SetLooped e.mSound IsLooped]
      mConeOn := true
      mSoundPosition := SoundPosition
      mOrientationPosition := OrientationPosition
      ChannelCount := w.InputChannels e.mSound
      CurveDistanceScaler := 1
      Position := EmitterPosition
      OrientFront := ⟨0, 0, 0⟩
      pCone := false }
    if e.mConeOn then CreateEmitterCone w e else e

/-- Emitter::UpdateEmitter: the 3D settings are pushed to the engine when
the sound is playing. -/
def UpdateEmitter (env : Env) (e : Emitter) : Emitter :=
  if env.IsPlaying e.mSound then
    { e with calls := e.calls ++ [AudioCall.Apply3D e.mSound e.Position] }
  else e

/-- Emitter::ResetEmitter. -/
def ResetEmitter (w : Platform) (env : Env) (IsPlaying : Bool) (e : Emitter) : Emitter :=
  let e := if e.mConeOn then { e with pCone := true } else e
  let e :=
    if IsPlaying then
      if w.IsValid e.mSound then { e with calls := e.calls ++ [AudioCall.Play e.mSound] } else e
    else e
  UpdateEmitter env e

/-- Emitter::ChangeEmitterSound. -/
def ChangeEmitterSound (w : Platform) (env : Env) (EmitterSound : Sound)
    (EmitterPosition : X3DAUDIO_VECTOR) (IsLooped : Bool) (e : Emitter) : Emitter :=
  let e := if w.IsValid e.mSound then { e with calls := e.calls ++ [AudioCall.Stop e.mSound] } else e
  let e := { e with mSound := EmitterSound }
  let e := { e with calls := e.calls ++ [AudioCall.SetLooped e.mSound IsLooped] }
  let e := { e with
    ChannelCount := w.InputChannels e.mSound
    CurveDistanceScaler := 1
    Position := EmitterPosition
    OrientFront := ⟨0, 0, 0⟩
    pCone := false }
  let e := { e with mConeOn := false }
  let e := if w.IsValid e.mSound then { e with calls := e.calls ++ [AudioCall.Play e.mSound] } else e
  UpdateEmitter env e

/-- Emitter::StopEmitter. -/
def StopEmitter (w : Platform) (e : Emitter) : Emitter :=
  if w.IsValid e.mSound then { e with calls := e.calls ++ [AudioCall.Stop e.mSound] } else e

/-- Emitter::PlayEmitter. -/
def PlayEmitter (w : Platform) (e : Emitter) : Emitter :=
  if w.IsValid e.mSound then { e with calls := e.calls ++ [AudioCall.Play e.mSound] } else e

/-- Emitter::PauseEmitter. -/
def PauseEmitter (w : Platform) (e : Emitter) : Emitter :=
  if w.IsValid e.mSound then { e with calls := e.calls ++ [AudioCall.Pause e.mSound] } else e

/-- Emitter::SetEmitterFilter. -/
def SetEmitterFilter (kind : FilterType) (Frequency AttenuationFactor : ℚ) (e : Emitter) : Emitter :=
  { e with calls := e.calls ++ [AudioCall.SetFilter e.mSound kind Frequency AttenuationFactor] }

/-- Emitter::SetPosition. -/
def SetPosition (NewPosition : X3DAUDIO_VECTOR) (e : Emitter) : Emitter :=
  { e with Position := NewPosition }

/-- Emitter::EmitterActive. -/
def EmitterActive (env : Env) (e : Emitter) : Bool :=
  if env.IsPlaying e.mSound then true else false

end Emitter

/-! ## Listener -/

/-- The enum Listener::Direction. -/
inductive Direction
  | North | NorthEast | East | SouthEast | South | SouthWest | West | NorthWest
deriving DecidableEq, Repr

/-- The conversion `int(d)` of a Direction. -/
def Direction.toInt : Direction → Int
  | North => 0 | NorthEast => 1 | East => 2 | SouthEast => 3
  | South => 4 | SouthWest => 5 | West => 6 | NorthWest => 7

/-- The cast `(Direction)n`.  The code only casts values 0..7 (see
`TurnClockwise`, `TurnCounterClockwise`); any other value is not an
enumerator and is sent to North here.  The listener whose facing is the
integer itself is `Machine.Listener`. -/
def Direction.ofInt (n : Int) : Direction :=
  if n = 0 then North else if n = 1 then NorthEast else if n = 2 then East
  else if n = 3 then SouthEast else if n = 4 then South else if n = 5 then SouthWest
  else if n = 6 then West else if n = 7 then NorthWest else North

/-- Directions::NormalisedDirection, the float nearest to 1 / sqrt 2. -/
def NormalisedDirection : ℚ := 11863283 / 16777216

/-- Directions::Orientations, indexed by the Direction. -/
def Orientations : Direction → X3DAUDIO_VECTOR
  | Direction.North => ⟨0, 0, 1⟩
  | Direction.NorthEast => ⟨NormalisedDirection, 0, NormalisedDirection⟩
  | Direction.East => ⟨1, 0, 0⟩
  | Direction.SouthEast => ⟨NormalisedDirection, 0, -NormalisedDirection⟩
  | Direction.South => ⟨0, 0, -1⟩
  | Direction.SouthWest => ⟨-NormalisedDirection, 0, -NormalisedDirection⟩
  | Direction.West => ⟨-1, 0, 0⟩
  | Direction.NorthWest => ⟨-NormalisedDirection, 0, NormalisedDirection⟩

/-- The class Listener.  `Position`, `OrientFront` and `OrientTop` are the
members of the X3DAUDIO_LISTENER struct `mListener` (the rest is zero). -/
structure Listener where
  Position : X3DAUDIO_VECTOR
  OrientFront : X3DAUDIO_VECTOR
  OrientTop : X3DAUDIO_VECTOR
  mListenerMoving : Bool
  mListenerTurning : Bool
  mBodyOrientation : Direction
  mStartPosition : X3DAUDIO_VECTOR
  mStartOrientation : Direction
  mCurrentPosition : X3DAUDIO_VECTOR
  mBodyOrient : X3DAUDIO_VECTOR
deriving DecidableEq, Repr

namespace Listener

/-- Listener::Listener. -/
def new (StartPosition : X3DAUDIO_VECTOR) (StartOrientation : Direction) : Listener :=
  { mStartPosition := StartPosition
    mStartOrientation := StartOrientation
    Position := StartPosition
    OrientFront := Orientations StartOrientation
    mCurrentPosition := StartPosition
    mBodyOrient := Orientations StartOrientation
    mBodyOrientation := StartOrientation
    OrientTop := ⟨0, 1, 0⟩
    mListenerMoving := false
    mListenerTurning := false }

/-- Listener::MoveTo. -/
def MoveTo (NewPosition : X3DAUDIO_VECTOR) (l : Listener) : Listener :=
  { l with Position := NewPosition, mListenerMoving := true }

/-- Listener::MoveForward, the sums and products exact.  The float sums and
products of the code are those of `Machine.Listener.MoveForward`; on the
whole points of the grid, where the Room moves the listener, the two agree
(`ofListener_MoveForward`). -/
def MoveForward (Distance : ℚ) (l : Listener) : Listener :=
  { l with
    Position :=
      ⟨l.Position.x + (Orientations l.mBodyOrientation).x * Distance,
       l.Position.y + (Orientations l.mBodyOrientation).y * Distance,
       l.Position.z + (Orientations l.mBodyOrientation).z * Distance⟩
    mListenerMoving := true }

/-- Listener::TurnTo. -/
def TurnTo (NewDirection : Direction) (l : Listener) : Listener :=
  { l with
    mBodyOrientation := NewDirection
    OrientFront := Orientations NewDirection
    mListenerTurning := true }

/-- Listener::Reset. -/
def Reset (l : Listener) : Listener :=
  TurnTo l.mStartOrientation (MoveTo l.mStartPosition l)

/-- Listener::TurnCounterClockwise. -/
def TurnCounterClockwise (l : Listener) : Listener :=
  let NewDirection : Int := l.mBodyOrientation.toInt
  let NewDirection := NewDirection - 1
  let NewDirection := if NewDirection < 0 then 7 else NewDirection
  let l := { l with mBodyOrientation := Direction.ofInt NewDirection }
  let l := TurnTo l.mBodyOrientation l
  { l with mListenerTurning := true }

/-- Listener::TurnClockwise. -/
def TurnClockwise (l : Listener) : Listener :=
  let NewDirection : Int := l.mBodyOrientation.toInt
  let NewDirection := NewDirection + 1
  let NewDirection := if NewDirection > 7 then 0 else NewDirection
  let l := { l with mBodyOrientation := Direction.ofInt NewDirection }
  let l := TurnTo l.mBodyOrientation l
  { l with mListenerTurning := true }

end Listener

/-! ## Player -/

/-- The class Player.  The two GameTimer objects are outside the model:
what `GetElapsedTime` returns comes from the `Env`. -/
structure Player where
  mPlayerListener : Listener
  mPlayerActive : Bool
  mPlayerCanMove : Bool
  mPlayerCanTurn : Bool
  mInPain : Bool
  mFootsteps : Sound
  mCurrentPainSound : Sound
  mPlayerSounds : List Sound
  mOutroPlayed : Bool
  mDistanceFromGhost : ℚ
  calls : List AudioCall
deriving DecidableEq, Repr

def DEFAULT_FOOTSTEPS : Int := 1
def FOOTSTEPS_2_VARIANT : Int := 2
def FOOTSTEPS_3_VARIANT : Int := 3

namespace Player

/-- Player::Player.  `raw` is the object before construction
(`mDistanceFromGhost` is not initialised). -/
def new (raw : Player) : Player :=
  { raw with
    mPlayerListener := Listener.new ⟨8, 0, 2⟩ Direction.North
    mPlayerCanMove := true
    mPlayerCanTurn := true
    mInPain := false
    mPlayerActive := false
    mOutroPlayed := false
    mPlayerSounds :=
      [Sound.mNormalFootsteps, Sound.mCreakingFootsteps, Sound.mVariant1Footsteps,
       Sound.mTurning, Sound.mCaptureSound, Sound.mPainSound1, Sound.mPainSound2,
       Sound.mPainSound3, Sound.mBreathing, Sound.mHeartBeat]
    calls :=
      [AudioCall.Play Sound.mIntroSound, AudioCall.SetLooped Sound.mBreathing true,
       AudioCall.SetLooped Sound.mHeartBeat true]
    mFootsteps := Sound.mNormalFootsteps
    mCurrentPainSound := Sound.mPainSound1 }

/-- Player::IsValid. -/
def IsValid (w : Platform) (p : Player) : Bool :=
  p.mPlayerSounds.all w.IsValid

/-- Player::GetNextPosition. -/
def GetNextPosition (p : Player) : X3DAUDIO_VECTOR :=
  let ListenerPosition := p.mPlayerListener.Position
  let DirectionVector := p.mPlayerListener.OrientFront
  ⟨ListenerPosition.x + DirectionVector.x,
   ListenerPosition.y + DirectionVector.y,
   ListenerPosition.z + DirectionVector.z⟩

/-- Player::GetPosition. -/
def GetPosition (p : Player) : X3DAUDIO_VECTOR :=
  p.mPlayerListener.Position

/-- Player::ResetPlayer. -/
def ResetPlayer (p : Player) : Player :=
  { p with mPlayerListener := p.mPlayerListener.Reset }

/-- Player::Stop. -/
def Stop (w : Platform) (p : Player) : Player :=
  { p with calls := p.calls ++ (p.mPlayerSounds.filter w.IsValid).map AudioCall.Stop }

/-- Player::SetPlayerActive. -/
def SetPlayerActive (p : Player) : Player :=
  { p with
    calls := p.calls ++ [AudioCall.Play Sound.mBreathing, AudioCall.Play Sound.mHeartBeat]
    mPlayerActive := true }

/-- Player::CaptureGhost. -/
def CaptureGhost (w : Platform) (p : Player) : Player :=
  if w.IsValid Sound.mCaptureSound then
    { p with calls := p.calls ++ [AudioCall.Play Sound.mCaptureSound] }
  else p

/-- Player::UpdateHeartbeat. -/
def UpdateHeartbeat (p : Player) : Player :=
  if !p.mPlayerActive then p
  else if p.mOutroPlayed then
    { p with calls := p.calls ++ [AudioCall.Pause Sound.mHeartBeat, AudioCall.Pause Sound.mBreathing] }
  else
    let maxVolume : ℚ := 0
    let minVolume : ℚ := -20
    let mVolumeAdjustment : ℚ := 2 * p.mDistanceFromGhost
    let volume := maxVolume - mVolumeAdjustment
    let volume := if volume ≤ minVolume then minVolume else volume
    let p := { p with calls := p.calls ++
      [AudioCall.SetVolume Sound.mHeartBeat volume, AudioCall.SetVolume Sound.mBreathing volume] }
    let p := { p with mDistanceFromGhost := p.mDistanceFromGhost * 5 }
    let pitch : ℚ := 50 - p.mDistanceFromGhost
    let pitch := if pitch ≤ 0 then 0 else pitch
    { p with calls := p.calls ++ [AudioCall.SetPitch Sound.mHeartBeat pitch] }

/-- Player::SetFootstepsSound. -/
def SetFootstepsSound (env : Env) (p : Player) : Player :=
  let FootstepsID : Int := (env.footstepDraw % 3 : Nat) + 1
  let p := if FootstepsID = DEFAULT_FOOTSTEPS then { p with mFootsteps := Sound.mNormalFootsteps } else p
  let p := if FootstepsID = FOOTSTEPS_2_VARIANT then { p with mFootsteps := Sound.mVariant1Footsteps } else p
  let p := if FootstepsID = FOOTSTEPS_3_VARIANT then { p with mFootsteps := Sound.mCreakingFootsteps } else p
  { p with mPlayerCanMove := false }

/-- Player::SetPainSound. -/
def SetPainSound (env : Env) (p : Player) : Player :=
  let PainID : Int := (env.painDraw % 3 : Nat) + 1
  let p := if PainID = 1 then { p with mCurrentPainSound := Sound.mPainSound1 } else p
  let p := if PainID = 2 then { p with mCurrentPainSound := Sound.mPainSound2 } else p
  let p := if PainID = 3 then { p with mCurrentPainSound := Sound.mPainSound3 } else p
  { p with mInPain := false }

/-- Player::UpdatePlayer. -/
def UpdatePlayer (w : Platform) (env : Env) (GhostDistance : ℚ) (PlayerFree : Bool)
    (p : Player) : Player :=
  let p :=
    if !env.IsPlaying Sound.mIntroSound then
      if !p.mPlayerActive then SetPlayerActive p else p
    else p
  let p :=
    if PlayerFree && !p.mOutroPlayed then
      { p with calls := p.calls ++ [AudioCall.Play Sound.mOutroSound], mOutroPlayed := true }
    else p
  let p := { p with mDistanceFromGhost := GhostDistance }
  let p := UpdateHeartbeat p
  let p :=
    if !env.IsPlaying p.mFootsteps && decide (env.footstepElapsed > 1) then
      { p with mPlayerCanMove := true }
    else p
  let p :=
    if !env.IsPlaying Sound.mTurning && decide (env.turningElapsed > 1 / 2) then
      { p with mPlayerCanTurn := true }
    else p
  let p :=
    if p.mPlayerListener.mListenerMoving then
      let p :=
        if w.IsValid p.mFootsteps then
          SetFootstepsSound env
            { p with calls := p.calls ++ [AudioCall.Stop p.mFootsteps, AudioCall.Play p.mFootsteps] }
        else p
      { p with mPlayerListener := { p.mPlayerListener with mListenerMoving := false } }
    else p
  let p :=
    if p.mPlayerListener.mListenerTurning then
      let p :=
        if w.IsValid Sound.mTurning then
          { p with calls := p.calls ++ [AudioCall.Play Sound.mTurning], mPlayerCanTurn := false }
        else p
      { p with mPlayerListener := { p.mPlayerListener with mListenerTurning := false } }
    else p
  if p.mInPain then
    let p :=
      if w.IsValid p.mCurrentPainSound then
        { p with calls := p.calls ++ [AudioCall.Play p.mCurrentPainSound] }
      else p
    SetPainSound env p
  else p

end Player

/-! ## Ghost -/

def DETECTION_RANGE : ℚ := 7 / 2
def HIT_TARGET_RANGE : ℚ := 2
def SPEED : ℚ := 1 / 20000
def STAGE_LIMIT : Int := 4

/-- The enum Ghost::GhostState. -/
inductive GhostState
  | KNOCKING | PIANO | TYPEWRITER | RADIO
deriving DecidableEq, Repr

/-- The integer value of a GhostState enumerator. -/
def GhostState.toInt : GhostState → Int
  | GhostState.KNOCKING => 0
  | GhostState.PIANO => 1
  | GhostState.TYPEWRITER => 2
  | GhostState.RADIO => 3

/-- The class Ghost.  The player reference is only used to hand the
listener to the emitters and is not stored. -/
structure Ghost where
  mGhostEmitter : Emitter
  mDoorPosition : X3DAUDIO_VECTOR
  mPianoPosition : X3DAUDIO_VECTOR
  mTypeWriterPosition : X3DAUDIO_VECTOR
  mRadioPosition : X3DAUDIO_VECTOR
  mGhostDefeated : Bool
  mInitialised : Bool
  mGhostActive : Bool
  mAtStage : Bool
  mGhostLaughSound : Sound
  mGhostSounds : List Sound
  mEventEmitter : Emitter
  mCurrentState : GhostState
  mGhostPosition : X3DAUDIO_VECTOR
  mGhostTargetPosition : X3DAUDIO_VECTOR
  mGhostPath : X3DAUDIO_VECTOR
  mGhostStart : Bool
  mMoving : Bool
  mPianoAvailable : Bool
  mTypewriterAvailable : Bool
  mDoorAvailable : Bool
  mRadioAvailable : Bool
  mGhostLaughing : Bool
  mStageCount : Int
deriving DecidableEq, Repr

namespace Ghost

/-- Ghost::SetUpGhost. -/
def SetUpGhost (g : Ghost) : Ghost :=
  { g with
    mDoorPosition := ⟨8, 0, 0⟩
    mPianoPosition := ⟨2, 0, 14⟩
    mTypeWriterPosition := ⟨2, 0, 2⟩
    mRadioPosition := ⟨13, 0, 9⟩
    mGhostTargetPosition := ⟨0, 0, 0⟩
    mGhostPath := ⟨0, 0, 0⟩
    mPianoAvailable := true
    mTypewriterAvailable := true
    mDoorAvailable := true
    mRadioAvailable := true }

/-- Ghost::Ghost.  `raw` is the object before construction
(`mCurrentState` is not initialised by the constructor). -/
def new (w : Platform) (raw : Ghost) : Ghost :=
  let g := { raw with
    mGhostLaughSound := Sound.mGhostLaughSound
    mGhostSounds :=
      [Sound.mGhostDefaultSound, Sound.mTypeWriterSound, Sound.mPianoSound, Sound.mDoorSound,
       Sound.mGhostYellSound, Sound.mGhostLaughSound, Sound.mGhostLaugh1, Sound.mGhostLaugh2,
       Sound.mGhostLaugh3, Sound.mVoiceIntroSound, Sound.mRadioSound, Sound.mGhostDeathSound]
    mGhostPosition := ⟨8, 0, -1⟩
    mGhostPath := ⟨0, 0, 0⟩ }
  let g := { g with
    mGhostEmitter := Emitter.new w raw.mGhostEmitter Sound.mVoiceIntroSound g.mGhostPosition false
    mEventEmitter := Emitter.new w raw.mEventEmitter Sound.mGhostYellSound g.mGhostPosition true }
  let g := { g with
    mGhostStart := true
    mMoving := false
    mGhostActive := false
    mInitialised := false
    mGhostDefeated := false
    mAtStage := false
    mGhostLaughing := false
    mStageCount := 0 }
  SetUpGhost g

/-- Ghost::IsValid. -/
def IsValid (w : Platform) (g : Ghost) : Bool :=
  g.mGhostSounds.all w.IsValid

/-- Ghost::GetGhostPosition. -/
def GetGhostPosition (g : Ghost) : X3DAUDIO_VECTOR :=
  g.mGhostPosition

/-- Ghost::UpdateEmitter. -/
def UpdateEmitter (env : Env) (g : Ghost) : Ghost :=
  { g with
    mGhostEmitter := g.mGhostEmitter.UpdateEmitter env
    mEventEmitter := g.mEventEmitter.UpdateEmitter env }

/-- Ghost::SetGhostActive. -/
def SetGhostActive (w : Platform) (env : Env) (g : Ghost) : Ghost :=
  { g with
    mGhostEmitter := (g.mGhostEmitter.UpdateEmitter env).PlayEmitter w
    mGhostActive := true }

/-- Ghost::Reset. -/
def Reset (env : Env) (g : Ghost) : Ghost :=
  { g with
    mGhostEmitter := g.mGhostEmitter.UpdateEmitter env
    mEventEmitter := g.mEventEmitter.UpdateEmitter env }

/-- Ghost::Stop. -/
def Stop (w : Platform) (g : Ghost) : Ghost :=
  { g with
    mGhostEmitter := g.mGhostEmitter.StopEmitter w
    mEventEmitter := g.mEventEmitter.StopEmitter w }

/-- The local `Length` of Ghost::SetGhostPath: the length of the horizontal
vector from the ghost to its target. -/
def PathLength (w : Platform) (g : Ghost) : ℚ :=
  let PathVector : X3DAUDIO_VECTOR :=
    ⟨g.mGhostTargetPosition.x - g.mGhostPosition.x, 0, g.mGhostTargetPosition.z - g.mGhostPosition.z⟩
  w.sqrt (PathVector.x * PathVector.x + PathVector.y * PathVector.y + PathVector.z * PathVector.z)

/-- Ghost::SetGhostPath.  The three quotients by `Length` are rational
quotients.  Where `PathLength` is zero the float divisions of the code are
divisions by zero and yield NaN, for which the rationals have no value:
there `Ghost.SetGhostPath.path` is `none`, and the quotient written here
(0, by the convention for rationals) does not stand for what the code
stores. -/
def SetGhostPath (w : Platform) (g : Ghost) : Ghost :=
  let StartingPosition := g.mGhostPosition
  let TargetPosition := g.mGhostTargetPosition
  let PathVector : X3DAUDIO_VECTOR :=
    ⟨TargetPosition.x - StartingPosition.x, 0, TargetPosition.z - StartingPosition.z⟩
  let Length := PathLength w g
  let PathVector : X3DAUDIO_VECTOR :=
    ⟨(PathVector.x / Length) * SPEED, (PathVector.y / Length) * SPEED, (PathVector.z / Length) * SPEED⟩
  { g with mMoving := true, mGhostPath := PathVector }

/-- Ghost::MoveGhostToNewPosition. -/
def MoveGhostToNewPosition (w : Platform) (env : Env) (g : Ghost) : Ghost :=
  let g := { g with mGhostPosition :=
    ⟨g.mGhostPosition.x + g.mGhostPath.x, g.mGhostPosition.y + g.mGhostPath.y,
     g.mGhostPosition.z + g.mGhostPath.z⟩ }
  let Distance := v3f.Distance w g.mGhostPosition g.mGhostTargetPosition
  let g := { g with mGhostEmitter := (g.mGhostEmitter.SetPosition g.mGhostPosition).UpdateEmitter env }
  if Distance < HIT_TARGET_RANGE then
    let g := { g with mMoving := false }
    let g := { g with mGhostPosition := g.mGhostTargetPosition }
    let g := { g with mGhostEmitter := g.mGhostEmitter.SetPosition g.mGhostPosition }
    let g := { g with mEventEmitter := g.mEventEmitter.PlayEmitter w }
    let g := { g with mAtStage := true }
    let g :=
      if g.mCurrentState = GhostState.PIANO then
        { g with mEventEmitter :=
            g.mEventEmitter.ChangeEmitterSound w env Sound.mPianoSound g.mGhostTargetPosition true }
      else if g.mCurrentState = GhostState.TYPEWRITER then
        { g with mEventEmitter :=
            g.mEventEmitter.ChangeEmitterSound w env Sound.mTypeWriterSound g.mGhostTargetPosition true }
      else if g.mCurrentState = GhostState.KNOCKING then
        { g with mEventEmitter :=
            g.mEventEmitter.ChangeEmitterSound w env Sound.mDoorSound g.mGhostTargetPosition true }
      else if g.mCurrentState = GhostState.RADIO then
        { g with mEventEmitter :=
            g.mEventEmitter.ChangeEmitterSound w env Sound.mRadioSound g.mGhostTargetPosition true }
      else g
    { g with mGhostEmitter :=
        g.mGhostEmitter.ChangeEmitterSound w env Sound.mGhostDefaultSound g.mGhostPosition true }
  else g

/-- Ghost::UpdateGhost. -/
def UpdateGhost (w : Platform) (env : Env) (g : Ghost) : Ghost :=
  let g := if g.mMoving then MoveGhostToNewPosition w env g else g
  if g.mGhostLaughing then
    if g.mGhostEmitter.EmitterActive env = false then
      let g := { g with mGhostEmitter :=
        g.mGhostEmitter.ChangeEmitterSound w env Sound.mGhostDefaultSound g.mGhostPosition true }
      { g with mGhostLaughing := false }
    else g
  else g

/-- Ghost::DefeatGhost. -/
def DefeatGhost (w : Platform) (env : Env) (g : Ghost) : Ghost :=
  let g := { g with mGhostEmitter :=
    g.mGhostEmitter.ChangeEmitterSound w env Sound.mGhostDeathSound g.mGhostPosition false }
  { g with mGhostDefeated := true }

/-- One pass through the body of the `while (!NewStageSet)` loop of
Ghost::SetNewStage, after the draw: the four `if (NewStage == ...)` blocks
in the order of the source.  The state carries the local `NewStageSet`. -/
def SetNewStage.body (w : Platform) (NewStage : Int) (s : Ghost × Bool) : Ghost × Bool :=
  let s :=
    if NewStage = GhostState.PIANO.toInt then
      if s.1.mPianoAvailable then
        let g := { s.1 with mCurrentState := GhostState.PIANO }
        let g := { g with mGhostTargetPosition := g.mPianoPosition }
        let g := SetGhostPath w g
        let g := { g with mStageCount := g.mStageCount + 1 }
        let g := { g with mPianoAvailable := false }
        (g, true)
      else s
    else s
  let s :=
    if NewStage = GhostState.KNOCKING.toInt then
      if s.1.mDoorAvailable then
        let g := { s.1 with mCurrentState := GhostState.KNOCKING }
        let g := { g with mGhostTargetPosition := g.mDoorPosition }
        let g := SetGhostPath w g
        let g := { g with mStageCount := g.mStageCount + 1 }
        let g := { g with mDoorAvailable := false }
        (g, true)
      else s
    else s
  let s :=
    if NewStage = GhostState.TYPEWRITER.toInt then
      if s.1.mTypewriterAvailable then
        let g := { s.1 with mCurrentState := GhostState.TYPEWRITER }
        let g := { g with mGhostTargetPosition := g.mTypeWriterPosition }
        let g := SetGhostPath w g
        let g := { g with mStageCount := g.mStageCount + 1 }
        let g := { g with mTypewriterAvailable := false }
        (g, true)
      else s
    else s
  let s :=
    if NewStage = GhostState.RADIO.toInt then
      if s.1.mRadioAvailable then
        let g := { s.1 with mCurrentState := GhostState.RADIO }
        let g := { g with mGhostTargetPosition := g.mRadioPosition }
        let g := SetGhostPath w g
        let g := { g with mStageCount := g.mStageCount + 1 }
        let g := { g with mRadioAvailable := false }
        (g, true)
      else s
    else s
  s

/-- The loop `while (!NewStageSet)` of Ghost::SetNewStage, entered with
`NewStageSet` false.  `rand` holds the values the coming calls of `rand()`
return; the result is the ghost when the loop ends and the values not yet
drawn, or `none` when the loop is still running after the last value. -/
def SetNewStage.loop (w : Platform) : List Nat → Ghost → Option (Ghost × List Nat)
  | [], _ => none
  | r :: rand, g =>
    let NewStage : Int := (r % 4 : Nat)
    let s := SetNewStage.body w NewStage (g, false)
    if s.2 then some (s.1, rand) else SetNewStage.loop w rand s.1

/-- Ghost::SetNewStage.  `rand` and the result are as for the loop. -/
def SetNewStage (w : Platform) (env : Env) (rand : List Nat) (g : Ghost) :
    Option (Ghost × List Nat) :=
  let g := { g with mEventEmitter := g.mEventEmitter.PauseEmitter w }
  let g := { g with mAtStage := false }
  if g.mStageCount = STAGE_LIMIT then
    some (DefeatGhost w env g, rand)
  else
    match SetNewStage.loop w rand g with
    | none => none
    | some (g, rand) =>
      if g.mGhostStart then
        let g := { g with mGhostEmitter :=
          g.mGhostEmitter.ChangeEmitterSound w env Sound.mGhostLaugh1 g.mGhostPosition false }
        some ({ g with mGhostStart := false }, rand)
      else
        let g := { g with mEventEmitter := g.mEventEmitter.StopEmitter w }
        let g := { g with mGhostEmitter :=
          g.mGhostEmitter.ChangeEmitterSound w env Sound.mGhostYellSound g.mGhostPosition false }
        some (g, rand)

/-- Ghost::InitialiseGhost.  The draws of the stage loop are
`env.stageDraws`. -/
def InitialiseGhost (w : Platform) (env : Env) (g : Ghost) : Option Ghost :=
  if !g.mInitialised then
    let g := if !g.mGhostActive then SetGhostActive w env g else g
    if g.mGhostActive && !g.mGhostEmitter.EmitterActive env && g.mGhostStart then
      match SetNewStage w env env.stageDraws g with
      | none => none
      | some (g, _) => some { g with mInitialised := true }
    else some g
  else some g

/-- Ghost::SetGhostLaugh. -/
def SetGhostLaugh (env : Env) (g : Ghost) : Ghost :=
  let GhostLaughID : Int := (env.laughDraw % 3 : Nat) + 1
  let g := if GhostLaughID = 1 then { g with mGhostLaughSound := Sound.mGhostLaugh1 } else g
  let g := if GhostLaughID = 2 then { g with mGhostLaughSound := Sound.mGhostLaugh2 } else g
  let g := if GhostLaughID = 3 then { g with mGhostLaughSound := Sound.mGhostLaugh3 } else g
  g

/-- Ghost::GhostLaugh. -/
def GhostLaugh (w : Platform) (env : Env) (g : Ghost) : Ghost :=
  let g := { g with mGhostLaughing := true }
  let g := SetGhostLaugh env g
  { g with mGhostEmitter :=
      g.mGhostEmitter.ChangeEmitterSound w env g.mGhostLaughSound g.mGhostPosition false }

end Ghost

/-! ## MovingCritter -/

def LEFT_X_LIMIT : Int := -10
def RIGHT_X_LIMIT : Int := 31
def LEFT_SIDE : Int := 1
def RIGHT_SIDE : Int := 2

/-- The enum MovingCritter::AnimalType. -/
inductive AnimalType
  | BATS | MICE
deriving DecidableEq, Repr

/-- The class MovingCritter.  Its GameTimer is outside the model: what
`GetElapsedTime` returns comes from the `Env`. -/
structure MovingCritter where
  mInitialised : Bool
  mAnimalEmitter : Emitter
  mCurrentType : AnimalType
  mCritterSounds : List Sound
  mMoving : Bool
  mCritterActive : Bool
  RoomSide : Int
  NextCritterTime : Int
  mCritterPosition : X3DAUDIO_VECTOR
  mDirectionVector : X3DAUDIO_VECTOR
  mCritterTargetX : ℚ
deriving DecidableEq, Repr

namespace MovingCritter

/-- MovingCritter::GetNextTime. -/
def GetNextTime (env : Env) (c : MovingCritter) : MovingCritter :=
  let LowerTimeLimit : Int := 15
  let UpperTimeLimit : Int := 25
  { c with NextCritterTime := (env.critterTimeDraw : Int) % (UpperTimeLimit - 20) + LowerTimeLimit }

/-- MovingCritter::MovingCritter.  `raw` is the object before construction
(`mCritterActive` is not initialised; nothing is ever added to
`mCritterSounds`). -/
def new (w : Platform) (env : Env) (raw : MovingCritter) : MovingCritter :=
  let c := { raw with
    mCritterSounds := []
    mCritterPosition := ⟨0, 0, 0⟩
    mDirectionVector := ⟨0, 0, 0⟩
    mInitialised := false
    mMoving := false
    mCritterTargetX := 0
    RoomSide := LEFT_SIDE
    mCurrentType := AnimalType.BATS }
  let c := { c with
    mAnimalEmitter := Emitter.new w raw.mAnimalEmitter Sound.mMiceSound c.mCritterPosition true }
  GetNextTime env c

/-- MovingCritter::InitialiseCritter. -/
def InitialiseCritter (c : MovingCritter) : MovingCritter :=
  if !c.mInitialised then { c with mInitialised := true } else c

/-- MovingCritter::SetCritterPath.  The local `CritterPosition` starts
uninitialised. -/
def SetCritterPath (w : Platform) (env : Env) (PlayerPos : X3DAUDIO_VECTOR)
    (c : MovingCritter) : MovingCritter :=
  let CritterPosition := env.indeterminate
  let s : MovingCritter × X3DAUDIO_VECTOR :=
    if c.RoomSide = LEFT_SIDE then
      ({ c with mCritterTargetX := RIGHT_X_LIMIT }, { CritterPosition with x := LEFT_X_LIMIT })
    else if c.RoomSide = RIGHT_SIDE then
      ({ c with mCritterTargetX := LEFT_X_LIMIT }, { CritterPosition with x := RIGHT_X_LIMIT })
    else (c, CritterPosition)
  let c := s.1
  let CritterPosition := s.2
  let CritterPosition : X3DAUDIO_VECTOR :=
    match c.mCurrentType with
    | AnimalType.BATS => { CritterPosition with y := 1 }
    | AnimalType.MICE => { CritterPosition with y := 0 }
  let CritterPosition := { CritterPosition with z := ((env.critterZDraw % 16 + 1 : Nat) : ℚ) }
  let PlayerPosition : X3DAUDIO_VECTOR := ⟨PlayerPos.x, CritterPosition.y, PlayerPos.z⟩
  let c := { c with mDirectionVector := v3f.sub PlayerPosition CritterPosition }
  let c := { c with mDirectionVector := v3f.Normalise w c.mDirectionVector }
  let c := { c with mDirectionVector := v3f.scale c.mDirectionVector SPEED }
  { c with mMoving := true }

/-- The block of MovingCritter::MoveCritter that ends a crossing: pause,
stop moving, move to `NewSide`, swap the animal and its sound. -/
def MoveCritter.finish (w : Platform) (env : Env) (NewSide : Int) (c : MovingCritter) :
    MovingCritter :=
  let c := { c with mAnimalEmitter := c.mAnimalEmitter.PauseEmitter w }
  let c := { c with mMoving := false }
  let c := { c with RoomSide := NewSide }
  match c.mCurrentType with
  | AnimalType.BATS =>
    let c := { c with mCurrentType := AnimalType.MICE }
    let c := { c with mAnimalEmitter :=
      c.mAnimalEmitter.ChangeEmitterSound w env Sound.mMiceSound c.mCritterPosition true }
    { c with mAnimalEmitter := c.mAnimalEmitter.PauseEmitter w }
  | AnimalType.MICE =>
    let c := { c with mCurrentType := AnimalType.BATS }
    let c := { c with mAnimalEmitter :=
      c.mAnimalEmitter.ChangeEmitterSound w env Sound.mBatsSound c.mCritterPosition true }
    { c with mAnimalEmitter := c.mAnimalEmitter.PauseEmitter w }

/-- MovingCritter::MoveCritter: the move, then the two `if` blocks of the
source one after the other. -/
def MoveCritter (w : Platform) (env : Env) (c : MovingCritter) : MovingCritter :=
  let c := { c with mCritterPosition :=
    ⟨c.mCritterPosition.x + c.mDirectionVector.x, c.mCritterPosition.y + c.mDirectionVector.y,
     c.mCritterPosition.z + c.mDirectionVector.z⟩ }
  let c := { c with mAnimalEmitter :=
    (c.mAnimalEmitter.SetPosition c.mCritterPosition).UpdateEmitter env }
  let c :=
    if c.RoomSide = LEFT_SIDE ∧ c.mCritterPosition.x > c.mCritterTargetX then
      MoveCritter.finish w env RIGHT_SIDE c
    else c
  let c :=
    if c.RoomSide = RIGHT_SIDE ∧ c.mCritterPosition.x < c.mCritterTargetX then
      MoveCritter.finish w env LEFT_SIDE c
    else c
  c

/-- MovingCritter::UpdateCritter.  `PlayerPos` is what the player reference
reports as the player's position. -/
def UpdateCritter (w : Platform) (env : Env) (PlayerPos : X3DAUDIO_VECTOR)
    (c : MovingCritter) : MovingCritter :=
  let c :=
    if c.mInitialised then
      if !c.mMoving && decide (env.critterElapsed > c.NextCritterTime) then
        let c := SetCritterPath w env PlayerPos c
        let c := { c with mAnimalEmitter := c.mAnimalEmitter.PlayEmitter w }
        GetNextTime env c
      else c
    else c
  if c.mMoving then MoveCritter w env c else c

/-- MovingCritter::UpdateEmitter. -/
def UpdateEmitter (env : Env) (c : MovingCritter) : MovingCritter :=
  { c with mAnimalEmitter := c.mAnimalEmitter.UpdateEmitter env }

/-- MovingCritter::Reset. -/
def Reset (env : Env) (c : MovingCritter) : MovingCritter :=
  { c with mAnimalEmitter := c.mAnimalEmitter.UpdateEmitter env }

/-- MovingCritter::Stop. -/
def Stop (w : Platform) (c : MovingCritter) : MovingCritter :=
  { c with mAnimalEmitter := c.mAnimalEmitter.StopEmitter w }

/-- MovingCritter::IsValid. -/
def IsValid (w : Platform) (c : MovingCritter) : Bool :=
  c.mCritterSounds.all w.IsValid

end MovingCritter

/-! ## Room -/

def ROOM_X_SIZE : Int := 16
def ROOM_Z_SIZE : Int := 16
def NORMAL_FLOOR_VALUE : Int := 0
def WALL_VALUE : Int := 1
def DOOR_VALUE : Int := 2
def TABLE_VALUE : Int := 3
def PIANO_VALUE : Int := 4
def RADIO_VALUE : Int := 5
def TYPEWRITER_VALUE : Int := 6
def OBJECT_COUNT : Nat := 4

/-- The struct CollidableObject. -/
structure CollidableObject where
  ObjectType : Int
  ObjectPosition : X3DAUDIO_VECTOR
  ObjectWidth : ℚ
  ObjectHeight : ℚ
deriving DecidableEq, Repr

/-- The array `float mRoomBase[ROOM_X_SIZE][ROOM_Z_SIZE]` as the memory
around it: what a write at indices `i`, `j` left there, `none` where
nothing was written.  The floats stored are the cell values 0..6. -/
abbrev Grid := Int → Int → Option Int

/-- The assignment `mRoomBase[i][j] = v`. -/
def Grid.write (g : Grid) (i j v : Int) : Grid :=
  fun a b => if a = i ∧ b = j then some v else g a b

/-- The value read by `mRoomBase[i][j]`: `none` when the indices are
outside the array or the cell was never written. -/
def Grid.read (g : Grid) (i j : Int) : Option Int :=
  if 0 ≤ i ∧ i < ROOM_X_SIZE ∧ 0 ≤ j ∧ j < ROOM_Z_SIZE then g i j else none

/-- The values of the counter of `for (int i = lo; i <= hi; i++)`. -/
def forRange (lo : Int) (hi : ℚ) : List Int :=
  (List.range (⌊hi⌋ + 1 - lo).toNat).map fun k => lo + (k : Int)

/-- The class Room. -/
structure Room where
  mRoomBase : Grid
  mPlayer : Player
  mGhost : Ghost
  mCritters : MovingCritter
  mDoorPosition : X3DAUDIO_VECTOR
  mOutsideSoundPosition : X3DAUDIO_VECTOR
  mPianoObject : CollidableObject
  mTypewriterObject : CollidableObject
  mTableObject : CollidableObject
  mRadioObject : CollidableObject
  mInitialised : Bool
  mDoorExited : Bool
  mPlayerFree : Bool
  mDoorTry : Bool
  mPianoCollision : Bool
  mRadioCollision : Bool
  mTypeWriterCollision : Bool
  mTableCollision : Bool
  mRoomSounds : List Sound
  mOutdoorEmitter : Emitter
  mDoorOpen : Bool
  mGhostDistance : ℚ
  calls : List AudioCall

namespace Room

/-- The writes to `mRoomBase[i][j]` of one pass through the body of the
double loop of Room::SetUpRoom: wall or floor, then the door. -/
def SetUpRoom.cell (mDoorPosition : X3DAUDIO_VECTOR) (i j : Int) : List (Int × Int × Int) :=
  (if i = 0 ∨ j = 0 ∨ i = ROOM_X_SIZE - 1 ∨ j = ROOM_Z_SIZE - 1 then [(i, j, WALL_VALUE)]
   else [(i, j, NORMAL_FLOOR_VALUE)]) ++
  (if ((i : ℚ) = mDoorPosition.x ∨ (i : ℚ) = mDoorPosition.x - 1 ∨
        (i : ℚ) = mDoorPosition.x + 1) ∧ (j : ℚ) = mDoorPosition.z then
     [(i, j, DOOR_VALUE)]
   else [])

/-- The writes of Room::SetUpRoom that fill in one collidable object. -/
def SetUpRoom.object (CurrentObject : CollidableObject) : List (Int × Int × Int) :=
  let HalfHeight : ℚ := toInt (1 / 2 * CurrentObject.ObjectHeight)
  let HalfWidth : ℚ := toInt (1 / 2 * CurrentObject.ObjectWidth)
  (forRange (toInt (CurrentObject.ObjectPosition.x - HalfWidth))
      (CurrentObject.ObjectPosition.x + HalfWidth - 1)).flatMap fun i =>
    (forRange (toInt (CurrentObject.ObjectPosition.z - HalfHeight))
      (CurrentObject.ObjectPosition.z + HalfHeight - 1)).map fun j =>
        (i, j, CurrentObject.ObjectType)

/-- Every write `mRoomBase[i][j] = v` of Room::SetUpRoom as `(i, j, v)`, in
the order of execution: the double loop over the grid, then the loop over
the objects. -/
def SetUpRoom.writes (mDoorPosition : X3DAUDIO_VECTOR) (objects : List CollidableObject) :
    List (Int × Int × Int) :=
  ((List.range 16).flatMap fun i => (List.range 16).flatMap fun j =>
      SetUpRoom.cell mDoorPosition (i : Int) (j : Int)) ++
  objects.flatMap SetUpRoom.object

/-- Room::SetUpRoom. -/
def SetUpRoom (r : Room) : Room :=
  let r := { r with
    mPianoObject := ⟨PIANO_VALUE, r.mGhost.mPianoPosition, 4, 4⟩
    mTypewriterObject := ⟨TYPEWRITER_VALUE, r.mGhost.mTypeWriterPosition, 2, 2⟩
    mTableObject := ⟨TABLE_VALUE, ⟨8, 0, 9⟩, 2, 4⟩
    mRadioObject := ⟨RADIO_VALUE, r.mGhost.mRadioPosition, 2, 2⟩ }
  let r := { r with
    mPianoCollision := false
    mRadioCollision := false
    mTypeWriterCollision := false
    mTableCollision := false }
  let r := { r with
    mRoomBase :=
      (SetUpRoom.writes r.mDoorPosition
        [r.mPianoObject, r.mTypewriterObject, r.mRadioObject, r.mTableObject]).foldl
        (fun (g : Grid) (c : Int × Int × Int) => g.write c.1 c.2.1 c.2.2) r.mRoomBase }
  { r with calls := r.calls ++
      [AudioCall.SetLooped Sound.mAmbientMusic true, AudioCall.SetVolume Sound.mAmbientMusic (-25),
       AudioCall.Play Sound.mAmbientMusic] }

/-- Room::Room.  `raw` is the object before construction; `env` gives the
draw of the critter's constructor. -/
def new (w : Platform) (env : Env) (raw : Room) : Room :=
  let r := { raw with
    mRoomSounds :=
      [Sound.mHitWallSound, Sound.mForestSound, Sound.mHitDoorSound, Sound.mAmbientMusic,
       Sound.mDoorOpenSound, Sound.mTableCollisionSound, Sound.mPianoCollisionSound,
       Sound.mRadioCollisionSound, Sound.mTypeWriterCollisionSound]
    calls := [] }
  let r := { r with mPlayer := Player.new raw.mPlayer }
  let r := { r with mGhost := Ghost.new w raw.mGhost }
  let r := { r with mCritters := MovingCritter.new w env raw.mCritters }
  let r := { r with
    mInitialised := false
    mDoorExited := false
    mDoorTry := false
    mPlayerFree := false
    mDoorOpen := false
    mGhostDistance := 0
    mDoorPosition := ⟨8, 0, 0⟩ }
  let r := { r with
    mOutsideSoundPosition := ⟨r.mDoorPosition.x, 0, r.mDoorPosition.z - 3 / 2⟩ }
  let SoundPosition := r.mOutsideSoundPosition
  let DoorPosition := r.mDoorPosition
  let r := { r with
    mOutdoorEmitter := Emitter.newWithCone w raw.mOutdoorEmitter Sound.mForestSound
      r.mOutsideSoundPosition SoundPosition DoorPosition true }
  let r := { r with
    mOutdoorEmitter := r.mOutdoorEmitter.SetEmitterFilter FilterType.LowPassFilter 550 (6 / 5) }
  SetUpRoom r

/-- Room::IsValid. -/
def IsValid (w : Platform) (r : Room) : Bool :=
  r.mPlayer.IsValid w && r.mGhost.IsValid w && r.mCritters.IsValid w &&
    w.IsValid Sound.mHitWallSound && w.IsValid Sound.mForestSound

/-- Room::DoorExited. -/
def DoorExited (r : Room) : Bool :=
  r.mDoorExited

/-- Room::InitialiseRoomObjects. -/
def InitialiseRoomObjects (w : Platform) (env : Env) (r : Room) : Option Room :=
  match r.mGhost.InitialiseGhost w env with
  | none => none
  | some g =>
    let r := { r with mGhost := g }
    let r := { r with mCritters := r.mCritters.InitialiseCritter }
    if r.mGhost.mInitialised = true && r.mCritters.mInitialised = true then
      some { r with mInitialised := true }
    else some r

/-- Room::GetDistance. -/
def GetDistance (w : Platform) (r : Room) : Room :=
  let PlayerPos := r.mPlayer.GetPosition
  let GhostPos := r.mGhost.GetGhostPosition
  { r with mGhostDistance := v3f.Distance w PlayerPos GhostPos }

/-- Room::OpenDoor. -/
def OpenDoor (r : Room) : Room :=
  let r := { r with calls := r.calls ++ [AudioCall.Play Sound.mDoorOpenSound] }
  let r := { r with
    mOutdoorEmitter := r.mOutdoorEmitter.SetEmitterFilter FilterType.HighPassFilter 0 0 }
  { r with mDoorOpen := true }

/-- Room::UpdateRoom.  `none` when the stage loop has not ended on the
draws of `env`. -/
def UpdateRoom (w : Platform) (env : Env) (r : Room) : Option Room :=
  let r? := if !r.mInitialised && r.mPlayer.mPlayerActive then InitialiseRoomObjects w env r else some r
  match r? with
  | none => none
  | some r =>
    let r :=
      if r.mGhost.mGhostDefeated then
        let r :=
          if !r.mGhost.mGhostEmitter.EmitterActive env && !r.mDoorOpen then OpenDoor r else r
        if r.mDoorOpen && !env.IsPlaying Sound.mDoorOpenSound then { r with mPlayerFree := true }
        else r
      else r
    let r := GetDistance w r
    let r := { r with mPlayer := r.mPlayer.UpdatePlayer w env r.mGhostDistance r.mPlayerFree }
    let r := { r with mGhost := r.mGhost.UpdateGhost w env }
    let r := { r with mCritters := r.mCritters.UpdateCritter w env r.mPlayer.GetPosition }
    some r

/-- Room::Reset. -/
def Reset (w : Platform) (env : Env) (r : Room) : Room :=
  let r := { r with mPlayer := r.mPlayer.ResetPlayer }
  let r := { r with mGhost := r.mGhost.Reset env }
  let r := { r with mCritters := r.mCritters.Reset env }
  { r with mOutdoorEmitter := r.mOutdoorEmitter.ResetEmitter w env true }

/-- Room::Stop. -/
def Stop (w : Platform) (r : Room) : Room :=
  let r := { r with mOutdoorEmitter := r.mOutdoorEmitter.StopEmitter w }
  let r := { r with mPlayer := r.mPlayer.Stop w }
  let r := { r with mGhost := r.mGhost.Stop w }
  { r with mCritters := r.mCritters.Stop w }

/-- The indices `NextX`, `NextZ` of Room::HitWallOrDoor: the cell of the
grid one step ahead of the player. -/
def NextCell (r : Room) : Int × Int :=
  let NextPos := r.mPlayer.GetNextPosition
  (toInt (NextPos.x - 1), toInt (NextPos.z - 1))

/-- Room::HitWallOrDoor: the value returned and the room afterwards; `none`
when the read of `mRoomBase[NextX][NextZ]` is outside the array. -/
def HitWallOrDoor (r : Room) : Option (Bool × Room) :=
  let NextX := (NextCell r).1
  let NextZ := (NextCell r).2
  match r.mRoomBase.read NextX NextZ with
  | none => none
  | some cell =>
    if cell = NORMAL_FLOOR_VALUE then some (false, r)
    else if cell = DOOR_VALUE then some (true, { r with mDoorTry := true })
    else if cell = TABLE_VALUE then some (true, { r with mTableCollision := true })
    else if cell = PIANO_VALUE then some (true, { r with mPianoCollision := true })
    else if cell = RADIO_VALUE then some (true, { r with mRadioCollision := true })
    else if cell = TYPEWRITER_VALUE then some (true, { r with mTypeWriterCollision := true })
    else if cell = WALL_VALUE then some (true, r)
    else some (false, r)

/-- The part of Room::MovePlayer after the collision branches: the step
forward and the update of the emitters. -/
def MovePlayer.advance (env : Env) (r : Room) : Room :=
  let r :=
    if r.mPlayer.mPlayerCanMove then
      { r with mPlayer := { r.mPlayer with
          mPlayerListener := r.mPlayer.mPlayerListener.MoveForward 1 } }
    else r
  let r := { r with mOutdoorEmitter := r.mOutdoorEmitter.UpdateEmitter env }
  let r := { r with mGhost := r.mGhost.UpdateEmitter env }
  { r with mCritters := r.mCritters.UpdateEmitter env }

/-- Room::MovePlayer. -/
def MovePlayer (w : Platform) (env : Env) (r : Room) : Option Room :=
  match HitWallOrDoor r with
  | none => none
  | some (hit, r) =>
    if hit && !r.DoorExited then
      let r := { r with mPlayer := { r.mPlayer with mInPain := true } }
      if r.mDoorTry then
        if r.mDoorOpen then some { r with mDoorExited := true }
        else if w.IsValid Sound.mHitDoorSound then
          let r := { r with calls := r.calls ++ [AudioCall.Play Sound.mHitDoorSound] }
          some { r with mDoorTry := false }
        else some r
      else if r.mTableCollision then
        if w.IsValid Sound.mTableCollisionSound then
          let r := { r with calls := r.calls ++ [AudioCall.Play Sound.mTableCollisionSound] }
          some { r with mTableCollision := false }
        else some r
      else if r.mPianoCollision then
        if w.IsValid Sound.mPianoCollisionSound then
          let r := { r with calls := r.calls ++ [AudioCall.Play Sound.mPianoCollisionSound] }
          some { r with mPianoCollision := false }
        else some r
      else if r.mRadioCollision then
        if w.IsValid Sound.mRadioCollisionSound then
          let r := { r with calls := r.calls ++ [AudioCall.Play Sound.mRadioCollisionSound] }
          some { r with mRadioCollision := false }
        else some r
      else if r.mTypeWriterCollision then
        if w.IsValid Sound.mTypeWriterCollisionSound then
          let r := { r with calls := r.calls ++ [AudioCall.Play Sound.mTypeWriterCollisionSound] }
          some { r with mTypeWriterCollision := false }
        else some r
      else
        if w.IsValid Sound.mHitWallSound then
          some { r with calls := r.calls ++ [AudioCall.Play Sound.mHitWallSound] }
        else some r
    else some (MovePlayer.advance env r)

/-- Room::TurnPlayerLeft. -/
def TurnPlayerLeft (env : Env) (r : Room) : Room :=
  if r.mPlayer.mPlayerCanTurn then
    let r := { r with mPlayer := { r.mPlayer with
      mPlayerListener := r.mPlayer.mPlayerListener.TurnCounterClockwise.TurnCounterClockwise } }
    let r := { r with mOutdoorEmitter := r.mOutdoorEmitter.UpdateEmitter env }
    let r := { r with mGhost := r.mGhost.UpdateEmitter env }
    { r with mCritters := r.mCritters.UpdateEmitter env }
  else r

/-- Room::TurnPlayerRight. -/
def TurnPlayerRight (env : Env) (r : Room) : Room :=
  if r.mPlayer.mPlayerCanTurn then
    let r := { r with mPlayer := { r.mPlayer with
      mPlayerListener := r.mPlayer.mPlayerListener.TurnClockwise.TurnClockwise } }
    let r := { r with mOutdoorEmitter := r.mOutdoorEmitter.UpdateEmitter env }
    let r := { r with mGhost := r.mGhost.UpdateEmitter env }
    { r with mCritters := r.mCritters.UpdateEmitter env }
  else r

/-- Room::TryToCaptureGhost.  The draws of the stage loop are
`env.stageDraws`. -/
def TryToCaptureGhost (w : Platform) (env : Env) (r : Room) : Option Room :=
  let r := { r with mPlayer := r.mPlayer.CaptureGhost w }
  if r.mGhost.mGhostActive then
    if decide (r.mGhostDistance < DETECTION_RANGE) && r.mGhost.mAtStage then
      match r.mGhost.SetNewStage w env env.stageDraws with
      | none => none
      | some (g, _) => some { r with mGhost := g }
    else some { r with mGhost := r.mGhost.GhostLaugh w env }
  else some r

end Room

/-! ## Sequences of calls -/

/-- Whether a stage is still available to the ghost: the flag of the
stage. -/
def Ghost.available (g : Ghost) : GhostState → Bool
  | GhostState.KNOCKING => g.mDoorAvailable
  | GhostState.PIANO => g.mPianoAvailable
  | GhostState.TYPEWRITER => g.mTypewriterAvailable
  | GhostState.RADIO => g.mRadioAvailable

/-- The stage a draw names: the enumerator whose value is `rand() % 4`. -/
def GhostState.ofDraw (r : Nat) : GhostState :=
  if r % 4 = 0 then GhostState.KNOCKING
  else if r % 4 = 1 then GhostState.PIANO
  else if r % 4 = 2 then GhostState.TYPEWRITER
  else GhostState.RADIO

/-- The stage a call of SetNewStage selected, read off the ghost before
(`g`) and after (`g'`) the call: the call selected a stage when it raised
`mStageCount`, and the stage is the new `mCurrentState`. -/
def Ghost.selected (g g' : Ghost) : Option GhostState :=
  if g'.mStageCount = g.mStageCount + 1 then some g'.mCurrentState else none

/-- Successive calls of Ghost::SetNewStage, one for each `Env`, drawing
from `rand` one after the other: the stages the calls selected, in order,
up to the first call whose loop has not ended on the draws left. -/
def Ghost.selections (w : Platform) : List Env → List Nat → Ghost → List GhostState
  | [], _, _ => []
  | env :: envs, rand, g =>
    match g.SetNewStage w env rand with
    | none => []
    | some (g', rand') => (Ghost.selected g g').toList ++ Ghost.selections w envs rand' g'

/-- Successive calls of Ghost::SetNewStage, one for each `Env`, drawing
from `rand` one after the other: the ghost and the draws left at the end. -/
def Ghost.SetNewStageTimes (w : Platform) : List Env → List Nat → Ghost → Option (Ghost × List Nat)
  | [], rand, g => some (g, rand)
  | env :: envs, rand, g =>
    match g.SetNewStage w env rand with
    | none => none
    | some (g', rand') => Ghost.SetNewStageTimes w envs rand' g'

/-- A call of one of the operations of the ghost that the room uses. -/
inductive GhostCall
  | InitialiseGhost (env : Env)
  | SetNewStage (env : Env) (rand : List Nat)
  | UpdateGhost (env : Env)
  | GhostLaugh (env : Env)

/-- The ghost after one call; `none` when the stage loop has not ended. -/
def Ghost.step (w : Platform) : GhostCall → Ghost → Option Ghost
  | GhostCall.InitialiseGhost env, g => g.InitialiseGhost w env
  | GhostCall.SetNewStage env rand, g => (g.SetNewStage w env rand).map Prod.fst
  | GhostCall.UpdateGhost env, g => some (g.UpdateGhost w env)
  | GhostCall.GhostLaugh env, g => some (g.GhostLaugh w env)

/-- The ghost after a sequence of calls. -/
def Ghost.run (w : Platform) : List GhostCall → Ghost → Option Ghost
  | [], g => some g
  | c :: cs, g => (Ghost.step w c g).bind (Ghost.run w cs)

/-- A call of one of the public operations of the room. -/
inductive RoomCall
  | MovePlayer (env : Env)
  | TurnPlayerLeft (env : Env)
  | TurnPlayerRight (env : Env)
  | TryToCaptureGhost (env : Env)
  | Reset (env : Env)
  | UpdateRoom (env : Env)

/-- The room after one call; `none` when the call reads outside the grid
or its stage loop has not ended. -/
def Room.step (w : Platform) : RoomCall → Room → Option Room
  | RoomCall.MovePlayer env, r => r.MovePlayer w env
  | RoomCall.TurnPlayerLeft env, r => some (r.TurnPlayerLeft env)
  | RoomCall.TurnPlayerRight env, r => some (r.TurnPlayerRight env)
  | RoomCall.TryToCaptureGhost env, r => r.TryToCaptureGhost w env
  | RoomCall.Reset env, r => some (r.Reset w env)
  | RoomCall.UpdateRoom env, r => r.UpdateRoom w env

/-- The room after a sequence of calls. -/
def Room.run (w : Platform) : List RoomCall → Room → Option Room
  | [], r => some r
  | c :: cs, r => (Room.step w c r).bind (Room.run w cs)

/-- The cell of the grid under the player: `(int(x - 1), int(z - 1))`. -/
def Room.PlayerCell (r : Room) : Int × Int :=
  (toInt (r.mPlayer.GetPosition.x - 1), toInt (r.mPlayer.GetPosition.z - 1))

/-- The sound Room::MovePlayer plays for a step into a cell of the given
value: the locked door, the four obstacles, the wall. -/
def collisionSound (cell : Int) : Sound :=
  if cell = DOOR_VALUE then Sound.mHitDoorSound
  else if cell = TABLE_VALUE then Sound.mTableCollisionSound
  else if cell = PIANO_VALUE then Sound.mPianoCollisionSound
  else if cell = RADIO_VALUE then Sound.mRadioCollisionSound
  else if cell = TYPEWRITER_VALUE then Sound.mTypeWriterCollisionSound
  else Sound.mHitWallSound

/-- All the sounds the Room itself creates are valid. -/
def RoomSoundsValid (w : Platform) : Prop :=
  ∀ s ∈ [Sound.mHitWallSound, Sound.mForestSound, Sound.mHitDoorSound, Sound.mAmbientMusic,
    Sound.mDoorOpenSound, Sound.mTableCollisionSound, Sound.mPianoCollisionSound,
    Sound.mRadioCollisionSound, Sound.mTypeWriterCollisionSound], w.IsValid s = true

/-! ## Notions used to state and prove the properties -/

/-- The position of the object of a stage. -/
def Ghost.stagePosition (g : Ghost) : GhostState → X3DAUDIO_VECTOR
  | GhostState.KNOCKING => g.mDoorPosition
  | GhostState.PIANO => g.mPianoPosition
  | GhostState.TYPEWRITER => g.mTypeWriterPosition
  | GhostState.RADIO => g.mRadioPosition

/-- The ghost with the availability flag of stage `k` cleared. -/
def Ghost.markUsed (g : Ghost) : GhostState → Ghost
  | GhostState.KNOCKING => { g with mDoorAvailable := false }
  | GhostState.PIANO => { g with mPianoAvailable := false }
  | GhostState.TYPEWRITER => { g with mTypewriterAvailable := false }
  | GhostState.RADIO => { g with mRadioAvailable := false }

/-- What the block of the stage loop for stage `k` does when the stage is
available: the five statements of the block, written once for all four
stages. -/
def Ghost.select (w : Platform) (k : GhostState) (g : Ghost) : Ghost :=
  let g := { g with mCurrentState := k }
  let g := { g with mGhostTargetPosition := g.stagePosition k }
  let g := Ghost.SetGhostPath w g
  let g := { g with mStageCount := g.mStageCount + 1 }
  g.markUsed k

/-- The members of the ghost that decide its progress through the stages. -/
structure Ghost.Logic where
  mCurrentState : GhostState
  mStageCount : Int
  mPianoAvailable : Bool
  mTypewriterAvailable : Bool
  mDoorAvailable : Bool
  mRadioAvailable : Bool
  mGhostTargetPosition : X3DAUDIO_VECTOR
  mGhostDefeated : Bool
  mInitialised : Bool
  mGhostActive : Bool
  mGhostStart : Bool
  mAtStage : Bool
  mMoving : Bool
deriving DecidableEq, Repr

/-- The progress members of a ghost. -/
def Ghost.logic (g : Ghost) : Ghost.Logic :=
  { mCurrentState := g.mCurrentState
    mStageCount := g.mStageCount
    mPianoAvailable := g.mPianoAvailable
    mTypewriterAvailable := g.mTypewriterAvailable
    mDoorAvailable := g.mDoorAvailable
    mRadioAvailable := g.mRadioAvailable
    mGhostTargetPosition := g.mGhostTargetPosition
    mGhostDefeated := g.mGhostDefeated
    mInitialised := g.mInitialised
    mGhostActive := g.mGhostActive
    mGhostStart := g.mGhostStart
    mAtStage := g.mAtStage
    mMoving := g.mMoving }

/-- The four stage positions of a ghost. -/
def Ghost.stages (g : Ghost) :
    X3DAUDIO_VECTOR × X3DAUDIO_VECTOR × X3DAUDIO_VECTOR × X3DAUDIO_VECTOR :=
  (g.mDoorPosition, g.mPianoPosition, g.mTypeWriterPosition, g.mRadioPosition)

/-- The number of stages whose availability flag is cleared. -/
def Ghost.Logic.used (l : Ghost.Logic) : Int :=
  (if l.mPianoAvailable then 0 else 1) + (if l.mTypewriterAvailable then 0 else 1) +
    (if l.mDoorAvailable then 0 else 1) + (if l.mRadioAvailable then 0 else 1)

/-- The stage count equals the number of stages used. -/
def Ghost.Logic.Counted (l : Ghost.Logic) : Prop :=
  l.mStageCount = l.used

/-- The block of Ghost::MoveGhostToNewPosition run when the ghost is within
range of its target. -/
def Ghost.arrive (w : Platform) (env : Env) (g : Ghost) : Ghost :=
  let g := { g with mMoving := false }
  let g := { g with mGhostPosition := g.mGhostTargetPosition }
  let g := { g with mGhostEmitter := g.mGhostEmitter.SetPosition g.mGhostPosition }
  let g := { g with mEventEmitter := g.mEventEmitter.PlayEmitter w }
  let g := { g with mAtStage := true }
  let g :=
    if g.mCurrentState = GhostState.PIANO then
      { g with mEventEmitter :=
          g.mEventEmitter.ChangeEmitterSound w env Sound.mPianoSound g.mGhostTargetPosition true }
    else if g.mCurrentState = GhostState.TYPEWRITER then
      { g with mEventEmitter :=
          g.mEventEmitter.ChangeEmitterSound w env Sound.mTypeWriterSound g.mGhostTargetPosition true }
    else if g.mCurrentState = GhostState.KNOCKING then
      { g with mEventEmitter :=
          g.mEventEmitter.ChangeEmitterSound w env Sound.mDoorSound g.mGhostTargetPosition true }
    else if g.mCurrentState = GhostState.RADIO then
      { g with mEventEmitter :=
          g.mEventEmitter.ChangeEmitterSound w env Sound.mRadioSound g.mGhostTargetPosition true }
    else g
  { g with mGhostEmitter :=
      g.mGhostEmitter.ChangeEmitterSound w env Sound.mGhostDefaultSound g.mGhostPosition true }

/-- The first statements of Ghost::MoveGhostToNewPosition: the step along
the path and the update of the ghost emitter. -/
def Ghost.moved (env : Env) (g : Ghost) : Ghost :=
  let g := { g with mGhostPosition :=
    ⟨g.mGhostPosition.x + g.mGhostPath.x, g.mGhostPosition.y + g.mGhostPath.y,
     g.mGhostPosition.z + g.mGhostPath.z⟩ }
  { g with mGhostEmitter := (g.mGhostEmitter.SetPosition g.mGhostPosition).UpdateEmitter env }

/-- The second `if` of Ghost::UpdateGhost: the end of a laugh. -/
def Ghost.laughEnds (w : Platform) (env : Env) (g : Ghost) : Ghost :=
  if g.mGhostLaughing then
    if g.mGhostEmitter.EmitterActive env = false then
      let g := { g with mGhostEmitter :=
        g.mGhostEmitter.ChangeEmitterSound w env Sound.mGhostDefaultSound g.mGhostPosition true }
      { g with mGhostLaughing := false }
    else g
  else g

/-! ## Concrete inputs

The platforms, environments and unconstructed objects on which the model
is evaluated.  On `quickPlatform` the square root is the constant 1: the
ghost is then within HIT_TARGET_RANGE of its target after one step, where
the real square root needs some hundred thousand frames for each stage. -/

/-- Every sound file loaded; `sqrt` is the constant 1. -/
def quickPlatform : Platform :=
  { IsValid := fun _ => true, InputChannels := fun _ => 1, sqrt := fun _ => 1, atan := fun _ => 1 }

/-- As `quickPlatform`, but the file of the locked-door sound did not load
(Room::IsValid does not look at `mHitDoorSound`). -/
def noLockedDoorSound : Platform :=
  { quickPlatform with IsValid := fun s => decide (s ≠ Sound.mHitDoorSound) }

/-- No sound reports that it is playing, the timers have run for two
seconds, every single draw returns 0 and the stage loop draws `draws`. -/
def quietEnv (draws : List Nat) : Env :=
  { IsPlaying := fun _ => false, footstepElapsed := 2, turningElapsed := 2, critterElapsed := 0,
    stageDraws := draws, laughDraw := 0, footstepDraw := 0, painDraw := 0, critterZDraw := 0,
    critterTimeDraw := 0, indeterminate := ⟨0, 0, 0⟩ }

/-- An emitter before construction. -/
def rawEmitter : Emitter :=
  { mSound := Sound.mHitWallSound, mStartPosition := ⟨0, 0, 0⟩, mConeOn := false,
    mSoundPosition := ⟨0, 0, 0⟩, mOrientationPosition := ⟨0, 0, 0⟩, ChannelCount := 0,
    CurveDistanceScaler := 0, Position := ⟨0, 0, 0⟩, OrientFront := ⟨0, 0, 0⟩, pCone := false,
    mCone := ⟨0, 0, 0, 0⟩, calls := [] }

/-- A player before construction. -/
def rawPlayer : Player :=
  { mPlayerListener := Listener.new ⟨0, 0, 0⟩ Direction.North, mPlayerActive := false,
    mPlayerCanMove := false, mPlayerCanTurn := false, mInPain := false,
    mFootsteps := Sound.mHitWallSound, mCurrentPainSound := Sound.mHitWallSound,
    mPlayerSounds := [], mOutroPlayed := false, mDistanceFromGhost := 0, calls := [] }

/-- A ghost before construction. -/
def rawGhost : Ghost :=
  { mGhostEmitter := rawEmitter, mDoorPosition := ⟨0, 0, 0⟩, mPianoPosition := ⟨0, 0, 0⟩,
    mTypeWriterPosition := ⟨0, 0, 0⟩, mRadioPosition := ⟨0, 0, 0⟩, mGhostDefeated := false,
    mInitialised := false, mGhostActive := false, mAtStage := false,
    mGhostLaughSound := Sound.mHitWallSound, mGhostSounds := [], mEventEmitter := rawEmitter,
    mCurrentState := GhostState.KNOCKING, mGhostPosition := ⟨0, 0, 0⟩,
    mGhostTargetPosition := ⟨0, 0, 0⟩, mGhostPath := ⟨0, 0, 0⟩, mGhostStart := false,
    mMoving := false, mPianoAvailable := false, mTypewriterAvailable := false,
    mDoorAvailable := false, mRadioAvailable := false, mGhostLaughing := false, mStageCount := 0 }

/-- A critter before construction. -/
def rawCritter : MovingCritter :=
  { mInitialised := false, mAnimalEmitter := rawEmitter, mCurrentType := AnimalType.BATS,
    mCritterSounds := [], mMoving := false, mCritterActive := false, RoomSide := 0,
    NextCritterTime := 0, mCritterPosition := ⟨0, 0, 0⟩, mDirectionVector := ⟨0, 0, 0⟩,
    mCritterTargetX := 0 }

/-- A room before construction: nothing written to the grid. -/
def rawRoom : Room :=
  { mRoomBase := fun _ _ => none, mPlayer := rawPlayer, mGhost := rawGhost, mCritters := rawCritter,
    mDoorPosition := ⟨0, 0, 0⟩, mOutsideSoundPosition := ⟨0, 0, 0⟩,
    mPianoObject := ⟨0, ⟨0, 0, 0⟩, 0, 0⟩, mTypewriterObject := ⟨0, ⟨0, 0, 0⟩, 0, 0⟩,
    mTableObject := ⟨0, ⟨0, 0, 0⟩, 0, 0⟩, mRadioObject := ⟨0, ⟨0, 0, 0⟩, 0, 0⟩,
    mInitialised := false, mDoorExited := false, mPlayerFree := false, mDoorTry := false,
    mPianoCollision := false, mRadioCollision := false, mTypeWriterCollision := false,
    mTableCollision := false, mRoomSounds := [], mOutdoorEmitter := rawEmitter, mDoorOpen := false,
    mGhostDistance := 0, calls := [] }

/-- The ghost after four calls of SetNewStage on the draws 0, 1, 2, 3. -/
def ghostAfterFourStages : Ghost :=
  ((Ghost.SetNewStageTimes quickPlatform [quietEnv [], quietEnv [], quietEnv [], quietEnv []]
    [0, 1, 2, 3] (Ghost.new quickPlatform rawGhost)).getD (rawGhost, [])).1

/-- The ghost after two calls of SetNewStage on the draws 5, 5, 2. -/
def ghostAfterTwoStages : Ghost :=
  (Ghost.run quickPlatform
    [GhostCall.SetNewStage (quietEnv []) [5], GhostCall.SetNewStage (quietEnv []) [5, 2]]
    (Ghost.new quickPlatform rawGhost)).getD rawGhost

/-- The room Room::Room builds on `quickPlatform`. -/
def builtRoom : Room :=
  Room.new quickPlatform (quietEnv []) rawRoom

/-- Ten calls that defeat the ghost and open the door: a frame that makes
the player active, a frame that initialises the ghost (first stage, draw
0) and brings it to its stage, three captures each followed by a frame
(draws 1, 2, 3), a fourth capture that defeats the ghost and a frame that
opens the door and sets the player free. -/
def defeatCalls : List RoomCall :=
  [RoomCall.UpdateRoom (quietEnv []), RoomCall.UpdateRoom (quietEnv [0]),
   RoomCall.TryToCaptureGhost (quietEnv [1]), RoomCall.UpdateRoom (quietEnv []),
   RoomCall.TryToCaptureGhost (quietEnv [2]), RoomCall.UpdateRoom (quietEnv []),
   RoomCall.TryToCaptureGhost (quietEnv [3]), RoomCall.UpdateRoom (quietEnv []),
   RoomCall.TryToCaptureGhost (quietEnv []), RoomCall.UpdateRoom (quietEnv [])]

/-- The room after `defeatCalls`. -/
def roomAfterDefeat : Room :=
  (Room.run quickPlatform defeatCalls builtRoom).getD rawRoom

/-- Captures and frames after the defeat, with draws on offer. -/
def callsAfterDefeat : List RoomCall :=
  [RoomCall.TryToCaptureGhost (quietEnv [0, 1, 2, 3]), RoomCall.UpdateRoom (quietEnv [0, 1, 2, 3]),
   RoomCall.TryToCaptureGhost (quietEnv [2]), RoomCall.UpdateRoom (quietEnv [1])]

/-- The room after `defeatCalls` and `callsAfterDefeat`. -/
def roomLongAfterDefeat : Room :=
  (Room.run quickPlatform callsAfterDefeat roomAfterDefeat).getD rawRoom

/-- Two quarter turns to the right: the player then faces the door. -/
def turnToDoor : List RoomCall :=
  [RoomCall.TurnPlayerRight (quietEnv []), RoomCall.TurnPlayerRight (quietEnv [])]

/-- The built room with the player turned to the locked door. -/
def roomFacingDoor : Room :=
  (Room.run quickPlatform turnToDoor builtRoom).getD rawRoom

/-- A step forward and the frame after it, in which the footsteps start. -/
def stepAndFrame : List RoomCall :=
  [RoomCall.MovePlayer (quietEnv []), RoomCall.UpdateRoom (quietEnv [])]

/-- The room one frame after the first step: the footsteps have just started. -/
def roomWhileStepping : Room :=
  (Room.run quickPlatform stepAndFrame builtRoom).getD rawRoom

/-- The defeat of the ghost, then the two turns to the door and a step
through it. -/
def exitCalls : List RoomCall :=
  defeatCalls ++ turnToDoor ++ [RoomCall.MovePlayer (quietEnv [])]

/-- The room after `exitCalls`. -/
def roomAfterExit : Room :=
  (Room.run quickPlatform exitCalls builtRoom).getD rawRoom

/-- A walk: a step north, two frames, a quarter turn right, a step east. -/
def walkCalls : List RoomCall :=
  [RoomCall.MovePlayer (quietEnv []), RoomCall.UpdateRoom (quietEnv []),
   RoomCall.UpdateRoom (quietEnv [0]), RoomCall.TurnPlayerRight (quietEnv []),
   RoomCall.MovePlayer (quietEnv [])]

/-- The room after `walkCalls`. -/
def roomAfterWalk : Room :=
  (Room.run quickPlatform walkCalls builtRoom).getD rawRoom

/-- On a platform without the locked-door sound: the player walks into the
locked door, steps one cell west and faces the wall beside the door; the
ghost is then defeated and the door opens. -/
def staleDoorTryCalls : List RoomCall :=
  turnToDoor ++
  [RoomCall.MovePlayer (quietEnv []), RoomCall.TurnPlayerRight (quietEnv []),
   RoomCall.MovePlayer (quietEnv []), RoomCall.TurnPlayerLeft (quietEnv [])] ++ defeatCalls

/-- The room after `staleDoorTryCalls` on `noLockedDoorSound`. -/
def roomWithStaleDoorTry : Room :=
  (Room.run noLockedDoorSound staleDoorTryCalls
    (Room.new noLockedDoorSound (quietEnv []) rawRoom)).getD rawRoom

/-! ## The blocks of the room's operations and what every reached room satisfies -/

/-- The grid Room::SetUpRoom builds, written on memory that holds nothing:
the walls and the door of the double loop, then the piano, the typewriter,
the radio and the table at the positions and sizes the constructors set. -/
def Room.layout : Grid :=
  (Room.SetUpRoom.writes ⟨8, 0, 0⟩
    [⟨PIANO_VALUE, ⟨2, 0, 14⟩, 4, 4⟩, ⟨TYPEWRITER_VALUE, ⟨2, 0, 2⟩, 2, 2⟩,
     ⟨RADIO_VALUE, ⟨13, 0, 9⟩, 2, 2⟩, ⟨TABLE_VALUE, ⟨8, 0, 9⟩, 2, 4⟩]).foldl
    (fun (g : Grid) (c : Int × Int × Int) => g.write c.1 c.2.1 c.2.2) (fun _ _ => none)

/-- The body of Room::MovePlayer after the call of HitWallOrDoor, which
returned `hit` and left the room `r`. -/
def Room.MovePlayer.resolve (w : Platform) (env : Env) (hit : Bool) (r : Room) : Option Room :=
  if hit && !r.DoorExited then
    let r := { r with mPlayer := { r.mPlayer with mInPain := true } }
    if r.mDoorTry then
      if r.mDoorOpen then some { r with mDoorExited := true }
      else if w.IsValid Sound.mHitDoorSound then
        let r := { r with calls := r.calls ++ [AudioCall.Play Sound.mHitDoorSound] }
        some { r with mDoorTry := false }
      else some r
    else if r.mTableCollision then
      if w.IsValid Sound.mTableCollisionSound then
        let r := { r with calls := r.calls ++ [AudioCall.Play Sound.mTableCollisionSound] }
        some { r with mTableCollision := false }
      else some r
    else if r.mPianoCollision then
      if w.IsValid Sound.mPianoCollisionSound then
        let r := { r with calls := r.calls ++ [AudioCall.Play Sound.mPianoCollisionSound] }
        some { r with mPianoCollision := false }
      else some r
    else if r.mRadioCollision then
      if w.IsValid Sound.mRadioCollisionSound then
        let r := { r with calls := r.calls ++ [AudioCall.Play Sound.mRadioCollisionSound] }
        some { r with mRadioCollision := false }
      else some r
    else if r.mTypeWriterCollision then
      if w.IsValid Sound.mTypeWriterCollisionSound then
        let r := { r with calls := r.calls ++ [AudioCall.Play Sound.mTypeWriterCollisionSound] }
        some { r with mTypeWriterCollision := false }
      else some r
    else
      if w.IsValid Sound.mHitWallSound then
        some { r with calls := r.calls ++ [AudioCall.Play Sound.mHitWallSound] }
      else some r
  else some (Room.MovePlayer.advance env r)

/-- The block of Room::UpdateRoom for a defeated ghost: the door opens and
the player is set free. -/
def Room.UpdateRoom.door (env : Env) (r : Room) : Room :=
  if r.mGhost.mGhostDefeated then
    let r :=
      if !r.mGhost.mGhostEmitter.EmitterActive env && !r.mDoorOpen then Room.OpenDoor r else r
    if r.mDoorOpen && !env.IsPlaying Sound.mDoorOpenSound then { r with mPlayerFree := true }
    else r
  else r

/-- The end of Room::UpdateRoom: the distance and the updates of the
player, the ghost and the critters. -/
def Room.UpdateRoom.objects (w : Platform) (env : Env) (r : Room) : Room :=
  let r := Room.GetDistance w r
  let r := { r with mPlayer := r.mPlayer.UpdatePlayer w env r.mGhostDistance r.mPlayerFree }
  let r := { r with mGhost := r.mGhost.UpdateGhost w env }
  { r with mCritters := r.mCritters.UpdateCritter w env r.mPlayer.GetPosition }

/-- Where the listener is and looks, and where Reset puts it. -/
def Listener.pose (l : Listener) :
    X3DAUDIO_VECTOR × X3DAUDIO_VECTOR × Direction × X3DAUDIO_VECTOR × Direction :=
  (l.Position, l.OrientFront, l.mBodyOrientation, l.mStartPosition, l.mStartOrientation)

/-- The flags of the room for the door and the collisions. -/
structure Room.Flags where
  mDoorExited : Bool
  mPlayerFree : Bool
  mDoorOpen : Bool
  mDoorTry : Bool
  mTableCollision : Bool
  mPianoCollision : Bool
  mRadioCollision : Bool
  mTypeWriterCollision : Bool
deriving DecidableEq, Repr

/-- The door and collision flags of a room. -/
def Room.flags (r : Room) : Room.Flags :=
  { mDoorExited := r.mDoorExited
    mPlayerFree := r.mPlayerFree
    mDoorOpen := r.mDoorOpen
    mDoorTry := r.mDoorTry
    mTableCollision := r.mTableCollision
    mPianoCollision := r.mPianoCollision
    mRadioCollision := r.mRadioCollision
    mTypeWriterCollision := r.mTypeWriterCollision }

/-- The facing vector of the listener agrees with its direction, and Reset
puts the listener at (8, 0, 2). -/
def Listener.Ok (l : Listener) : Prop :=
  l.OrientFront = Orientations l.mBodyOrientation ∧ l.mStartPosition = ⟨8, 0, 2⟩

/-- What holds of the progress members of the ghost of every room reached
from construction: the count is the number of used stages; a defeated
ghost has used all four and neither moves nor waits at a stage; a ghost at
a stage does not move; a ghost that was not initialised has not started. -/
structure Ghost.Logic.Steady (l : Ghost.Logic) : Prop where
  counted : l.Counted
  defeated : l.mGhostDefeated = true →
    l.mStageCount = STAGE_LIMIT ∧ l.mAtStage = false ∧ l.mMoving = false
  atStage : l.mAtStage = true → l.mMoving = false
  fresh : l.mInitialised = false → l.mStageCount = 0 ∧ l.mMoving = false ∧ l.mAtStage = false

/-- What holds of every room reached from construction. -/
structure Room.Inv (w : Platform) (r : Room) : Prop where
  grid : ∀ i j, r.mRoomBase.read i j = Room.layout.read i j
  listener : r.mPlayer.mPlayerListener.Ok
  floor : r.mDoorExited = false →
    r.mRoomBase.read r.PlayerCell.1 r.PlayerCell.2 = some NORMAL_FLOOR_VALUE
  exited : r.mDoorExited = true → r.mDoorOpen = true
  free : r.mPlayerFree = true → r.mDoorOpen = true
  opened : r.mDoorOpen = true → r.mGhost.mGhostDefeated = true
  ghost : r.mGhost.logic.Steady
  flags : RoomSoundsValid w → r.mDoorOpen = false →
    r.mDoorTry = false ∧ r.mTableCollision = false ∧ r.mPianoCollision = false ∧
      r.mRadioCollision = false ∧ r.mTypeWriterCollision = false

/-- The room with the in-pain flag of the player set and one more sound
played by the room. -/
def Room.bumped (r : Room) (s : Sound) : Room :=
  { r with mPlayer := { r.mPlayer with mInPain := true }, calls := r.calls ++ [AudioCall.Play s] }

/-- Whether Room::HitWallOrDoor returns true for a cell of this value. -/
def Room.blocks (cell : Int) : Bool :=
  decide (cell = DOOR_VALUE ∨ cell = TABLE_VALUE ∨ cell = PIANO_VALUE ∨ cell = RADIO_VALUE ∨
    cell = TYPEWRITER_VALUE ∨ cell = WALL_VALUE)

/-- The room as Room::HitWallOrDoor leaves it for a cell of this value:
the flag of the door or of the obstacle is set. -/
def Room.noteCollision (cell : Int) (r : Room) : Room :=
  if cell = DOOR_VALUE then { r with mDoorTry := true }
  else if cell = TABLE_VALUE then { r with mTableCollision := true }
  else if cell = PIANO_VALUE then { r with mPianoCollision := true }
  else if cell = RADIO_VALUE then { r with mRadioCollision := true }
  else if cell = TYPEWRITER_VALUE then { r with mTypeWriterCollision := true }
  else r

/-! ## Sequences of calls of the listener and of an emitter -/

/-- A call of one of the public operations of a listener. -/
inductive ListenerCall
  | MoveForward (Distance : ℚ)
  | TurnClockwise
  | TurnCounterClockwise
  | Reset
deriving DecidableEq, Repr

/-- The listener after one call. -/
def Listener.step : ListenerCall → Listener → Listener
  | ListenerCall.MoveForward Distance, l => l.MoveForward Distance
  | ListenerCall.TurnClockwise, l => l.TurnClockwise
  | ListenerCall.TurnCounterClockwise, l => l.TurnCounterClockwise
  | ListenerCall.Reset, l => l.Reset

/-- The listener after a sequence of calls. -/
def Listener.run : List ListenerCall → Listener → Listener
  | [], l => l
  | c :: cs, l => Listener.run cs (Listener.step c l)

/-- A call of one of the public operations of an emitter after its
construction. -/
inductive EmitterCall
  | UpdateEmitter (env : Env)
  | ResetEmitter (env : Env) (IsPlaying : Bool)
  | StopEmitter
  | PlayEmitter
  | PauseEmitter
  | SetEmitterFilter (kind : FilterType) (Frequency AttenuationFactor : ℚ)
  | SetPosition (NewPosition : X3DAUDIO_VECTOR)

/-- The emitter after one call. -/
def Emitter.step (w : Platform) : EmitterCall → Emitter → Emitter
  | EmitterCall.UpdateEmitter env, e => e.UpdateEmitter env
  | EmitterCall.ResetEmitter env IsPlaying, e => e.ResetEmitter w env IsPlaying
  | EmitterCall.StopEmitter, e => e.StopEmitter w
  | EmitterCall.PlayEmitter, e => e.PlayEmitter w
  | EmitterCall.PauseEmitter, e => e.PauseEmitter w
  | EmitterCall.SetEmitterFilter kind Frequency AttenuationFactor, e =>
    e.SetEmitterFilter kind Frequency AttenuationFactor
  | EmitterCall.SetPosition NewPosition, e => e.SetPosition NewPosition

/-- The emitter after a sequence of calls. -/
def Emitter.run (w : Platform) : List EmitterCall → Emitter → Emitter
  | [], e => e
  | c :: cs, e => Emitter.run w cs (Emitter.step w c e)

/-- The first two statements of MovingCritter::MoveCritter: the step along
the direction vector and the update of the emitter. -/
def MovingCritter.MoveCritter.moved (env : Env) (c : MovingCritter) : MovingCritter :=
  let c := { c with mCritterPosition :=
    ⟨c.mCritterPosition.x + c.mDirectionVector.x, c.mCritterPosition.y + c.mDirectionVector.y,
     c.mCritterPosition.z + c.mDirectionVector.z⟩ }
  { c with mAnimalEmitter := (c.mAnimalEmitter.SetPosition c.mCritterPosition).UpdateEmitter env }

/-- The first `if` block of MovingCritter::MoveCritter after the move: the
end of a crossing from the left. -/
def MovingCritter.MoveCritter.fromLeft (w : Platform) (env : Env) (c : MovingCritter) :
    MovingCritter :=
  if c.RoomSide = LEFT_SIDE ∧ c.mCritterPosition.x > c.mCritterTargetX then
    MovingCritter.MoveCritter.finish w env RIGHT_SIDE c
  else c

/-- The second `if` block of MovingCritter::MoveCritter: the end of a
crossing from the right. -/
def MovingCritter.MoveCritter.fromRight (w : Platform) (env : Env) (c : MovingCritter) :
    MovingCritter :=
  if c.RoomSide = RIGHT_SIDE ∧ c.mCritterPosition.x < c.mCritterTargetX then
    MovingCritter.MoveCritter.finish w env LEFT_SIDE c
  else c

/-- The other animal. -/
def AnimalType.other : AnimalType → AnimalType
  | AnimalType.BATS => AnimalType.MICE
  | AnimalType.MICE => AnimalType.BATS

/-- The other side of the room. -/
def otherSide (RoomSide : Int) : Int :=
  if RoomSide = LEFT_SIDE then RIGHT_SIDE else LEFT_SIDE

/-- Modelled from the spec: the classification of the cell `(i, j)` of the
grid in the words of the layout: the four obstacles, otherwise the door,
otherwise the wall on the border, otherwise the floor. -/
def Room.classify (i j : Int) : Int :=
  if 0 ≤ i ∧ i ≤ 3 ∧ 12 ≤ j ∧ j ≤ 15 then PIANO_VALUE
  else if 1 ≤ i ∧ i ≤ 2 ∧ 1 ≤ j ∧ j ≤ 2 then TYPEWRITER_VALUE
  else if 12 ≤ i ∧ i ≤ 13 ∧ 8 ≤ j ∧ j ≤ 9 then RADIO_VALUE
  else if 7 ≤ i ∧ i ≤ 8 ∧ 7 ≤ j ∧ j ≤ 10 then TABLE_VALUE
  else if 7 ≤ i ∧ i ≤ 9 ∧ j = 0 then DOOR_VALUE
  else if i = 0 ∨ i = 15 ∨ j = 0 ∨ j = 15 then WALL_VALUE
  else NORMAL_FLOOR_VALUE

/-- The number of cells of the 16 x 16 array that hold the value `v`. -/
def Grid.count (g : Grid) (v : Int) : Nat :=
  ((List.range 16).flatMap fun i =>
    (List.range 16).filter fun j => decide (g.read (i : Int) (j : Int) = some v)).length

/-! ## Concrete inputs for the critters -/

/-- As `quickPlatform`, but the files of the bats and of the mice did not
load. -/
def noCritterSounds : Platform :=
  { quickPlatform with
    IsValid := fun s => decide (s ≠ Sound.mBatsSound ∧ s ≠ Sound.mMiceSound) }

/-- A critter on its way from the left, one step before the right limit. -/
def critterAtRightLimit : MovingCritter :=
  { MovingCritter.new quickPlatform (quietEnv []) rawCritter with
    mMoving := true, mCritterPosition := ⟨31, 1, 5⟩, mDirectionVector := ⟨1 / 20000, 0, 0⟩,
    mCritterTargetX := RIGHT_X_LIMIT }

/-! ## Notions for the path of the ghost, the stage loop and the critters -/

/-- The float quotient `a / b` where it is a number: a division by zero
yields an infinity or a NaN, for which the embedding has no value. -/
def floatDiv (a b : ℚ) : Option ℚ :=
  if b = 0 then none else some (a / b)

/-- The vector Ghost::SetGhostPath stores in mGhostPath, its three
divisions by `Length` taken as float divisions: `none` when they divide by
zero. -/
def Ghost.SetGhostPath.path (w : Platform) (g : Ghost) : Option X3DAUDIO_VECTOR :=
  let StartingPosition := g.mGhostPosition
  let TargetPosition := g.mGhostTargetPosition
  let PathVector : X3DAUDIO_VECTOR :=
    ⟨TargetPosition.x - StartingPosition.x, 0, TargetPosition.z - StartingPosition.z⟩
  let Length :=
    w.sqrt (PathVector.x * PathVector.x + PathVector.y * PathVector.y + PathVector.z * PathVector.z)
  (floatDiv PathVector.x Length).bind fun qx =>
    (floatDiv PathVector.y Length).bind fun qy =>
      (floatDiv PathVector.z Length).bind fun qz =>
        some ⟨qx * SPEED, qy * SPEED, qz * SPEED⟩

/-- The sound of the event emitter at a stage, as the `if` chain of
Ghost::MoveGhostToNewPosition assigns it. -/
def Ghost.stageSound : GhostState → Sound
  | GhostState.PIANO => Sound.mPianoSound
  | GhostState.TYPEWRITER => Sound.mTypeWriterSound
  | GhostState.KNOCKING => Sound.mDoorSound
  | GhostState.RADIO => Sound.mRadioSound

/-- Modelled from the spec: the explicit list of the remaining available
stages. -/
def Ghost.remaining (g : Ghost) : List GhostState :=
  [GhostState.KNOCKING, GhostState.PIANO, GhostState.TYPEWRITER, GhostState.RADIO].filter
    g.available

/-- Modelled from the spec: the state after the element `k` of the list of
remaining stages was chosen and marked used: the current stage, the target
position, the remaining stages and the stage count. -/
def Ghost.chosen (g : Ghost) (k : GhostState) :
    GhostState × X3DAUDIO_VECTOR × List GhostState × Int :=
  (k, g.stagePosition k, g.remaining.erase k, g.mStageCount + 1)

/-- The largest `x` with `x * x <= n`, by Newton's iteration from `n` (the
fuel suffices for every `n` below 2 ^ 60). -/
def sqrtFloor.iter : Nat → Nat → Nat → Nat
  | 0, _, x => x
  | fuel + 1, n, x =>
    let y := (x + n / x) / 2
    if y < x then sqrtFloor.iter fuel n y else x

/-- The integer square root. -/
def sqrtFloor (n : Nat) : Nat :=
  if n = 0 then 0 else sqrtFloor.iter 64 n n

/-- The square root to three decimals, rounded down. -/
def decimalSqrt (x : ℚ) : ℚ :=
  (sqrtFloor (⌊x * 1000000⌋).toNat : ℚ) / 1000

/-- The listener looks along an axis of the grid, Reset makes it look
north, and it stands on a point with whole x and z. -/
def Listener.OnGrid (l : Listener) : Prop :=
  (l.mBodyOrientation = Direction.North ∨ l.mBodyOrientation = Direction.East ∨
    l.mBodyOrientation = Direction.South ∨ l.mBodyOrientation = Direction.West) ∧
  l.mStartOrientation = Direction.North ∧
  ∃ a b : Int, l.Position.x = (a : ℚ) ∧ l.Position.z = (b : ℚ)

/-- Whether a stage is still available, read off the progress members. -/
def Ghost.Logic.available (l : Ghost.Logic) : GhostState → Bool
  | GhostState.KNOCKING => l.mDoorAvailable
  | GhostState.PIANO => l.mPianoAvailable
  | GhostState.TYPEWRITER => l.mTypewriterAvailable
  | GhostState.RADIO => l.mRadioAvailable

/-- The position of the object of a stage, read off the four stage
positions. -/
def stageOf (s : X3DAUDIO_VECTOR × X3DAUDIO_VECTOR × X3DAUDIO_VECTOR × X3DAUDIO_VECTOR) :
    GhostState → X3DAUDIO_VECTOR
  | GhostState.KNOCKING => s.1
  | GhostState.PIANO => s.2.1
  | GhostState.TYPEWRITER => s.2.2.1
  | GhostState.RADIO => s.2.2.2

/-- Where the ghost of every room reached from construction stands, in
terms of its progress members `l`, its stage positions `s` and its position
`p`: the stage positions are those of SetUpGhost; before the first stage is
selected the ghost is at its start point (8, 0, -1); afterwards the target
is the position of the current stage, which is used; a moving ghost has a
stage selected; a ghost at a stage stands on its target. -/
structure Ghost.Logic.Placed (l : Ghost.Logic)
    (s : X3DAUDIO_VECTOR × X3DAUDIO_VECTOR × X3DAUDIO_VECTOR × X3DAUDIO_VECTOR)
    (p : X3DAUDIO_VECTOR) : Prop where
  stages : s = (⟨8, 0, 0⟩, ⟨2, 0, 14⟩, ⟨2, 0, 2⟩, ⟨13, 0, 9⟩)
  start : l.mStageCount = 0 → p = ⟨8, 0, -1⟩
  target : l.mStageCount ≠ 0 →
    l.mGhostTargetPosition = stageOf s l.mCurrentState ∧ l.available l.mCurrentState = false
  moving : l.mMoving = true → l.mStageCount ≠ 0
  atStage : l.mAtStage = true → p = l.mGhostTargetPosition ∧ l.mStageCount ≠ 0

/-- The invariant of the position of a ghost. -/
def Ghost.Placed (g : Ghost) : Prop :=
  g.logic.Placed g.stages g.mGhostPosition

/-- The vector SetGhostPath computes for a ghost at `p` with target `t`,
in rational arithmetic. -/
def pathFrom (w : Platform) (p t : X3DAUDIO_VECTOR) : X3DAUDIO_VECTOR :=
  ⟨(t.x - p.x) / w.sqrt ((t.x - p.x) * (t.x - p.x) + 0 * 0 + (t.z - p.z) * (t.z - p.z)) * SPEED,
   0 / w.sqrt ((t.x - p.x) * (t.x - p.x) + 0 * 0 + (t.z - p.z) * (t.z - p.z)) * SPEED,
   (t.z - p.z) / w.sqrt ((t.x - p.x) * (t.x - p.x) + 0 * 0 + (t.z - p.z) * (t.z - p.z)) * SPEED⟩

/-! ## Concrete inputs for the ghost on its way and for the critters -/

/-- Every sound file loaded; `sqrt` is the square root to three decimals,
`atan` the constant 1. -/
def decimalPlatform : Platform :=
  { IsValid := fun _ => true, InputChannels := fun _ => 1, sqrt := decimalSqrt, atan := fun _ => 1 }

/-- As `quietEnv`, but the timer of the critters has run for thirty
seconds. -/
def dueEnv (draws : List Nat) : Env :=
  { quietEnv draws with critterElapsed := 30 }

/-- A frame that makes the player active, a frame that initialises the
ghost (first stage: the piano, draw 1), and a capture attempt while the
ghost is on its way. -/
def captureOnTheWay : List RoomCall :=
  [RoomCall.UpdateRoom (quietEnv []), RoomCall.UpdateRoom (quietEnv [1]),
   RoomCall.TryToCaptureGhost (quietEnv [])]

/-- The ghost after `captureOnTheWay` on `decimalPlatform`: moving towards
the piano and laughing. -/
def ghostLaughingOnTheWay : Ghost :=
  ((Room.run decimalPlatform captureOnTheWay
    (Room.new decimalPlatform (quietEnv []) rawRoom)).getD rawRoom).mGhost

/-- A frame that makes the player active, and a frame thirty seconds on
that initialises the ghost and the critters and starts the first crossing. -/
def firstCrossingCalls : List RoomCall :=
  [RoomCall.UpdateRoom (quietEnv []), RoomCall.UpdateRoom (dueEnv [1])]

/-- The critters after `firstCrossingCalls` on `decimalPlatform`. -/
def crittersOnFirstCrossing : MovingCritter :=
  ((Room.run decimalPlatform firstCrossingCalls
    (Room.new decimalPlatform (quietEnv []) rawRoom)).getD rawRoom).mCritters

/-- The built room after the frame that makes the player active. -/
def roomWithPlayerActive : Room :=
  (Room.run quickPlatform [RoomCall.UpdateRoom (quietEnv [])] builtRoom).getD rawRoom

/-- The room after the next frame, which initialises the ghost and selects
its first stage (draw 1: the piano). -/
def roomWithFirstStage : Room :=
  (Room.step quickPlatform (RoomCall.UpdateRoom (quietEnv [1])) roomWithPlayerActive).getD rawRoom

/-- Where the player stands as long as no step is taken: the start
position. -/
def playerStart : X3DAUDIO_VECTOR :=
  ⟨8, 0, 2⟩

/-- The critters as constructed and initialised on `decimalPlatform`. -/
def crittersReady : MovingCritter :=
  (MovingCritter.new decimalPlatform (quietEnv []) rawCritter).InitialiseCritter

/-- The critters after the frame, thirty seconds on, that starts the first
crossing. -/
def crittersFirstCrossing : MovingCritter :=
  crittersReady.UpdateCritter decimalPlatform (dueEnv []) playerStart

/-- The critters 620929 frames later, still on the first crossing. -/
def crittersInFlight : MovingCritter :=
  Nat.iterate (MovingCritter.UpdateCritter decimalPlatform (quietEnv []) playerStart) 620929
    crittersFirstCrossing

/-- The critters one frame later: this frame completes the first
crossing. -/
def crittersAcross : MovingCritter :=
  crittersInFlight.UpdateCritter decimalPlatform (quietEnv []) playerStart

/-- The critters after the frame, thirty seconds on, that starts the
second crossing. -/
def crittersSecondCrossing : MovingCritter :=
  crittersAcross.UpdateCritter decimalPlatform (dueEnv []) playerStart

/-! ## The listener as the machine holds it

The enum `Direction` is the integer it is stored as, `Orientations` is the
array of eight vectors, and a `float` is a binary32 number, so that every
sum and every product is rounded. -/

/-- Rounding of a rational to the nearest integer, a tie to the even one. -/
def roundHalfEven (y : ℚ) : Int :=
  let f := ⌊y⌋
  let r := y - f
  if r < 1 / 2 then f else if 1 / 2 < r then f + 1 else if f % 2 = 0 then f else f + 1

/-- The search of `binade`: the first exponent from `e` upwards, at most
`fuel` steps on, with `a < 2 ^ (e + 1)`. -/
def binade.search (a : ℚ) : Nat → Int → Int
  | 0, e => e
  | fuel + 1, e => if a < (2 : ℚ) ^ (e + 1) then e else binade.search a fuel (e + 1)

/-- The exponent of the float format for a number of the magnitude of `x`:
the `e` in -126..127 with `2 ^ e ≤ |x| < 2 ^ (e + 1)`, -126 for the smaller
magnitudes (the subnormal numbers) and 127 for the larger ones. -/
def binade (x : ℚ) : Int :=
  binade.search |x| 253 (-126)

/-- The float (IEEE 754 binary32, round to nearest, ties to even) for the
rational `x`: a multiple of `2 ^ (binade x - 23)`, or `none` where the
rounded magnitude reaches `2 ^ 128` and the float is an infinity. -/
def roundFloat (x : ℚ) : Option ℚ :=
  let ulp := (2 : ℚ) ^ (binade x - 23)
  let r := (roundHalfEven (x / ulp) : ℚ) * ulp
  if |r| < (2 : ℚ) ^ (128 : Int) then some r else none

namespace Machine

/-- The float sum `a + b`.  A float is a finite number or, as `none`, an
infinity or a NaN; a sum with an operand that is not finite is not finite. -/
def fadd (a b : Option ℚ) : Option ℚ :=
  a.bind fun x => b.bind fun y => roundFloat (x + y)

/-- The float product `a * b`; a product with an operand that is not finite
is not finite. -/
def fmul (a b : Option ℚ) : Option ℚ :=
  a.bind fun x => b.bind fun y => roundFloat (x * y)

/-- The struct X3DAUDIO_VECTOR, its members floats. -/
structure X3DAUDIO_VECTOR where
  x : Option ℚ
  y : Option ℚ
  z : Option ℚ
deriving DecidableEq, Repr

/-- The vector of the three finite floats `v.x`, `v.y`, `v.z`. -/
def X3DAUDIO_VECTOR.ofRat (v : Escape.X3DAUDIO_VECTOR) : X3DAUDIO_VECTOR :=
  ⟨some v.x, some v.y, some v.z⟩

/-- Directions::Orientations, the array of eight vectors. -/
def Orientations : List X3DAUDIO_VECTOR :=
  [⟨some 0, some 0, some 1⟩,
   ⟨some NormalisedDirection, some 0, some NormalisedDirection⟩,
   ⟨some 1, some 0, some 0⟩,
   ⟨some NormalisedDirection, some 0, some (-NormalisedDirection)⟩,
   ⟨some 0, some 0, some (-1)⟩,
   ⟨some (-NormalisedDirection), some 0, some (-NormalisedDirection)⟩,
   ⟨some (-1), some 0, some 0⟩,
   ⟨some (-NormalisedDirection), some 0, some NormalisedDirection⟩]

/-- The read `Orientations[n]`: it has no value outside the array. -/
def Orientations.read (n : Int) : Option X3DAUDIO_VECTOR :=
  if 0 ≤ n then Orientations.get? n.toNat else none

/-- The value of an `int` after an addition or a subtraction: the result
taken modulo 2 ^ 32 into the range of a 32-bit signed integer. -/
def wrapInt (n : Int) : Int :=
  (n + 2147483648) % 4294967296 - 2147483648

/-- The class Listener, the enum members held as integers.  `Position`,
`OrientFront` and `OrientTop` are the members of the X3DAUDIO_LISTENER
struct `mListener` (the rest is zero). -/
structure Listener where
  Position : X3DAUDIO_VECTOR
  OrientFront : X3DAUDIO_VECTOR
  OrientTop : X3DAUDIO_VECTOR
  mListenerMoving : Bool
  mListenerTurning : Bool
  mBodyOrientation : Int
  mStartPosition : X3DAUDIO_VECTOR
  mStartOrientation : Int
  mCurrentPosition : X3DAUDIO_VECTOR
  mBodyOrient : X3DAUDIO_VECTOR
deriving DecidableEq, Repr

namespace Listener

/-- Listener::Listener.  No value where `Orientations[mStartOrientation]`
reads outside the array. -/
def new (StartPosition : X3DAUDIO_VECTOR) (StartOrientation : Int) : Option Listener :=
  (Orientations.read StartOrientation).map fun o =>
    { mStartPosition := StartPosition
      mStartOrientation := StartOrientation
      Position := StartPosition
      OrientFront := o
      mCurrentPosition := StartPosition
      mBodyOrient := o
      mBodyOrientation := StartOrientation
      OrientTop := ⟨some 0, some 1, some 0⟩
      mListenerMoving := false
      mListenerTurning := false }

/-- Listener::MoveTo. -/
def MoveTo (NewPosition : X3DAUDIO_VECTOR) (l : Listener) : Listener :=
  { l with Position := NewPosition, mListenerMoving := true }

/-- Listener::MoveForward: three float products and three float sums, each
rounded to a float.  No value where `Orientations[mBodyOrientation]` reads
outside the array. -/
def MoveForward (Distance : Option ℚ) (l : Listener) : Option Listener :=
  (Orientations.read l.mBodyOrientation).map fun o =>
    { l with
      Position :=
        ⟨fadd l.Position.x (fmul o.x Distance),
         fadd l.Position.y (fmul o.y Distance),
         fadd l.Position.z (fmul o.z Distance)⟩
      mListenerMoving := true }

/-- Listener::TurnTo.  No value where `Orientations[mBodyOrientation]` reads
outside the array. -/
def TurnTo (NewDirection : Int) (l : Listener) : Option Listener :=
  let l := { l with mBodyOrientation := NewDirection }
  (Orientations.read l.mBodyOrientation).map fun o =>
    { l with OrientFront := o, mListenerTurning := true }

/-- Listener::Reset. -/
def Reset (l : Listener) : Option Listener :=
  TurnTo l.mStartOrientation (MoveTo l.mStartPosition l)

/-- Listener::TurnCounterClockwise. -/
def TurnCounterClockwise (l : Listener) : Option Listener :=
  let NewDirection : Int := l.mBodyOrientation
  let NewDirection := wrapInt (NewDirection - 1)
  let NewDirection := if NewDirection < 0 then 7 else NewDirection
  let l := { l with mBodyOrientation := NewDirection }
  (TurnTo l.mBodyOrientation l).map fun l => { l with mListenerTurning := true }

/-- Listener::TurnClockwise. -/
def TurnClockwise (l : Listener) : Option Listener :=
  let NewDirection : Int := l.mBodyOrientation
  let NewDirection := wrapInt (NewDirection + 1)
  let NewDirection := if NewDirection > 7 then 0 else NewDirection
  let l := { l with mBodyOrientation := NewDirection }
  (TurnTo l.mBodyOrientation l).map fun l => { l with mListenerTurning := true }

end Listener

/-- A call of one of the public operations of a listener. -/
inductive ListenerCall
  | MoveForward (Distance : Option ℚ)
  | TurnClockwise
  | TurnCounterClockwise
  | Reset
deriving DecidableEq, Repr

/-- The listener after one call. -/
def Listener.step : ListenerCall → Listener → Option Listener
  | ListenerCall.MoveForward Distance, l => l.MoveForward Distance
  | ListenerCall.TurnClockwise, l => l.TurnClockwise
  | ListenerCall.TurnCounterClockwise, l => l.TurnCounterClockwise
  | ListenerCall.Reset, l => l.Reset

/-- The listener after a sequence of calls. -/
def Listener.run : List ListenerCall → Listener → Option Listener
  | [], l => some l
  | c :: cs, l => (Listener.step c l).bind (Listener.run cs)

/-- What the listener keeps: mBodyOrientation is one of the eight
enumerators (0..7), the front vector is the entry of Orientations for it,
and the top vector is (0, 1, 0). -/
def Listener.Facing (l : Listener) : Prop :=
  (0 ≤ l.mBodyOrientation ∧ l.mBodyOrientation ≤ 7) ∧
  Orientations.read l.mBodyOrientation = some l.OrientFront ∧
  l.OrientTop = ⟨some 0, some 1, some 0⟩

/-- The listener of the rooms as the machine holds it: each direction as
its integer, each coordinate as a finite float. -/
def Listener.ofListener (l : Escape.Listener) : Listener :=
  { Position := X3DAUDIO_VECTOR.ofRat l.Position
    OrientFront := X3DAUDIO_VECTOR.ofRat l.OrientFront
    OrientTop := X3DAUDIO_VECTOR.ofRat l.OrientTop
    mListenerMoving := l.mListenerMoving
    mListenerTurning := l.mListenerTurning
    mBodyOrientation := l.mBodyOrientation.toInt
    mStartPosition := X3DAUDIO_VECTOR.ofRat l.mStartPosition
    mStartOrientation := l.mStartOrientation.toInt
    mCurrentPosition := X3DAUDIO_VECTOR.ofRat l.mCurrentPosition
    mBodyOrient := X3DAUDIO_VECTOR.ofRat l.mBodyOrient }

end Machine

/-! ## Properties -/

/-! ### The stage loop of the ghost -/

theorem ofDraw_cases (r : Nat) :
    (r % 4 = 0 ∧ GhostState.ofDraw r = GhostState.KNOCKING) ∨
    (r % 4 = 1 ∧ GhostState.ofDraw r = GhostState.PIANO) ∨
    (r % 4 = 2 ∧ GhostState.ofDraw r = GhostState.TYPEWRITER) ∨
    (r % 4 = 3 ∧ GhostState.ofDraw r = GhostState.RADIO) := by
  rcases (by omega : r % 4 = 0 ∨ r % 4 = 1 ∨ r % 4 = 2 ∨ r % 4 = 3) with h | h | h | h <;>
    simp [GhostState.ofDraw, h]

theorem body_eq (w : Platform) (r : Nat) (g : Ghost) :
    Ghost.SetNewStage.body w ((r % 4 : Nat) : Int) (g, false) =
      if g.available (GhostState.ofDraw r) then (g.select w (GhostState.ofDraw r), true)
      else (g, false) := by
  rcases ofDraw_cases r with ⟨h, k⟩ | ⟨h, k⟩ | ⟨h, k⟩ | ⟨h, k⟩ <;>
    rw [h, k] <;>
    simp [Ghost.SetNewStage.body, GhostState.toInt, Ghost.available, Ghost.select,
      Ghost.markUsed, Ghost.stagePosition]

theorem body_eq_cast (w : Platform) (r : Nat) (g : Ghost) :
    Ghost.SetNewStage.body w ((r : Int) % 4) (g, false) =
      if g.available (GhostState.ofDraw r) then (g.select w (GhostState.ofDraw r), true)
      else (g, false) := by
  have h := body_eq w r g
  rwa [Int.natCast_mod] at h

theorem loop_first (w : Platform) (g : Ghost) (d : Nat) (post : List Nat)
    (hd : g.available (GhostState.ofDraw d) = true) :
    ∀ pre : List Nat, (∀ x ∈ pre, g.available (GhostState.ofDraw x) = false) →
      Ghost.SetNewStage.loop w (pre ++ d :: post) g =
        some (g.select w (GhostState.ofDraw d), post)
  | [], _ => by simp [Ghost.SetNewStage.loop, body_eq_cast, hd]
  | x :: pre, h => by
    have hx : g.available (GhostState.ofDraw x) = false := h x (by simp)
    have ih := loop_first w g d post hd pre (fun y hy => h y (by simp [hy]))
    simp [Ghost.SetNewStage.loop, body_eq_cast, hx, ih]

theorem loop_some (w : Platform) :
    ∀ (rand : List Nat) (g g' : Ghost) (rest : List Nat),
      Ghost.SetNewStage.loop w rand g = some (g', rest) →
      ∃ pre d, rand = pre ++ d :: rest ∧ (∀ x ∈ pre, g.available (GhostState.ofDraw x) = false) ∧
        g.available (GhostState.ofDraw d) = true ∧ g' = g.select w (GhostState.ofDraw d)
  | [], _, _, _, h => by simp [Ghost.SetNewStage.loop] at h
  | x :: rand, g, g', rest, h => by
    by_cases hx : g.available (GhostState.ofDraw x) = true
    · simp [Ghost.SetNewStage.loop, body_eq_cast, hx] at h
      exact ⟨[], x, by simp [h.2], by simp, hx, h.1.symm⟩
    · have hx' : g.available (GhostState.ofDraw x) = false := by simpa using hx
      simp [Ghost.SetNewStage.loop, body_eq_cast, hx'] at h
      obtain ⟨pre, d, h1, h2, h3, h4⟩ := loop_some w rand g g' rest h
      refine ⟨x :: pre, d, by simp [h1], ?_, h3, h4⟩
      intro y hy
      rcases List.mem_cons.1 hy with rfl | hy
      · exact hx'
      · exact h2 y hy

theorem available_congr {g g' : Ghost} (h : g'.logic = g.logic) (k : GhostState) :
    g'.available k = g.available k := by
  have h1 := congrArg Ghost.Logic.mPianoAvailable h
  have h2 := congrArg Ghost.Logic.mTypewriterAvailable h
  have h3 := congrArg Ghost.Logic.mDoorAvailable h
  have h4 := congrArg Ghost.Logic.mRadioAvailable h
  simp only [Ghost.logic] at h1 h2 h3 h4
  cases k <;> simp [Ghost.available, *]

theorem SetNewStage_defeat (w : Platform) (env : Env) (rand : List Nat) (g : Ghost)
    (h : g.mStageCount = STAGE_LIMIT) :
    ∃ g', g.SetNewStage w env rand = some (g', rand) ∧
      g'.logic = { g.logic with mGhostDefeated := true, mAtStage := false } ∧
      g'.stages = g.stages := by
  refine ⟨Ghost.DefeatGhost w env
    { { g with mEventEmitter := g.mEventEmitter.PauseEmitter w } with mAtStage := false }, ?_, ?_, ?_⟩
  · simp only [Ghost.SetNewStage, h, if_true]
  · simp [Ghost.logic, Ghost.DefeatGhost]
  · simp [Ghost.stages, Ghost.DefeatGhost]

theorem SetNewStage_select (w : Platform) (env : Env) (rand rest : List Nat) (g g' : Ghost)
    (hc : g.mStageCount ≠ STAGE_LIMIT) (h : g.SetNewStage w env rand = some (g', rest)) :
    ∃ pre d, rand = pre ++ d :: rest ∧
      (∀ x ∈ pre, g.available (GhostState.ofDraw x) = false) ∧
      g.available (GhostState.ofDraw d) = true ∧
      g'.stages = g.stages ∧
      g'.logic =
        { (g.markUsed (GhostState.ofDraw d)).logic with
          mCurrentState := GhostState.ofDraw d
          mStageCount := g.mStageCount + 1
          mGhostTargetPosition := g.stagePosition (GhostState.ofDraw d)
          mGhostStart := false
          mAtStage := false
          mMoving := true } := by
  simp only [Ghost.SetNewStage, hc, if_false] at h
  split at h
  · simp at h
  · rename_i g1 rand1 hl
    obtain ⟨pre, d, h1, h2, h3, h4⟩ := loop_some w _ _ _ _ hl
    have ha : ∀ k, Ghost.available
        { { g with mEventEmitter := g.mEventEmitter.PauseEmitter w } with mAtStage := false } k =
        g.available k := fun k => by cases k <;> rfl
    simp only [ha] at h2 h3
    refine ⟨pre, d, ?_, h2, h3, ?_, ?_⟩
    · split at h <;> simp at h <;> rw [h1, h.2]
    · subst h4
      split at h <;> simp at h <;> rw [← h.1] <;>
        cases GhostState.ofDraw d <;>
        simp [Ghost.stages, Ghost.select, Ghost.markUsed, Ghost.SetGhostPath]
    · subst h4
      split at h
      · simp at h
        rw [← h.1]
        cases GhostState.ofDraw d <;>
        simp [Ghost.logic, Ghost.select, Ghost.markUsed, Ghost.SetGhostPath, Ghost.stagePosition]
      · rename_i hs
        simp at h
        rw [← h.1]
        cases hk : GhostState.ofDraw d <;>
          simp [hk, Ghost.select, Ghost.markUsed, Ghost.SetGhostPath] at hs <;>
          simp [Ghost.logic, Ghost.select, Ghost.markUsed, Ghost.SetGhostPath,
            Ghost.stagePosition, hs]

theorem new_logic (w : Platform) (raw : Ghost) :
    (Ghost.new w raw).logic =
      { mCurrentState := raw.mCurrentState, mStageCount := 0, mPianoAvailable := true,
        mTypewriterAvailable := true, mDoorAvailable := true, mRadioAvailable := true,
        mGhostTargetPosition := ⟨0, 0, 0⟩, mGhostDefeated := false, mInitialised := false,
        mGhostActive := false, mGhostStart := true, mAtStage := false, mMoving := false } := rfl

theorem new_stages (w : Platform) (raw : Ghost) :
    (Ghost.new w raw).stages = (⟨8, 0, 0⟩, ⟨2, 0, 14⟩, ⟨2, 0, 2⟩, ⟨13, 0, 9⟩) := rfl

theorem Counted_le {l : Ghost.Logic} (h : l.Counted) : 0 ≤ l.mStageCount ∧ l.mStageCount ≤ 4 := by
  unfold Ghost.Logic.Counted Ghost.Logic.used at h
  constructor <;> (rw [h]; split_ifs <;> decide)

theorem Counted_available {g : Ghost} (h : g.logic.Counted) (hlt : g.mStageCount < STAGE_LIMIT) :
    g.mPianoAvailable = true ∨ g.mTypewriterAvailable = true ∨ g.mDoorAvailable = true ∨
      g.mRadioAvailable = true := by
  unfold Ghost.Logic.Counted Ghost.Logic.used at h
  simp only [Ghost.logic, STAGE_LIMIT] at h hlt
  by_contra hn
  simp only [not_or, Bool.not_eq_true] at hn
  obtain ⟨h1, h2, h3, h4⟩ := hn
  simp [h1, h2, h3, h4] at h
  omega

theorem arrive_logic (w : Platform) (env : Env) (g : Ghost) :
    (g.arrive w env).stages = g.stages ∧
      (g.arrive w env).logic = { g.logic with mMoving := false, mAtStage := true } := by
  obtain ⟨a1, a2, a3, a4, a5, a6, a7, a8, a9, a10, a11, a12, st, a14, a15, a16, a17, a18, a19,
    a20, a21, a22, a23, a24⟩ := g
  cases st <;> exact ⟨rfl, rfl⟩

theorem MoveGhost_eq (w : Platform) (env : Env) (g : Ghost) :
    g.MoveGhostToNewPosition w env =
      if v3f.Distance w (g.moved env).mGhostPosition (g.moved env).mGhostTargetPosition <
          HIT_TARGET_RANGE then (g.moved env).arrive w env
      else g.moved env := rfl

theorem MoveGhost_logic (w : Platform) (env : Env) (g : Ghost) :
    (g.MoveGhostToNewPosition w env).stages = g.stages ∧
    ((g.MoveGhostToNewPosition w env).logic = g.logic ∨
      (g.MoveGhostToNewPosition w env).logic = { g.logic with mMoving := false, mAtStage := true }) := by
  rw [MoveGhost_eq]
  have h := arrive_logic w env (g.moved env)
  split_ifs
  · exact ⟨h.1, Or.inr h.2⟩
  · exact ⟨rfl, Or.inl rfl⟩

theorem UpdateGhost_eq (w : Platform) (env : Env) (g : Ghost) :
    g.UpdateGhost w env =
      (if g.mMoving then g.MoveGhostToNewPosition w env else g).laughEnds w env := rfl

theorem laughEnds_logic (w : Platform) (env : Env) (g : Ghost) :
    (g.laughEnds w env).stages = g.stages ∧ (g.laughEnds w env).logic = g.logic := by
  unfold Ghost.laughEnds
  split_ifs <;> exact ⟨rfl, rfl⟩

theorem UpdateGhost_logic (w : Platform) (env : Env) (g : Ghost) :
    (g.UpdateGhost w env).stages = g.stages ∧
    ((g.UpdateGhost w env).logic = g.logic ∨
      (g.mMoving = true ∧
        (g.UpdateGhost w env).logic = { g.logic with mMoving := false, mAtStage := true })) := by
  rw [UpdateGhost_eq]
  by_cases hm : g.mMoving = true
  · rw [if_pos hm]
    have h1 := laughEnds_logic w env (g.MoveGhostToNewPosition w env)
    have h2 := MoveGhost_logic w env g
    rw [h1.1, h1.2]
    exact ⟨h2.1, h2.2.imp id (fun h => ⟨hm, h⟩)⟩
  · rw [if_neg hm]
    have h1 := laughEnds_logic w env g
    exact ⟨h1.1, Or.inl h1.2⟩

theorem GhostLaugh_logic (w : Platform) (env : Env) (g : Ghost) :
    (g.GhostLaugh w env).stages = g.stages ∧ (g.GhostLaugh w env).logic = g.logic := by
  unfold Ghost.GhostLaugh Ghost.SetGhostLaugh
  constructor
  · simp only [Ghost.stages]
    split_ifs <;> rfl
  · simp only [Ghost.logic]
    split_ifs <;> rfl

theorem InitialiseGhost_logic (w : Platform) (env : Env) (g g' : Ghost)
    (h : g.InitialiseGhost w env = some g') :
    (g'.stages = g.stages ∧
      (g'.logic = g.logic ∨ g'.logic = { g.logic with mGhostActive := true })) ∨
    (g.mInitialised = false ∧ ∃ (ga gs : Ghost) (rest : List Nat), ga.stages = g.stages ∧
      ga.logic = { g.logic with mGhostActive := true } ∧
      ga.SetNewStage w env env.stageDraws = some (gs, rest) ∧
      g'.stages = gs.stages ∧ g'.logic = { gs.logic with mInitialised := true }) := by
  unfold Ghost.InitialiseGhost at h
  by_cases hi : g.mInitialised = true
  · simp only [hi, Bool.not_true, Bool.false_eq_true, if_false] at h
    cases h
    exact Or.inl ⟨rfl, Or.inl rfl⟩
  · have hi' : g.mInitialised = false := by simpa using hi
    simp only [hi', Bool.not_false, if_true] at h
    have hga : ∃ ga : Ghost, ga = (if (!g.mGhostActive) = true then g.SetGhostActive w env else g) ∧
        ga.stages = g.stages ∧
        (ga.logic = g.logic ∨ ga.logic = { g.logic with mGhostActive := true }) ∧
        (ga.mGhostActive = true → ga.logic = { g.logic with mGhostActive := true }) := by
      refine ⟨_, rfl, ?_, ?_, ?_⟩
      · split_ifs <;> rfl
      · split_ifs
        · exact Or.inr rfl
        · exact Or.inl rfl
      · intro ha
        split_ifs with hx
        · rfl
        · have : g.mGhostActive = true := by simpa using hx
          simp [Ghost.logic, this]
    obtain ⟨ga, hga, hs, hl, hact⟩ := hga
    simp only [← hga] at h
    split_ifs at h with hc
    · right
      refine ⟨hi', ?_⟩
      simp only [Bool.and_eq_true] at hc
      cases hsn : Ghost.SetNewStage w env env.stageDraws ga with
      | none => rw [hsn] at h; cases h
      | some p =>
        rw [hsn] at h
        cases h
        exact ⟨ga, p.1, p.2, hs, hact hc.1.1, hsn, rfl, rfl⟩
    · cases h
      exact Or.inl ⟨hs, hl⟩

theorem Counted_SetNewStage (w : Platform) (env : Env) (rand rest : List Nat) (g g' : Ghost)
    (h : g.SetNewStage w env rand = some (g', rest)) (hc : g.logic.Counted) :
    g'.logic.Counted := by
  by_cases h4 : g.mStageCount = STAGE_LIMIT
  · obtain ⟨g1, h1, h2, -⟩ := SetNewStage_defeat w env rand g h4
    rw [h1] at h
    cases h
    rw [h2]
    exact hc
  · obtain ⟨pre, d, -, -, h3, -, h5⟩ := SetNewStage_select w env rand rest g g' h4 h
    rw [h5]
    revert h3
    unfold Ghost.Logic.Counted Ghost.Logic.used at hc ⊢
    simp only [Ghost.logic] at hc
    cases GhostState.ofDraw d <;> simp only [Ghost.available, Ghost.markUsed, Ghost.logic] <;>
      intro h3 <;> simp only [h3, if_true, Bool.false_eq_true, if_false] at hc ⊢ <;>
      split_ifs at hc ⊢ <;> omega

theorem Counted_step (w : Platform) (c : GhostCall) (g g' : Ghost)
    (h : Ghost.step w c g = some g') (hc : g.logic.Counted) : g'.logic.Counted := by
  cases c with
  | InitialiseGhost env =>
    rcases InitialiseGhost_logic w env g g' h with ⟨-, h1 | h1⟩ | ⟨-, ga, gs, rest, -, h2, h3, -, h5⟩
    · rw [h1]; exact hc
    · rw [h1]; exact hc
    · rw [h5]
      have : ga.logic.Counted := by rw [h2]; exact hc
      exact Counted_SetNewStage w env _ rest ga gs h3 this
  | SetNewStage env rand =>
    simp only [Ghost.step, Option.map_eq_some'] at h
    obtain ⟨⟨g1, rest⟩, h1, h2⟩ := h
    cases h2
    exact Counted_SetNewStage w env rand rest g _ h1 hc
  | UpdateGhost env =>
    simp only [Ghost.step, Option.some.injEq] at h
    subst h
    rcases (UpdateGhost_logic w env g).2 with h1 | ⟨-, h1⟩ <;> rw [h1] <;> exact hc
  | GhostLaugh env =>
    simp only [Ghost.step, Option.some.injEq] at h
    subst h
    rw [(GhostLaugh_logic w env g).2]
    exact hc

theorem Counted_run (w : Platform) :
    ∀ (calls : List GhostCall) (g g' : Ghost), Ghost.run w calls g = some g' →
      g.logic.Counted → g'.logic.Counted
  | [], g, g', h, hc => by
    simp only [Ghost.run, Option.some.injEq] at h
    subst h
    exact hc
  | c :: cs, g, g', h, hc => by
    simp only [Ghost.run, Option.bind_eq_some] at h
    obtain ⟨g1, h1, h2⟩ := h
    exact Counted_run w cs g1 g' h2 (Counted_step w c g g1 h1 hc)

theorem Counted_new (w : Platform) (raw : Ghost) : (Ghost.new w raw).logic.Counted := by
  rw [new_logic]
  rfl

theorem selections_nodup (w : Platform) :
    ∀ (envs : List Env) (rand : List Nat) (g : Ghost),
      (Ghost.selections w envs rand g).Nodup ∧
        ∀ k ∈ Ghost.selections w envs rand g, g.available k = true
  | [], _, _ => by simp [Ghost.selections]
  | env :: envs, rand, g => by
    unfold Ghost.selections
    cases hs : g.SetNewStage w env rand with
    | none => simp
    | some p =>
      obtain ⟨g', rest⟩ := p
      have ih := selections_nodup w envs rest g'
      simp only []
      by_cases h4 : g.mStageCount = STAGE_LIMIT
      · obtain ⟨g1, h1, h2, -⟩ := SetNewStage_defeat w env rand g h4
        rw [h1] at hs
        cases hs
        have hsel : Ghost.selected g g' = none := by
          have := congrArg Ghost.Logic.mStageCount h2
          simp only [Ghost.logic] at this
          simp [Ghost.selected, this]
        have hav : ∀ k, g'.available k = g.available k := by
          intro k
          have := congrArg Ghost.Logic.mPianoAvailable h2
          have := congrArg Ghost.Logic.mTypewriterAvailable h2
          have := congrArg Ghost.Logic.mDoorAvailable h2
          have := congrArg Ghost.Logic.mRadioAvailable h2
          simp only [Ghost.logic] at *
          cases k <;> simp [Ghost.available, *]
        rw [hsel]
        simp only [Option.toList, List.nil_append]
        exact ⟨ih.1, fun k hk => by rw [← hav]; exact ih.2 k hk⟩
      · obtain ⟨pre, d, -, -, h3, -, h5⟩ := SetNewStage_select w env rand rest g g' h4 hs
        have hsel : Ghost.selected g g' = some (GhostState.ofDraw d) := by
          have h6 := congrArg Ghost.Logic.mStageCount h5
          have h7 := congrArg Ghost.Logic.mCurrentState h5
          simp only [Ghost.logic] at h6 h7
          simp [Ghost.selected, h6, h7]
        have hav : ∀ k, g'.available k = (g.available k && decide (k ≠ GhostState.ofDraw d)) := by
          intro k
          have h6 := congrArg Ghost.Logic.mPianoAvailable h5
          have h7 := congrArg Ghost.Logic.mTypewriterAvailable h5
          have h8 := congrArg Ghost.Logic.mDoorAvailable h5
          have h9 := congrArg Ghost.Logic.mRadioAvailable h5
          simp only [Ghost.logic] at h6 h7 h8 h9
          cases hd : GhostState.ofDraw d <;> rw [hd] at h6 h7 h8 h9 <;> cases k <;>
            simp [Ghost.available, Ghost.markUsed, h6, h7, h8, h9]
        rw [hsel]
        simp only [Option.toList, List.singleton_append, List.nodup_cons, List.mem_cons]
        refine ⟨⟨?_, ih.1⟩, ?_⟩
        · intro hk
          have := ih.2 _ hk
          rw [hav] at this
          simp at this
        · rintro k (rfl | hk)
          · exact h3
          · have := ih.2 _ hk
            rw [hav] at this
            simp only [Bool.and_eq_true] at this
            exact this.1

/-- C1: over any sequence of SetNewStage calls on a freshly constructed
ghost, drawing from any sequence of draws, no stage is selected by more
than one call; and whenever a call on any ghost selects a stage, the
availability flag of that stage was set before the call and is cleared
after it. -/
theorem Ghost.SetNewStage_selects_each_stage_once (w : Platform) (raw : Ghost)
    (envs : List Env) (rand : List Nat) :
    (Ghost.selections w envs rand (Ghost.new w raw)).Nodup ∧
    ∀ (g g' : Ghost) (env : Env) (draws rest : List Nat) (k : GhostState),
      g.SetNewStage w env draws = some (g', rest) → Ghost.selected g g' = some k →
        g.available k = true ∧ g'.available k = false := by
  refine ⟨(selections_nodup w envs rand _).1, ?_⟩
  intro g g' env draws rest k hs hk
  by_cases h4 : g.mStageCount = STAGE_LIMIT
  · obtain ⟨g1, h1, h2, -⟩ := SetNewStage_defeat w env draws g h4
    rw [h1] at hs
    cases hs
    have := congrArg Ghost.Logic.mStageCount h2
    simp only [Ghost.logic] at this
    simp [Ghost.selected, this] at hk
  · obtain ⟨pre, d, -, -, h3, -, h5⟩ := SetNewStage_select w env draws rest g g' h4 hs
    have h6 := congrArg Ghost.Logic.mStageCount h5
    have h7 := congrArg Ghost.Logic.mCurrentState h5
    simp only [Ghost.logic] at h6 h7
    simp only [Ghost.selected, h6, h7, if_true, Option.some.injEq] at hk
    subst hk
    refine ⟨h3, ?_⟩
    have h8 := congrArg Ghost.Logic.mPianoAvailable h5
    have h9 := congrArg Ghost.Logic.mTypewriterAvailable h5
    have h10 := congrArg Ghost.Logic.mDoorAvailable h5
    have h11 := congrArg Ghost.Logic.mRadioAvailable h5
    simp only [Ghost.logic] at h8 h9 h10 h11
    cases hd : GhostState.ofDraw d <;> rw [hd] at h8 h9 h10 h11 <;>
      simp [Ghost.available, Ghost.markUsed, h8, h9, h10, h11]

/-- Witness of C1: five calls on the draws 1, 1, 0, 1, 3, 2, 2 select the
piano, the door, the radio and the typewriter; the fifth selects nothing. -/
theorem Ghost.SetNewStage_selects_each_stage_once_witness :
    Ghost.selections quickPlatform
        [quietEnv [], quietEnv [], quietEnv [], quietEnv [], quietEnv []] [1, 1, 0, 1, 3, 2, 2]
        (Ghost.new quickPlatform rawGhost) =
      [GhostState.PIANO, GhostState.KNOCKING, GhostState.RADIO, GhostState.TYPEWRITER] ∧
    (Ghost.selections quickPlatform
        [quietEnv [], quietEnv [], quietEnv [], quietEnv [], quietEnv []] [1, 1, 0, 1, 3, 2, 2]
        (Ghost.new quickPlatform rawGhost)).Nodup :=
  ⟨by decide!,
    (Ghost.SetNewStage_selects_each_stage_once quickPlatform rawGhost
      [quietEnv [], quietEnv [], quietEnv [], quietEnv [], quietEnv []] [1, 1, 0, 1, 3, 2, 2]).1⟩

theorem SetNewStageTimes_count (w : Platform) :
    ∀ (envs : List Env) (rand rest : List Nat) (g g' : Ghost),
      Ghost.SetNewStageTimes w envs rand g = some (g', rest) →
      g.mStageCount + envs.length ≤ STAGE_LIMIT →
      g'.mStageCount = g.mStageCount + envs.length
  | [], rand, rest, g, g', h, _ => by
    simp only [Ghost.SetNewStageTimes, Option.some.injEq, Prod.mk.injEq] at h
    simp [← h.1]
  | env :: envs, rand, rest, g, g', h, hle => by
    unfold Ghost.SetNewStageTimes at h
    cases hs : g.SetNewStage w env rand with
    | none => rw [hs] at h; cases h
    | some p =>
      obtain ⟨g1, rand1⟩ := p
      rw [hs] at h
      simp only [List.length_cons, Nat.cast_add, Nat.cast_one, STAGE_LIMIT] at hle ⊢
      have hne : g.mStageCount ≠ STAGE_LIMIT := by
        have : (0 : Int) ≤ envs.length := Int.natCast_nonneg _
        simp only [STAGE_LIMIT]
        omega
      obtain ⟨pre, d, -, -, -, -, h5⟩ := SetNewStage_select w env rand rand1 g g1 hne hs
      have h6 := congrArg Ghost.Logic.mStageCount h5
      simp only [Ghost.logic] at h6
      have ih := SetNewStageTimes_count w envs rand1 rest g1 g' h
        (by simp only [STAGE_LIMIT]; omega)
      omega

/-- C2: on the ghost reached from a freshly constructed one by four
SetNewStage calls (each of which selected a stage: mStageCount is 4), a
fifth call returns for every draw sequence, hands back the draws untouched,
sets mGhostDefeated and leaves mStageCount at 4 and the four availability
flags, mCurrentState and mGhostTargetPosition as they were. -/
theorem Ghost.fifth_SetNewStage_defeats (w : Platform) (raw : Ghost) (e1 e2 e3 e4 : Env)
    (rand rest : List Nat) (g4 : Ghost)
    (h : Ghost.SetNewStageTimes w [e1, e2, e3, e4] rand (Ghost.new w raw) = some (g4, rest))
    (env : Env) (draws : List Nat) :
    g4.mStageCount = 4 ∧
    ∃ g5, g4.SetNewStage w env draws = some (g5, draws) ∧
      g5.mGhostDefeated = true ∧ g5.mStageCount = 4 ∧
      g5.mPianoAvailable = g4.mPianoAvailable ∧
      g5.mTypewriterAvailable = g4.mTypewriterAvailable ∧
      g5.mDoorAvailable = g4.mDoorAvailable ∧
      g5.mRadioAvailable = g4.mRadioAvailable ∧
      g5.mCurrentState = g4.mCurrentState ∧
      g5.mGhostTargetPosition = g4.mGhostTargetPosition := by
  have h4 : g4.mStageCount = 4 := by
    have := SetNewStageTimes_count w _ rand rest _ g4 h
      (by show (0 : Int) + ((4 : Nat) : Int) ≤ 4; decide)
    rw [this]
    show (0 : Int) + ((4 : Nat) : Int) = 4
    decide
  obtain ⟨g5, h5, h6, -⟩ := SetNewStage_defeat w env draws g4 h4
  refine ⟨h4, g5, h5, ?_⟩
  have a1 := congrArg Ghost.Logic.mGhostDefeated h6
  have a2 := congrArg Ghost.Logic.mStageCount h6
  have a3 := congrArg Ghost.Logic.mPianoAvailable h6
  have a4 := congrArg Ghost.Logic.mTypewriterAvailable h6
  have a5 := congrArg Ghost.Logic.mDoorAvailable h6
  have a6 := congrArg Ghost.Logic.mRadioAvailable h6
  have a7 := congrArg Ghost.Logic.mCurrentState h6
  have a8 := congrArg Ghost.Logic.mGhostTargetPosition h6
  simp only [Ghost.logic] at a1 a2 a3 a4 a5 a6 a7 a8
  exact ⟨a1, a2.trans h4, a3, a4, a5, a6, a7, a8⟩

/-- Witness of C2: four calls on the draws 0, 1, 2, 3, then a fifth call
with the draws 7, 7. -/
theorem Ghost.fifth_SetNewStage_defeats_witness :
    Ghost.SetNewStageTimes quickPlatform [quietEnv [], quietEnv [], quietEnv [], quietEnv []]
        [0, 1, 2, 3] (Ghost.new quickPlatform rawGhost) = some (ghostAfterFourStages, []) ∧
    ghostAfterFourStages.mStageCount = 4 ∧
    ∃ g5, ghostAfterFourStages.SetNewStage quickPlatform (quietEnv []) [7, 7] = some (g5, [7, 7]) ∧
      g5.mGhostDefeated = true ∧ g5.mStageCount = 4 ∧
      g5.mPianoAvailable = ghostAfterFourStages.mPianoAvailable ∧
      g5.mTypewriterAvailable = ghostAfterFourStages.mTypewriterAvailable ∧
      g5.mDoorAvailable = ghostAfterFourStages.mDoorAvailable ∧
      g5.mRadioAvailable = ghostAfterFourStages.mRadioAvailable ∧
      g5.mCurrentState = ghostAfterFourStages.mCurrentState ∧
      g5.mGhostTargetPosition = ghostAfterFourStages.mGhostTargetPosition :=
  ⟨by decide!,
    Ghost.fifth_SetNewStage_defeats quickPlatform rawGhost (quietEnv []) (quietEnv [])
      (quietEnv []) (quietEnv []) [0, 1, 2, 3] [] ghostAfterFourStages (by decide!) (quietEnv [])
      [7, 7]⟩

/-- C3: in every ghost reached from construction by any sequence of
InitialiseGhost, SetNewStage, UpdateGhost and GhostLaugh calls, with any
draws and any answers of the audio framework, mStageCount is at most
STAGE_LIMIT. -/
theorem Ghost.mStageCount_le_STAGE_LIMIT (w : Platform) (raw : Ghost) (calls : List GhostCall)
    (g : Ghost) (h : Ghost.run w calls (Ghost.new w raw) = some g) :
    g.mStageCount ≤ STAGE_LIMIT :=
  (Counted_le (Counted_run w calls _ g h (Counted_new w raw))).2

/-- Witness of C3: the ghost after two stage selections. -/
theorem Ghost.mStageCount_le_STAGE_LIMIT_witness :
    Ghost.run quickPlatform
        [GhostCall.SetNewStage (quietEnv []) [5], GhostCall.SetNewStage (quietEnv []) [5, 2]]
        (Ghost.new quickPlatform rawGhost) = some ghostAfterTwoStages ∧
      ghostAfterTwoStages.mStageCount ≤ STAGE_LIMIT :=
  ⟨by decide!,
    Ghost.mStageCount_le_STAGE_LIMIT quickPlatform rawGhost
      [GhostCall.SetNewStage (quietEnv []) [5], GhostCall.SetNewStage (quietEnv []) [5, 2]]
      ghostAfterTwoStages (by decide!)⟩

/-- C4: in every ghost reached from construction whose mStageCount is
below STAGE_LIMIT at least one availability flag is set, and for every
draw sequence `pre ++ d :: post` in which `d` is the first draw that names
an available stage SetNewStage returns having consumed exactly
`pre ++ [d]` and having selected the stage `d` names. -/
theorem Ghost.stage_loop_ends_at_first_available_draw (w : Platform) (raw : Ghost)
    (calls : List GhostCall) (g : Ghost) (h : Ghost.run w calls (Ghost.new w raw) = some g)
    (hlt : g.mStageCount < STAGE_LIMIT) :
    (g.mPianoAvailable = true ∨ g.mTypewriterAvailable = true ∨ g.mDoorAvailable = true ∨
      g.mRadioAvailable = true) ∧
    ∀ (env : Env) (pre : List Nat) (d : Nat) (post : List Nat),
      (∀ x ∈ pre, g.available (GhostState.ofDraw x) = false) →
      g.available (GhostState.ofDraw d) = true →
      ∃ g', g.SetNewStage w env (pre ++ d :: post) = some (g', post) ∧
        g'.mCurrentState = GhostState.ofDraw d ∧ g'.mStageCount = g.mStageCount + 1 := by
  refine ⟨Counted_available (Counted_run w calls _ g h (Counted_new w raw)) hlt, ?_⟩
  intro env pre d post hpre hd
  have hne : g.mStageCount ≠ STAGE_LIMIT := ne_of_lt hlt
  have ha : ∀ k, Ghost.available
      { { g with mEventEmitter := g.mEventEmitter.PauseEmitter w } with mAtStage := false } k =
      g.available k := fun k => by cases k <;> rfl
  have hl := loop_first w
    { { g with mEventEmitter := g.mEventEmitter.PauseEmitter w } with mAtStage := false } d post
    (by rw [ha]; exact hd) pre (fun x hx => by rw [ha]; exact hpre x hx)
  simp only [Ghost.SetNewStage, hne, if_false, hl]
  generalize GhostState.ofDraw d = k
  split_ifs <;> refine ⟨_, rfl, ?_, ?_⟩ <;> cases k <;> rfl

/-- Witness of C4: after the piano and the typewriter were used, the draws
5, 6, 9 do not name an available stage and the draw 3 names the radio. -/
theorem Ghost.stage_loop_ends_at_first_available_draw_witness :
    Ghost.run quickPlatform
        [GhostCall.SetNewStage (quietEnv []) [5], GhostCall.SetNewStage (quietEnv []) [5, 2]]
        (Ghost.new quickPlatform rawGhost) = some ghostAfterTwoStages ∧
      ghostAfterTwoStages.mStageCount < STAGE_LIMIT ∧
      ∃ g', ghostAfterTwoStages.SetNewStage quickPlatform (quietEnv []) ([5, 6, 9] ++ 3 :: [1, 0]) =
          some (g', [1, 0]) ∧
        g'.mCurrentState = GhostState.ofDraw 3 ∧
        g'.mStageCount = ghostAfterTwoStages.mStageCount + 1 :=
  ⟨by decide!, by decide!,
    (Ghost.stage_loop_ends_at_first_available_draw quickPlatform rawGhost
      [GhostCall.SetNewStage (quietEnv []) [5], GhostCall.SetNewStage (quietEnv []) [5, 2]]
      ghostAfterTwoStages (by decide!) (by decide!)).2 (quietEnv []) [5, 6, 9] 3 [1, 0]
      (by decide!) (by decide!)⟩

/-! ### The operations of the room, block by block -/

theorem MovePlayer_eq (w : Platform) (env : Env) (r : Room) :
    r.MovePlayer w env = (r.HitWallOrDoor).bind fun p => Room.MovePlayer.resolve w env p.1 p.2 := by
  unfold Room.MovePlayer
  cases r.HitWallOrDoor with
  | none => rfl
  | some p => rfl

theorem UpdateRoom_eq (w : Platform) (env : Env) (r : Room) :
    r.UpdateRoom w env =
      (if !r.mInitialised && r.mPlayer.mPlayerActive then r.InitialiseRoomObjects w env
        else some r).map fun r => Room.UpdateRoom.objects w env (Room.UpdateRoom.door env r) := by
  unfold Room.UpdateRoom
  cases (if !r.mInitialised && r.mPlayer.mPlayerActive then r.InitialiseRoomObjects w env
        else some r) with
  | none => rfl
  | some p => rfl

/-! ### The grid -/

theorem foldl_write_apply (i j : Int) :
    ∀ (ws : List (Int × Int × Int)) (g0 : Grid),
      (ws.foldl (fun (g : Grid) (c : Int × Int × Int) => g.write c.1 c.2.1 c.2.2) g0) i j =
        match (ws.foldl (fun (g : Grid) (c : Int × Int × Int) => g.write c.1 c.2.1 c.2.2)
            (fun _ _ => none)) i j with
        | some v => some v
        | none => g0 i j
  | [], g0 => rfl
  | c :: ws, g0 => by
    simp only [List.foldl_cons]
    rw [foldl_write_apply i j ws (g0.write c.1 c.2.1 c.2.2),
      foldl_write_apply i j ws (Grid.write (fun _ _ => none) c.1 c.2.1 c.2.2)]
    cases (ws.foldl (fun (g : Grid) (c : Int × Int × Int) => g.write c.1 c.2.1 c.2.2)
        (fun _ _ => none)) i j with
    | some v => rfl
    | none =>
      simp only [Grid.write]
      split_ifs <;> rfl

theorem layout_total :
    ∀ i ∈ List.range 16, ∀ j ∈ List.range 16,
      (Room.layout (i : Int) (j : Int)).any (fun v => decide (0 ≤ v ∧ v ≤ 6)) = true := by
  decide!

theorem layout_read_range (i j v : Int) (h : Room.layout.read i j = some v) : 0 ≤ v ∧ v ≤ 6 := by
  unfold Grid.read at h
  split_ifs at h with hb
  have hi : i.toNat ∈ List.range 16 := by
    simp only [List.mem_range, ROOM_X_SIZE] at hb ⊢
    omega
  have hj : j.toNat ∈ List.range 16 := by
    simp only [List.mem_range, ROOM_Z_SIZE] at hb ⊢
    omega
  have := layout_total _ hi _ hj
  rw [Int.toNat_of_nonneg hb.1, Int.toNat_of_nonneg hb.2.2.1, h] at this
  simpa using this

theorem new_mRoomBase (w : Platform) (env : Env) (raw : Room) :
    (Room.new w env raw).mRoomBase =
      (Room.SetUpRoom.writes ⟨8, 0, 0⟩
        [⟨PIANO_VALUE, ⟨2, 0, 14⟩, 4, 4⟩, ⟨TYPEWRITER_VALUE, ⟨2, 0, 2⟩, 2, 2⟩,
         ⟨RADIO_VALUE, ⟨13, 0, 9⟩, 2, 2⟩, ⟨TABLE_VALUE, ⟨8, 0, 9⟩, 2, 4⟩]).foldl
        (fun (g : Grid) (c : Int × Int × Int) => g.write c.1 c.2.1 c.2.2) raw.mRoomBase := rfl

theorem new_read (w : Platform) (env : Env) (raw : Room) (i j : Int) :
    (Room.new w env raw).mRoomBase.read i j = Room.layout.read i j := by
  unfold Grid.read
  split_ifs with hb
  · rw [new_mRoomBase, foldl_write_apply]
    have hi : i.toNat ∈ List.range 16 := by
      simp only [List.mem_range, ROOM_X_SIZE] at hb ⊢
      omega
    have hj : j.toNat ∈ List.range 16 := by
      simp only [List.mem_range, ROOM_Z_SIZE] at hb ⊢
      omega
    have := layout_total _ hi _ hj
    rw [Int.toNat_of_nonneg hb.1, Int.toNat_of_nonneg hb.2.2.1] at this
    unfold Room.layout at this ⊢
    revert this
    cases ((Room.SetUpRoom.writes ⟨8, 0, 0⟩
        [⟨PIANO_VALUE, ⟨2, 0, 14⟩, 4, 4⟩, ⟨TYPEWRITER_VALUE, ⟨2, 0, 2⟩, 2, 2⟩,
         ⟨RADIO_VALUE, ⟨13, 0, 9⟩, 2, 2⟩, ⟨TABLE_VALUE, ⟨8, 0, 9⟩, 2, 4⟩]).foldl
        (fun (g : Grid) (c : Int × Int × Int) => g.write c.1 c.2.1 c.2.2) (fun _ _ => none)) i j with
    | some v => intro _; rfl
    | none => intro h; simp at h
  · rfl

theorem layout_start : Room.layout.read 7 1 = some NORMAL_FLOOR_VALUE := by decide!


/-! ### The player's update leaves the listener in place -/

theorem UpdatePlayer_pose (w : Platform) (env : Env) (d : ℚ) (f : Bool) (p : Player) :
    (p.UpdatePlayer w env d f).mPlayerListener.pose = p.mPlayerListener.pose := by
  unfold Player.UpdatePlayer
  lift_lets
  intro p1 p2 p3 p4 p5 p6 p7 s1 p8 p9 s2 p10 p11
  have h1 : p1.mPlayerListener = p.mPlayerListener := by
    simp only [p1, Player.SetPlayerActive]; split_ifs <;> rfl
  have h2 : p2.mPlayerListener = p1.mPlayerListener := by
    simp only [p2]; split_ifs <;> rfl
  have h3 : p3.mPlayerListener = p2.mPlayerListener := rfl
  have h4 : p4.mPlayerListener = p3.mPlayerListener := by
    simp only [p4, Player.UpdateHeartbeat]; split_ifs <;> rfl
  have h5 : p5.mPlayerListener = p4.mPlayerListener := by
    simp only [p5]; split_ifs <;> rfl
  have h6 : p6.mPlayerListener = p5.mPlayerListener := by
    simp only [p6]; split_ifs <;> rfl
  have h7 : p7.mPlayerListener = p6.mPlayerListener := by
    simp only [p7, Player.SetFootstepsSound]; split_ifs <;> rfl
  have h8 : p8.mPlayerListener.pose = p6.mPlayerListener.pose := by
    simp only [p8, s1, Listener.pose, h7]; split_ifs <;> rfl
  have h9 : p9.mPlayerListener = p8.mPlayerListener := by
    simp only [p9]; split_ifs <;> rfl
  have h10 : p10.mPlayerListener.pose = p8.mPlayerListener.pose := by
    simp only [p10, s2, Listener.pose, h9]; split_ifs <;> rfl
  have h11 : p11.mPlayerListener = p10.mPlayerListener := by
    simp only [p11]; split_ifs <;> rfl
  have h12 : (if p10.mInPain = true then Player.SetPainSound env p11 else p10).mPlayerListener =
      p10.mPlayerListener := by
    split_ifs
    · rw [← h11]
      simp only [Player.SetPainSound]; split_ifs <;> rfl
    · rfl
  rw [h12, h10, h8, h6, h5, h4, h3, h2, h1]


/-! ### What each operation of the room leaves alone -/

theorem TurnPlayerLeft_frame (env : Env) (r : Room) :
    (r.TurnPlayerLeft env).mRoomBase = r.mRoomBase ∧
    (r.TurnPlayerLeft env).flags = r.flags ∧
    (r.TurnPlayerLeft env).mGhost.logic = r.mGhost.logic ∧
    (r.TurnPlayerLeft env).mPlayer.mPlayerListener.Position = r.mPlayer.mPlayerListener.Position ∧
    (r.mPlayer.mPlayerListener.Ok → (r.TurnPlayerLeft env).mPlayer.mPlayerListener.Ok) := by
  unfold Room.TurnPlayerLeft
  split_ifs
  · exact ⟨rfl, rfl, rfl, rfl, fun h => ⟨rfl, h.2⟩⟩
  · exact ⟨rfl, rfl, rfl, rfl, id⟩

theorem TurnPlayerRight_frame (env : Env) (r : Room) :
    (r.TurnPlayerRight env).mRoomBase = r.mRoomBase ∧
    (r.TurnPlayerRight env).flags = r.flags ∧
    (r.TurnPlayerRight env).mGhost.logic = r.mGhost.logic ∧
    (r.TurnPlayerRight env).mPlayer.mPlayerListener.Position = r.mPlayer.mPlayerListener.Position ∧
    (r.mPlayer.mPlayerListener.Ok → (r.TurnPlayerRight env).mPlayer.mPlayerListener.Ok) := by
  unfold Room.TurnPlayerRight
  split_ifs
  · exact ⟨rfl, rfl, rfl, rfl, fun h => ⟨rfl, h.2⟩⟩
  · exact ⟨rfl, rfl, rfl, rfl, id⟩

theorem Reset_frame (w : Platform) (env : Env) (r : Room) :
    (r.Reset w env).mRoomBase = r.mRoomBase ∧
    (r.Reset w env).flags = r.flags ∧
    (r.Reset w env).mGhost.logic = r.mGhost.logic ∧
    (r.Reset w env).mPlayer.mPlayerListener.Position = r.mPlayer.mPlayerListener.mStartPosition ∧
    (r.mPlayer.mPlayerListener.Ok → (r.Reset w env).mPlayer.mPlayerListener.Ok) :=
  ⟨rfl, rfl, rfl, rfl, fun h => ⟨rfl, h.2⟩⟩

theorem TryToCaptureGhost_frame (w : Platform) (env : Env) (r r' : Room)
    (h : r.TryToCaptureGhost w env = some r') :
    r'.mRoomBase = r.mRoomBase ∧ r'.flags = r.flags ∧
    r'.mPlayer.mPlayerListener = r.mPlayer.mPlayerListener ∧
    (r'.mGhost = r.mGhost ∨ r'.mGhost = r.mGhost.GhostLaugh w env ∨
      (r.mGhost.mAtStage = true ∧
        ∃ rest, r.mGhost.SetNewStage w env env.stageDraws = some (r'.mGhost, rest))) := by
  unfold Room.TryToCaptureGhost at h
  have hp : (r.mPlayer.CaptureGhost w).mPlayerListener = r.mPlayer.mPlayerListener := by
    unfold Player.CaptureGhost; split_ifs <;> rfl
  simp only [] at h
  split_ifs at h with h1 h2
  · cases hs : r.mGhost.SetNewStage w env env.stageDraws with
    | none => rw [hs] at h; cases h
    | some p =>
      rw [hs] at h
      cases h
      simp only [Bool.and_eq_true] at h2
      exact ⟨rfl, rfl, hp, Or.inr (Or.inr ⟨h2.2, p.2, rfl⟩)⟩
  · cases h
    exact ⟨rfl, rfl, hp, Or.inr (Or.inl rfl)⟩
  · cases h
    exact ⟨rfl, rfl, hp, Or.inl rfl⟩

theorem InitialiseRoomObjects_frame (w : Platform) (env : Env) (r r' : Room)
    (h : r.InitialiseRoomObjects w env = some r') :
    r'.mRoomBase = r.mRoomBase ∧ r'.flags = r.flags ∧ r'.mPlayer = r.mPlayer ∧
      r.mGhost.InitialiseGhost w env = some r'.mGhost := by
  unfold Room.InitialiseRoomObjects at h
  cases hs : r.mGhost.InitialiseGhost w env with
  | none => rw [hs] at h; cases h
  | some g =>
    rw [hs] at h
    simp only [] at h
    split_ifs at h <;> cases h <;> exact ⟨rfl, rfl, rfl, rfl⟩

theorem door_frame (env : Env) (r : Room) :
    (Room.UpdateRoom.door env r).mRoomBase = r.mRoomBase ∧
    (Room.UpdateRoom.door env r).mPlayer = r.mPlayer ∧
    (Room.UpdateRoom.door env r).mGhost = r.mGhost ∧
    (Room.UpdateRoom.door env r).mDoorExited = r.mDoorExited ∧
    (Room.UpdateRoom.door env r).mDoorTry = r.mDoorTry ∧
    (Room.UpdateRoom.door env r).mTableCollision = r.mTableCollision ∧
    (Room.UpdateRoom.door env r).mPianoCollision = r.mPianoCollision ∧
    (Room.UpdateRoom.door env r).mRadioCollision = r.mRadioCollision ∧
    (Room.UpdateRoom.door env r).mTypeWriterCollision = r.mTypeWriterCollision ∧
    (r.mDoorOpen = true → (Room.UpdateRoom.door env r).mDoorOpen = true) ∧
    ((Room.UpdateRoom.door env r).mDoorOpen = true →
      r.mDoorOpen = true ∨ r.mGhost.mGhostDefeated = true) ∧
    ((Room.UpdateRoom.door env r).mPlayerFree = true →
      r.mPlayerFree = true ∨ (Room.UpdateRoom.door env r).mDoorOpen = true) := by
  unfold Room.UpdateRoom.door Room.OpenDoor
  cases hd : r.mGhost.mGhostDefeated <;> cases ho : r.mDoorOpen <;>
    cases ha : Emitter.EmitterActive env r.mGhost.mGhostEmitter <;>
    cases hp : env.IsPlaying Sound.mDoorOpenSound <;>
    simp [hd, ho, ha, hp, Emitter.SetEmitterFilter]

theorem objects_frame (w : Platform) (env : Env) (r : Room) :
    (Room.UpdateRoom.objects w env r).mRoomBase = r.mRoomBase ∧
    (Room.UpdateRoom.objects w env r).flags = r.flags ∧
    (Room.UpdateRoom.objects w env r).mPlayer.mPlayerListener.pose = r.mPlayer.mPlayerListener.pose ∧
    (Room.UpdateRoom.objects w env r).mGhost = r.mGhost.UpdateGhost w env :=
  ⟨rfl, rfl, UpdatePlayer_pose w env _ _ _, rfl⟩


theorem advance_frame (env : Env) (r : Room) :
    (Room.MovePlayer.advance env r).mRoomBase = r.mRoomBase ∧
    (Room.MovePlayer.advance env r).flags = r.flags ∧
    (Room.MovePlayer.advance env r).mGhost.logic = r.mGhost.logic ∧
    (Room.MovePlayer.advance env r).calls = r.calls ∧
    (Room.MovePlayer.advance env r).mPlayer.mInPain = r.mPlayer.mInPain ∧
    (Room.MovePlayer.advance env r).mPlayer.mPlayerListener =
      if r.mPlayer.mPlayerCanMove = true then r.mPlayer.mPlayerListener.MoveForward 1
      else r.mPlayer.mPlayerListener := by
  unfold Room.MovePlayer.advance
  split_ifs <;> exact ⟨rfl, rfl, rfl, rfl, rfl, rfl⟩

theorem resolve_blocked (w : Platform) (env : Env) (r1 r' : Room)
    (hex : r1.mDoorExited = false)
    (h : Room.MovePlayer.resolve w env true r1 = some r') :
    r'.mRoomBase = r1.mRoomBase ∧ r'.mGhost = r1.mGhost ∧ r'.mCritters = r1.mCritters ∧
    r'.mOutdoorEmitter = r1.mOutdoorEmitter ∧
    r'.mDoorOpen = r1.mDoorOpen ∧ r'.mPlayerFree = r1.mPlayerFree ∧
    r'.mPlayer = { r1.mPlayer with mInPain := true } ∧
    (r'.mDoorExited = true → r1.mDoorOpen = true ∧ r1.mDoorTry = true) ∧
    (r1.mDoorTry = true → r1.mDoorOpen = true → r'.mDoorExited = true) := by
  unfold Room.MovePlayer.resolve at h
  simp only [Room.DoorExited, hex, Bool.not_false, Bool.and_self, if_true] at h
  split_ifs at h <;> cases h <;> simp_all


theorem HitWallOrDoor_eq (r : Room) :
    r.HitWallOrDoor =
      (r.mRoomBase.read r.NextCell.1 r.NextCell.2).map fun cell =>
        (Room.blocks cell, r.noteCollision cell) := by
  unfold Room.HitWallOrDoor
  simp only []
  cases r.mRoomBase.read r.NextCell.1 r.NextCell.2 with
  | none => rfl
  | some cell =>
    simp only [Option.map_some']
    unfold Room.blocks Room.noteCollision
    simp only [NORMAL_FLOOR_VALUE, DOOR_VALUE, TABLE_VALUE, PIANO_VALUE, RADIO_VALUE,
      TYPEWRITER_VALUE, WALL_VALUE]
    split_ifs <;> simp_all

theorem MovePlayer_read (w : Platform) (env : Env) (r : Room) :
    r.MovePlayer w env =
      (r.mRoomBase.read r.NextCell.1 r.NextCell.2).bind fun cell =>
        Room.MovePlayer.resolve w env (Room.blocks cell) (r.noteCollision cell) := by
  rw [MovePlayer_eq, HitWallOrDoor_eq]
  cases r.mRoomBase.read r.NextCell.1 r.NextCell.2 <;> rfl

theorem noteCollision_frame (cell : Int) (r : Room) :
    (r.noteCollision cell).mRoomBase = r.mRoomBase ∧ (r.noteCollision cell).mPlayer = r.mPlayer ∧
    (r.noteCollision cell).mGhost = r.mGhost ∧ (r.noteCollision cell).mCritters = r.mCritters ∧
    (r.noteCollision cell).mOutdoorEmitter = r.mOutdoorEmitter ∧
    (r.noteCollision cell).mDoorOpen = r.mDoorOpen ∧
    (r.noteCollision cell).mDoorExited = r.mDoorExited ∧
    (r.noteCollision cell).mPlayerFree = r.mPlayerFree ∧
    (r.noteCollision cell).calls = r.calls ∧
    ((r.noteCollision cell).mDoorTry = true → r.mDoorTry = true ∨ cell = DOOR_VALUE) := by
  unfold Room.noteCollision
  split_ifs <;> simp_all

theorem resolve_bumped (w : Platform) (env : Env) (cell : Int) (r : Room)
    (hv : RoomSoundsValid w) (hb : Room.blocks cell = true)
    (ho : r.mDoorOpen = false) (hex : r.mDoorExited = false)
    (hf : r.mDoorTry = false ∧ r.mTableCollision = false ∧ r.mPianoCollision = false ∧
      r.mRadioCollision = false ∧ r.mTypeWriterCollision = false) :
    Room.MovePlayer.resolve w env true (r.noteCollision cell) =
      some (r.bumped (collisionSound cell)) := by
  obtain ⟨f1, f2, f3, f4, f5⟩ := hf
  have v1 := hv Sound.mHitWallSound (by simp)
  have v2 := hv Sound.mHitDoorSound (by simp)
  have v3 := hv Sound.mTableCollisionSound (by simp)
  have v4 := hv Sound.mPianoCollisionSound (by simp)
  have v5 := hv Sound.mRadioCollisionSound (by simp)
  have v6 := hv Sound.mTypeWriterCollisionSound (by simp)
  obtain ⟨a1, a2, a3, a4, a5, a6, a7, a8, a9, a10, a11, a12, a13, a14, a15, a16, a17, a18, a19,
    a20, a21, a22, a23⟩ := r
  simp only at ho hex f1 f2 f3 f4 f5
  subst ho hex f1 f2 f3 f4 f5
  simp only [Room.blocks, decide_eq_true_eq] at hb
  rcases hb with h | h | h | h | h | h <;> subst h <;>
    simp [Room.noteCollision, Room.MovePlayer.resolve, Room.bumped, collisionSound, Room.DoorExited,
      DOOR_VALUE, TABLE_VALUE, PIANO_VALUE, RADIO_VALUE, TYPEWRITER_VALUE, WALL_VALUE,
      v1, v2, v3, v4, v5, v6]

/-! ### The invariant of the room -/

theorem Steady_of_logic_eq {l l' : Ghost.Logic} (h : l' = l) (hs : l.Steady) : l'.Steady := h ▸ hs

theorem Steady_active {l : Ghost.Logic} (hs : l.Steady) :
    ({ l with mGhostActive := true } : Ghost.Logic).Steady :=
  ⟨hs.counted, hs.defeated, hs.atStage, hs.fresh⟩

theorem Steady_arrive {l : Ghost.Logic} (hs : l.Steady) (hm : l.mMoving = true) :
    ({ l with mMoving := false, mAtStage := true } : Ghost.Logic).Steady := by
  refine ⟨hs.counted, ?_, fun _ => rfl, ?_⟩
  · intro hd
    have := (hs.defeated hd).2.2
    rw [hm] at this
    cases this
  · intro hi
    have := (hs.fresh hi).2.1
    rw [hm] at this
    cases this

theorem Steady_UpdateGhost (w : Platform) (env : Env) (g : Ghost) (hs : g.logic.Steady) :
    (g.UpdateGhost w env).logic.Steady := by
  rcases (UpdateGhost_logic w env g).2 with h | ⟨hm, h⟩
  · rw [h]; exact hs
  · rw [h]; exact Steady_arrive hs hm

theorem Steady_GhostLaugh (w : Platform) (env : Env) (g : Ghost) (hs : g.logic.Steady) :
    (g.GhostLaugh w env).logic.Steady := by
  rw [(GhostLaugh_logic w env g).2]; exact hs

theorem Steady_SetNewStage (w : Platform) (env : Env) (rand rest : List Nat) (g g' : Ghost)
    (hs : g.logic.Steady) (h : g.SetNewStage w env rand = some (g', rest))
    (hstart : g.mAtStage = true ∨ g.mInitialised = false) :
    ({ g'.logic with mInitialised := true } : Ghost.Logic).Steady ∧
      (g.mGhostDefeated = true → g'.mGhostDefeated = true) ∧
      g'.mInitialised = g.mInitialised := by
  have hc' := Counted_SetNewStage w env rand rest g g' h hs.counted
  by_cases h4 : g.mStageCount = STAGE_LIMIT
  · obtain ⟨g1, h1, h2, -⟩ := SetNewStage_defeat w env rand g h4
    rw [h1] at h
    cases h
    have hinit : g.mInitialised = true := by
      by_contra hn
      have := (hs.fresh (by simpa using hn)).1
      simp only [Ghost.logic] at this
      rw [this] at h4
      cases h4
    have hat : g.mAtStage = true := by
      rcases hstart with h | h
      · exact h
      · rw [hinit] at h; cases h
    have hmv : g.mMoving = false := hs.atStage hat
    refine ⟨⟨hc', ?_, ?_, ?_⟩, ?_, ?_⟩
    · intro _
      rw [h2]
      exact ⟨h4, rfl, hmv⟩
    · intro h
      rw [h2] at h
      cases h
    · intro h
      cases h
    · intro _
      exact congrArg Ghost.Logic.mGhostDefeated h2
    · exact congrArg Ghost.Logic.mInitialised h2
  · obtain ⟨pre, d, -, -, -, -, h5⟩ := SetNewStage_select w env rand rest g g' h4 h
    have hnd : g.mGhostDefeated = false := by
      by_contra hn
      exact h4 (hs.defeated (by simpa using hn)).1
    have e1 : g'.logic.mGhostDefeated = g.mGhostDefeated := by
      rw [h5]; cases GhostState.ofDraw d <;> rfl
    have e2 : g'.logic.mInitialised = g.mInitialised := by
      rw [h5]; cases GhostState.ofDraw d <;> rfl
    have e3 : g'.logic.mAtStage = false := by rw [h5]
    refine ⟨⟨hc', ?_, ?_, ?_⟩, ?_, e2⟩
    · intro h
      have : g.mGhostDefeated = true := e1 ▸ h
      rw [hnd] at this
      cases this
    · intro h
      have : g'.logic.mAtStage = true := h
      rw [e3] at this
      cases this
    · intro h
      cases h
    · intro h
      rw [hnd] at h
      cases h

theorem Steady_initialised {l : Ghost.Logic} (h : l.mInitialised = true) :
    ({ l with mInitialised := true } : Ghost.Logic) = l := by
  cases l
  simp only at h
  subst h
  rfl

theorem Steady_InitialiseGhost (w : Platform) (env : Env) (g g' : Ghost)
    (hs : g.logic.Steady) (h : g.InitialiseGhost w env = some g') :
    g'.logic.Steady ∧ (g.mGhostDefeated = true → g'.mGhostDefeated = true) := by
  rcases InitialiseGhost_logic w env g g' h with ⟨-, h1 | h1⟩ | ⟨hi, ga, gs, rest, -, h2, h3, -, h5⟩
  · have e := congrArg Ghost.Logic.mGhostDefeated h1
    simp only [Ghost.logic] at e
    rw [h1]
    exact ⟨hs, fun h => e.trans h⟩
  · have e := congrArg Ghost.Logic.mGhostDefeated h1
    simp only [Ghost.logic] at e
    rw [h1]
    exact ⟨Steady_active hs, fun h => e.trans h⟩
  · have hga : ga.logic.Steady := by rw [h2]; exact Steady_active hs
    have hgi : ga.mInitialised = false := by
      have := congrArg Ghost.Logic.mInitialised h2
      simp only [Ghost.logic] at this
      rw [this]; exact hi
    have hgd : ga.mGhostDefeated = g.mGhostDefeated := by
      have := congrArg Ghost.Logic.mGhostDefeated h2
      simpa only [Ghost.logic] using this
    obtain ⟨k1, k2, -⟩ := Steady_SetNewStage w env _ rest ga gs hga h3 (Or.inr hgi)
    rw [h5]
    refine ⟨k1, fun hd => ?_⟩
    have := k2 (hgd ▸ hd)
    have e := congrArg Ghost.Logic.mGhostDefeated h5
    simp only [Ghost.logic] at e
    rw [e]; exact this

theorem Steady_capture (w : Platform) (env : Env) (rand rest : List Nat) (g g' : Ghost)
    (hs : g.logic.Steady) (h : g.SetNewStage w env rand = some (g', rest))
    (hat : g.mAtStage = true) :
    g'.logic.Steady ∧ (g.mGhostDefeated = true → g'.mGhostDefeated = true) := by
  obtain ⟨k1, k2, k3⟩ := Steady_SetNewStage w env rand rest g g' hs h (Or.inl hat)
  have hinit : g.mInitialised = true := by
    by_contra hn
    have := (hs.fresh (by simpa using hn)).2.2
    simp only [Ghost.logic] at this
    rw [hat] at this
    cases this
  rw [Steady_initialised (l := g'.logic) (k3.trans hinit)] at k1
  exact ⟨k1, k2⟩


theorem toInt_seven : toInt ((8 : ℚ) - 1) = 7 := by decide!

theorem toInt_one : toInt ((2 : ℚ) - 1) = 1 := by decide!

theorem Inv_new (w : Platform) (env : Env) (raw : Room) : (Room.new w env raw).Inv w where
  grid := new_read w env raw
  listener := ⟨rfl, rfl⟩
  floor := fun _ => by
    have : (Room.new w env raw).PlayerCell = (toInt ((8 : ℚ) - 1), toInt ((2 : ℚ) - 1)) := rfl
    rw [this, toInt_seven, toInt_one, new_read]
    exact layout_start
  exited := fun h => by cases h
  free := fun h => by cases h
  opened := fun h => by cases h
  ghost := by
    have : (Room.new w env raw).mGhost.logic = (Ghost.new w raw.mGhost).logic := rfl
    rw [this, new_logic]
    exact ⟨rfl, fun h => (by cases h), fun h => (by cases h), fun _ => ⟨rfl, rfl, rfl⟩⟩
  flags := fun _ _ => ⟨rfl, rfl, rfl, rfl, rfl⟩

theorem Inv_of_frame {w : Platform} {r r' : Room} (hi : r.Inv w)
    (hg : r'.mRoomBase = r.mRoomBase) (hf : r'.flags = r.flags)
    (hl : r'.mGhost.logic.Steady)
    (hd : r.mGhost.mGhostDefeated = true → r'.mGhost.mGhostDefeated = true)
    (hok : r'.mPlayer.mPlayerListener.Ok)
    (hp : r'.mPlayer.mPlayerListener.Position = r.mPlayer.mPlayerListener.Position ∨
      r'.mPlayer.mPlayerListener.Position = ⟨8, 0, 2⟩) : r'.Inv w := by
  have f1 : r'.mDoorExited = r.mDoorExited := congrArg Room.Flags.mDoorExited hf
  have f2 : r'.mPlayerFree = r.mPlayerFree := congrArg Room.Flags.mPlayerFree hf
  have f3 : r'.mDoorOpen = r.mDoorOpen := congrArg Room.Flags.mDoorOpen hf
  have f4 : r'.mDoorTry = r.mDoorTry := congrArg Room.Flags.mDoorTry hf
  have f5 : r'.mTableCollision = r.mTableCollision := congrArg Room.Flags.mTableCollision hf
  have f6 : r'.mPianoCollision = r.mPianoCollision := congrArg Room.Flags.mPianoCollision hf
  have f7 : r'.mRadioCollision = r.mRadioCollision := congrArg Room.Flags.mRadioCollision hf
  have f8 : r'.mTypeWriterCollision = r.mTypeWriterCollision :=
    congrArg Room.Flags.mTypeWriterCollision hf
  refine ⟨fun i j => by rw [hg]; exact hi.grid i j, hok, ?_, ?_, ?_, ?_, hl, ?_⟩
  · intro he
    rcases hp with hp | hp
    · have : r'.PlayerCell = r.PlayerCell := by
        simp only [Room.PlayerCell, Player.GetPosition, hp]
      rw [this, hg]
      exact hi.floor (f1 ▸ he)
    · have : r'.PlayerCell = (toInt ((8 : ℚ) - 1), toInt ((2 : ℚ) - 1)) := by
        simp only [Room.PlayerCell, Player.GetPosition, hp]
      rw [this, toInt_seven, toInt_one, hg, hi.grid]
      exact layout_start
  · intro he
    rw [f3]
    exact hi.exited (f1 ▸ he)
  · intro he
    rw [f3]
    exact hi.free (f2 ▸ he)
  · intro he
    exact hd (hi.opened (f3 ▸ he))
  · intro hv ho
    rw [f4, f5, f6, f7, f8]
    exact hi.flags hv (f3 ▸ ho)


theorem Inv_TurnPlayerLeft {w : Platform} (env : Env) {r : Room} (hi : r.Inv w) :
    (r.TurnPlayerLeft env).Inv w := by
  obtain ⟨h1, h2, h3, h4, h5⟩ := TurnPlayerLeft_frame env r
  exact Inv_of_frame hi h1 h2 (h3 ▸ hi.ghost)
    (fun h => (congrArg Ghost.Logic.mGhostDefeated h3).trans h) (h5 hi.listener) (Or.inl h4)

theorem Inv_TurnPlayerRight {w : Platform} (env : Env) {r : Room} (hi : r.Inv w) :
    (r.TurnPlayerRight env).Inv w := by
  obtain ⟨h1, h2, h3, h4, h5⟩ := TurnPlayerRight_frame env r
  exact Inv_of_frame hi h1 h2 (h3 ▸ hi.ghost)
    (fun h => (congrArg Ghost.Logic.mGhostDefeated h3).trans h) (h5 hi.listener) (Or.inl h4)

theorem Inv_Reset {w : Platform} (env : Env) {r : Room} (hi : r.Inv w) :
    (r.Reset w env).Inv w := by
  obtain ⟨h1, h2, h3, h4, h5⟩ := Reset_frame w env r
  exact Inv_of_frame hi h1 h2 (h3 ▸ hi.ghost)
    (fun h => (congrArg Ghost.Logic.mGhostDefeated h3).trans h) (h5 hi.listener)
    (Or.inr (h4.trans hi.listener.2))

theorem Inv_TryToCaptureGhost {w : Platform} (env : Env) {r r' : Room} (hi : r.Inv w)
    (h : r.TryToCaptureGhost w env = some r') : r'.Inv w := by
  obtain ⟨h1, h2, h3, h4⟩ := TryToCaptureGhost_frame w env r r' h
  have hok : r'.mPlayer.mPlayerListener.Ok := h3 ▸ hi.listener
  have hp : r'.mPlayer.mPlayerListener.Position = r.mPlayer.mPlayerListener.Position := by rw [h3]
  rcases h4 with h4 | h4 | ⟨hat, rest, h4⟩
  · exact Inv_of_frame hi h1 h2 (h4 ▸ hi.ghost) (fun h => h4 ▸ h) hok (Or.inl hp)
  · refine Inv_of_frame hi h1 h2 (h4 ▸ Steady_GhostLaugh w env _ hi.ghost) (fun h => ?_) hok
      (Or.inl hp)
    rw [h4]
    exact (congrArg Ghost.Logic.mGhostDefeated (GhostLaugh_logic w env r.mGhost).2).trans h
  · obtain ⟨k1, k2⟩ := Steady_capture w env _ rest _ _ hi.ghost h4 hat
    exact Inv_of_frame hi h1 h2 k1 k2 hok (Or.inl hp)

theorem Inv_door {w : Platform} (env : Env) {r : Room} (hi : r.Inv w) :
    (Room.UpdateRoom.door env r).Inv w := by
  obtain ⟨h1, h2, h3, h4, h5, h6, h7, h8, h9, h10, h11, h12⟩ := door_frame env r
  refine ⟨fun i j => by rw [h1]; exact hi.grid i j, h2 ▸ hi.listener, ?_, ?_, ?_, ?_,
    h3 ▸ hi.ghost, ?_⟩
  · intro he
    have : (Room.UpdateRoom.door env r).PlayerCell = r.PlayerCell := by
      simp only [Room.PlayerCell, h2]
    rw [this, h1]
    exact hi.floor (h4 ▸ he)
  · intro he
    exact h10 (hi.exited (h4 ▸ he))
  · intro he
    rcases h12 he with h | h
    · exact h10 (hi.free h)
    · exact h
  · intro he
    rw [h3]
    rcases h11 he with h | h
    · exact hi.opened h
    · exact h
  · intro hv ho
    have ho' : r.mDoorOpen = false := by
      by_contra hn
      rw [h10 (by simpa using hn)] at ho
      cases ho
    rw [h5, h6, h7, h8, h9]
    exact hi.flags hv ho'

theorem Inv_objects {w : Platform} (env : Env) {r : Room} (hi : r.Inv w) :
    (Room.UpdateRoom.objects w env r).Inv w := by
  obtain ⟨h1, h2, h3, h4⟩ := objects_frame w env r
  have e1 : (Room.UpdateRoom.objects w env r).mPlayer.mPlayerListener.Position =
      r.mPlayer.mPlayerListener.Position := congrArg (fun p => p.1) h3
  have e2 : (Room.UpdateRoom.objects w env r).mPlayer.mPlayerListener.OrientFront =
      r.mPlayer.mPlayerListener.OrientFront := congrArg (fun p => p.2.1) h3
  have e3 : (Room.UpdateRoom.objects w env r).mPlayer.mPlayerListener.mBodyOrientation =
      r.mPlayer.mPlayerListener.mBodyOrientation := congrArg (fun p => p.2.2.1) h3
  have e4 : (Room.UpdateRoom.objects w env r).mPlayer.mPlayerListener.mStartPosition =
      r.mPlayer.mPlayerListener.mStartPosition := congrArg (fun p => p.2.2.2.1) h3
  refine Inv_of_frame hi h1 h2 (h4 ▸ Steady_UpdateGhost w env _ hi.ghost) (fun h => ?_)
    ⟨by rw [e2, e3]; exact hi.listener.1, by rw [e4]; exact hi.listener.2⟩ (Or.inl e1)
  rw [h4]
  rcases (UpdateGhost_logic w env r.mGhost).2 with k | ⟨-, k⟩ <;>
    exact (congrArg Ghost.Logic.mGhostDefeated k).trans h

theorem Inv_UpdateRoom {w : Platform} (env : Env) {r r' : Room} (hi : r.Inv w)
    (h : r.UpdateRoom w env = some r') : r'.Inv w := by
  rw [UpdateRoom_eq] at h
  simp only [Option.map_eq_some'] at h
  obtain ⟨r1, h1, h2⟩ := h
  subst h2
  apply Inv_objects
  apply Inv_door
  split_ifs at h1
  · obtain ⟨k1, k2, k3, k4⟩ := InitialiseRoomObjects_frame w env r r1 h1
    obtain ⟨s1, s2⟩ := Steady_InitialiseGhost w env _ _ hi.ghost k4
    exact Inv_of_frame hi k1 k2 s1 s2 (k3 ▸ hi.listener) (Or.inl (by rw [k3]))
  · cases h1
    exact hi

theorem MoveForward_ok {l : Listener} (h : l.Ok) :
    (l.MoveForward 1).Ok ∧
      (l.MoveForward 1).Position =
        ⟨l.Position.x + l.OrientFront.x, l.Position.y + l.OrientFront.y,
          l.Position.z + l.OrientFront.z⟩ := by
  refine ⟨⟨h.1, h.2⟩, ?_⟩
  simp only [Listener.MoveForward, mul_one, h.1]

theorem blocks_false {cell : Int} (h0 : 0 ≤ cell ∧ cell ≤ 6) (hb : Room.blocks cell = false) :
    cell = NORMAL_FLOOR_VALUE := by
  simp only [Room.blocks, decide_eq_false_iff_not, DOOR_VALUE, TABLE_VALUE, PIANO_VALUE,
    RADIO_VALUE, TYPEWRITER_VALUE, WALL_VALUE] at hb
  simp only [NORMAL_FLOOR_VALUE]
  omega

theorem noteCollision_floor (r : Room) : r.noteCollision NORMAL_FLOOR_VALUE = r := by
  simp [Room.noteCollision, NORMAL_FLOOR_VALUE, DOOR_VALUE, TABLE_VALUE, PIANO_VALUE,
    RADIO_VALUE, TYPEWRITER_VALUE]

/-- The three ways a call of MovePlayer that returns can go. -/
theorem MovePlayer_cases (w : Platform) (env : Env) (r r' : Room) (hi : r.Inv w)
    (h : r.MovePlayer w env = some r') :
    ∃ cell, r.mRoomBase.read r.NextCell.1 r.NextCell.2 = some cell ∧ 0 ≤ cell ∧ cell ≤ 6 ∧
      ((Room.blocks cell = true ∧ r.mDoorExited = false ∧
          Room.MovePlayer.resolve w env true (r.noteCollision cell) = some r') ∨
        (r.mDoorExited = true ∧ r' = Room.MovePlayer.advance env (r.noteCollision cell)) ∨
        (cell = NORMAL_FLOOR_VALUE ∧ r.mDoorExited = false ∧
          r' = Room.MovePlayer.advance env r)) := by
  rw [MovePlayer_read] at h
  cases hc : r.mRoomBase.read r.NextCell.1 r.NextCell.2 with
  | none => rw [hc] at h; cases h
  | some cell =>
    rw [hc] at h
    simp only [Option.some_bind] at h
    have hr : 0 ≤ cell ∧ cell ≤ 6 := layout_read_range _ _ _ ((hi.grid _ _).symm.trans hc)
    refine ⟨cell, rfl, hr.1, hr.2, ?_⟩
    have hx : (r.noteCollision cell).mDoorExited = r.mDoorExited :=
      (noteCollision_frame cell r).2.2.2.2.2.2.1
    cases hb : Room.blocks cell <;> cases he : r.mDoorExited
    · have h0 := blocks_false hr hb
      subst h0
      rw [noteCollision_floor] at h
      simp only [Room.MovePlayer.resolve, hb, Bool.false_and, Bool.false_eq_true, if_false,
        Option.some.injEq] at h
      exact Or.inr (Or.inr ⟨rfl, rfl, h.symm⟩)
    · simp only [Room.MovePlayer.resolve, hb, Bool.false_and, Bool.false_eq_true, if_false,
        Option.some.injEq] at h
      exact Or.inr (Or.inl ⟨rfl, h.symm⟩)
    · rw [hb] at h
      exact Or.inl ⟨rfl, rfl, h⟩
    · simp only [Room.MovePlayer.resolve, Room.DoorExited, hx, he, hb, Bool.not_true,
        Bool.and_false, Bool.false_eq_true, if_false, Option.some.injEq] at h
      exact Or.inr (Or.inl ⟨rfl, h.symm⟩)

theorem noteCollision_open (cell : Int) (r : Room) :
    (r.noteCollision cell).PlayerCell = r.PlayerCell := by
  simp only [Room.PlayerCell, (noteCollision_frame cell r).2.1]

theorem advance_Inv_exited {w : Platform} (env : Env) (cell : Int) {r : Room} (hi : r.Inv w)
    (he : r.mDoorExited = true) : (Room.MovePlayer.advance env (r.noteCollision cell)).Inv w := by
  obtain ⟨n1, n2, n3, -, -, n6, n7, n8, -, -⟩ := noteCollision_frame cell r
  obtain ⟨a1, a2, a3, -, -, a6⟩ := advance_frame env (r.noteCollision cell)
  have f1 := congrArg Room.Flags.mDoorExited a2
  have f2 := congrArg Room.Flags.mPlayerFree a2
  have f3 := congrArg Room.Flags.mDoorOpen a2
  simp only [Room.flags] at f1 f2 f3
  have ho : (Room.MovePlayer.advance env (r.noteCollision cell)).mDoorOpen = true := by
    rw [f3, n6]; exact hi.exited he
  refine ⟨fun i j => by rw [a1, n1]; exact hi.grid i j, ?_, ?_, fun _ => ho, fun _ => ho, ?_, ?_, ?_⟩
  · rw [a6, n2]
    split_ifs
    · exact (MoveForward_ok hi.listener).1
    · exact hi.listener
  · intro hx
    rw [f1, n7, he] at hx
    cases hx
  · intro _
    have := congrArg Ghost.Logic.mGhostDefeated a3
    simp only [Ghost.logic] at this
    rw [this, n3]
    exact hi.opened (hi.exited he)
  · rw [a3, n3]; exact hi.ghost
  · intro _ hx
    rw [ho] at hx
    cases hx

theorem advance_Inv_floor {w : Platform} (env : Env) {r : Room} (hi : r.Inv w)
    (hc : r.mRoomBase.read r.NextCell.1 r.NextCell.2 = some NORMAL_FLOOR_VALUE) :
    (Room.MovePlayer.advance env r).Inv w := by
  obtain ⟨a1, a2, a3, -, -, a6⟩ := advance_frame env r
  have hd : r.mGhost.mGhostDefeated = true →
      (Room.MovePlayer.advance env r).mGhost.mGhostDefeated = true := fun h =>
    (congrArg Ghost.Logic.mGhostDefeated a3).trans h
  have hl : (Room.MovePlayer.advance env r).mPlayer.mPlayerListener.Ok := by
    rw [a6]
    split_ifs
    · exact (MoveForward_ok hi.listener).1
    · exact hi.listener
  by_cases hm : r.mPlayer.mPlayerCanMove = true
  · have f1 := congrArg Room.Flags.mDoorExited a2
    have f2 := congrArg Room.Flags.mPlayerFree a2
    have f3 := congrArg Room.Flags.mDoorOpen a2
    have f4 := congrArg Room.Flags.mDoorTry a2
    have f5 := congrArg Room.Flags.mTableCollision a2
    have f6 := congrArg Room.Flags.mPianoCollision a2
    have f7 := congrArg Room.Flags.mRadioCollision a2
    have f8 := congrArg Room.Flags.mTypeWriterCollision a2
    simp only [Room.flags] at f1 f2 f3 f4 f5 f6 f7 f8
    refine ⟨fun i j => by rw [a1]; exact hi.grid i j, hl, ?_, ?_, ?_, ?_, a3 ▸ hi.ghost, ?_⟩
    · intro _
      have hp : (Room.MovePlayer.advance env r).PlayerCell = r.NextCell := by
        simp only [Room.PlayerCell, Room.NextCell, Player.GetPosition, Player.GetNextPosition,
          a6, hm, if_true, (MoveForward_ok hi.listener).2]
      rw [hp, a1]
      exact hc
    · rw [f1, f3]; exact hi.exited
    · rw [f2, f3]; exact hi.free
    · rw [f3]; exact fun h => hd (hi.opened h)
    · rw [f3, f4, f5, f6, f7, f8]; exact hi.flags
  · refine Inv_of_frame hi a1 a2 (a3 ▸ hi.ghost) hd hl (Or.inl ?_)
    rw [a6, if_neg hm]

theorem Inv_MovePlayer {w : Platform} (env : Env) {r r' : Room} (hi : r.Inv w)
    (h : r.MovePlayer w env = some r') : r'.Inv w := by
  obtain ⟨cell, hc, -, -, hk⟩ := MovePlayer_cases w env r r' hi h
  rcases hk with ⟨hb, he, hr⟩ | ⟨he, hr⟩ | ⟨h0, -, hr⟩
  · obtain ⟨n1, n2, n3, -, -, n6, n7, n8, -, n10⟩ := noteCollision_frame cell r
    obtain ⟨b1, b2, -, -, b5, b6, b7, b8, -⟩ :=
      resolve_blocked w env _ r' (n7.trans he) hr
    have hp : r'.PlayerCell = r.PlayerCell := by
      simp only [Room.PlayerCell, Player.GetPosition, b7, n2]
    refine ⟨fun i j => by rw [b1, n1]; exact hi.grid i j, by rw [b7, n2]; exact hi.listener,
      ?_, ?_, ?_, ?_, by rw [b2, n3]; exact hi.ghost, ?_⟩
    · intro _
      rw [hp, b1, n1]
      exact hi.floor he
    · intro hx
      rw [b5]
      exact (b8 hx).1
    · intro hx
      rw [b5, n6]
      rw [b6, n8] at hx
      exact hi.free hx
    · intro hx
      rw [b2, n3]
      rw [b5, n6] at hx
      exact hi.opened hx
    · intro hv ho
      rw [b5, n6] at ho
      have hf := hi.flags hv ho
      rw [resolve_bumped w env cell r hv hb ho he hf] at hr
      cases hr
      exact hf
  · subst hr
    exact advance_Inv_exited env cell hi he
  · subst hr
    subst h0
    exact advance_Inv_floor env hi hc

theorem Inv_step {w : Platform} (c : RoomCall) {r r' : Room} (hi : r.Inv w)
    (h : Room.step w c r = some r') : r'.Inv w := by
  cases c with
  | MovePlayer env => exact Inv_MovePlayer env hi h
  | TurnPlayerLeft env => cases h; exact Inv_TurnPlayerLeft env hi
  | TurnPlayerRight env => cases h; exact Inv_TurnPlayerRight env hi
  | TryToCaptureGhost env => exact Inv_TryToCaptureGhost env hi h
  | Reset env => cases h; exact Inv_Reset env hi
  | UpdateRoom env => exact Inv_UpdateRoom env hi h

theorem Inv_run {w : Platform} :
    ∀ (calls : List RoomCall) {r r' : Room}, r.Inv w → Room.run w calls r = some r' → r'.Inv w
  | [], r, r', hi, h => by cases h; exact hi
  | c :: cs, r, r', hi, h => by
    simp only [Room.run] at h
    cases hs : Room.step w c r with
    | none => rw [hs] at h; cases h
    | some r1 =>
      rw [hs] at h
      exact Inv_run cs (Inv_step c hi hs) h

/-! ### The room over sequences of calls -/

theorem some_getD {α : Type} (o : Option α) (d : α) (h : o.isSome = true) : o = some (o.getD d) := by
  cases o with
  | none => cases h
  | some a => rfl

theorem Inv_reached {w : Platform} (env0 : Env) (raw : Room) (calls : List RoomCall) {r : Room}
    (h : Room.run w calls (Room.new w env0 raw) = some r) : r.Inv w :=
  Inv_run calls (Inv_new w env0 raw) h

theorem defeated_step {w : Platform} (c : RoomCall) {r r' : Room} (hi : r.Inv w)
    (hd : r.mGhost.mGhostDefeated = true) (h : Room.step w c r = some r') :
    r'.mGhost.logic = r.mGhost.logic := by
  obtain ⟨h4, hat, hmv⟩ := hi.ghost.defeated hd
  cases c with
  | MovePlayer env =>
    obtain ⟨cell, -, -, -, hk⟩ := MovePlayer_cases w env r r' hi h
    obtain ⟨-, -, n3, -⟩ := noteCollision_frame cell r
    rcases hk with ⟨-, he, hr⟩ | ⟨-, hr⟩ | ⟨-, -, hr⟩
    · have hx : (r.noteCollision cell).mDoorExited = false :=
        (noteCollision_frame cell r).2.2.2.2.2.2.1.trans he
      rw [(resolve_blocked w env _ r' hx hr).2.1, n3]
    · rw [hr, (advance_frame env _).2.2.1, n3]
    · rw [hr, (advance_frame env _).2.2.1]
  | TurnPlayerLeft env => cases h; exact (TurnPlayerLeft_frame env r).2.2.1
  | TurnPlayerRight env => cases h; exact (TurnPlayerRight_frame env r).2.2.1
  | TryToCaptureGhost env =>
    obtain ⟨-, -, -, h4⟩ := TryToCaptureGhost_frame w env r r' h
    rcases h4 with h4 | h4 | ⟨hs, -⟩
    · rw [h4]
    · rw [h4]; exact (GhostLaugh_logic w env r.mGhost).2
    · have : r.mGhost.mAtStage = false := hat
      rw [this] at hs
      cases hs
  | Reset env => cases h; exact (Reset_frame w env r).2.2.1
  | UpdateRoom env =>
    have h' : r.UpdateRoom w env = some r' := h
    rw [UpdateRoom_eq] at h'
    simp only [Option.map_eq_some'] at h'
    obtain ⟨r1, h1, h2⟩ := h'
    subst h2
    have hini : r.mGhost.mInitialised = true := by
      by_contra hn
      have h0 := (hi.ghost.fresh (by simpa using hn)).1
      have h4' : r.mGhost.logic.mStageCount = 4 := h4
      rw [h4'] at h0
      cases h0
    have e1 : r1.mGhost = r.mGhost := by
      split_ifs at h1
      · obtain ⟨-, -, -, k4⟩ := InitialiseRoomObjects_frame w env r r1 h1
        simp only [Ghost.InitialiseGhost, hini, Bool.not_true, Bool.false_eq_true, if_false,
          Option.some.injEq] at k4
        exact k4.symm
      · cases h1
        rfl
    rw [(objects_frame w env _).2.2.2, (door_frame env r1).2.2.1, e1]
    rcases (UpdateGhost_logic w env r.mGhost).2 with k | ⟨k, -⟩
    · exact k
    · have : r.mGhost.mMoving = false := hmv
      rw [this] at k
      cases k

theorem defeated_run {w : Platform} :
    ∀ (calls : List RoomCall) {r r' : Room}, r.Inv w → r.mGhost.mGhostDefeated = true →
      Room.run w calls r = some r' → r'.mGhost.logic = r.mGhost.logic
  | [], r, r', _, _, h => by cases h; rfl
  | c :: cs, r, r', hi, hd, h => by
    simp only [Room.run] at h
    cases hs : Room.step w c r with
    | none => rw [hs] at h; cases h
    | some r1 =>
      rw [hs] at h
      have e := defeated_step c hi hd hs
      have hd1 : r1.mGhost.mGhostDefeated = true :=
        (congrArg Ghost.Logic.mGhostDefeated e).trans hd
      exact (defeated_run cs (Inv_step c hi hs) hd1 h).trans e

/-- C5: in a room reached from construction whose ghost is defeated,
mAtStage and mMoving are false, and after any further sequence of calls of
the room (captures and frames in particular) they are still false,
mGhostDefeated is still true, and mCurrentState, mStageCount, the four
availability flags and mGhostTargetPosition are what they were. -/
theorem Room.defeated_ghost_never_selects_again (w : Platform) (env0 : Env) (raw : Room)
    (pre calls : List RoomCall) (r r' : Room)
    (hpre : Room.run w pre (Room.new w env0 raw) = some r)
    (hdef : r.mGhost.mGhostDefeated = true)
    (hrun : Room.run w calls r = some r') :
    r.mGhost.mAtStage = false ∧ r.mGhost.mMoving = false ∧
    r'.mGhost.mAtStage = false ∧ r'.mGhost.mMoving = false ∧
    r'.mGhost.mCurrentState = r.mGhost.mCurrentState ∧
    r'.mGhost.mStageCount = r.mGhost.mStageCount ∧
    r'.mGhost.mPianoAvailable = r.mGhost.mPianoAvailable ∧
    r'.mGhost.mTypewriterAvailable = r.mGhost.mTypewriterAvailable ∧
    r'.mGhost.mDoorAvailable = r.mGhost.mDoorAvailable ∧
    r'.mGhost.mRadioAvailable = r.mGhost.mRadioAvailable ∧
    r'.mGhost.mGhostTargetPosition = r.mGhost.mGhostTargetPosition ∧
    r'.mGhost.mGhostDefeated = true := by
  have hi := Inv_reached env0 raw pre hpre
  obtain ⟨-, hat, hmv⟩ := hi.ghost.defeated hdef
  have e := defeated_run calls hi hdef hrun
  have a1 := congrArg Ghost.Logic.mAtStage e
  have a2 := congrArg Ghost.Logic.mMoving e
  have a3 := congrArg Ghost.Logic.mCurrentState e
  have a4 := congrArg Ghost.Logic.mStageCount e
  have a5 := congrArg Ghost.Logic.mPianoAvailable e
  have a6 := congrArg Ghost.Logic.mTypewriterAvailable e
  have a7 := congrArg Ghost.Logic.mDoorAvailable e
  have a8 := congrArg Ghost.Logic.mRadioAvailable e
  have a9 := congrArg Ghost.Logic.mGhostTargetPosition e
  have a10 := congrArg Ghost.Logic.mGhostDefeated e
  simp only [Ghost.logic] at a1 a2 a3 a4 a5 a6 a7 a8 a9 a10 hat hmv
  exact ⟨hat, hmv, a1.trans hat, a2.trans hmv, a3, a4, a5, a6, a7, a8, a9, a10.trans hdef⟩

/-- Witness of C5: the ghost is defeated by `defeatCalls`; two captures and
two frames with draws on offer follow. -/
theorem Room.defeated_ghost_never_selects_again_witness :
    (Room.run quickPlatform defeatCalls builtRoom).isSome = true ∧
    roomAfterDefeat.mGhost.mGhostDefeated = true ∧
    (Room.run quickPlatform callsAfterDefeat roomAfterDefeat).isSome = true ∧
    roomAfterDefeat.mGhost.mAtStage = false ∧ roomAfterDefeat.mGhost.mMoving = false ∧
    roomLongAfterDefeat.mGhost.mAtStage = false ∧ roomLongAfterDefeat.mGhost.mMoving = false ∧
    roomLongAfterDefeat.mGhost.mCurrentState = roomAfterDefeat.mGhost.mCurrentState ∧
    roomLongAfterDefeat.mGhost.mStageCount = roomAfterDefeat.mGhost.mStageCount ∧
    roomLongAfterDefeat.mGhost.mPianoAvailable = roomAfterDefeat.mGhost.mPianoAvailable ∧
    roomLongAfterDefeat.mGhost.mTypewriterAvailable = roomAfterDefeat.mGhost.mTypewriterAvailable ∧
    roomLongAfterDefeat.mGhost.mDoorAvailable = roomAfterDefeat.mGhost.mDoorAvailable ∧
    roomLongAfterDefeat.mGhost.mRadioAvailable = roomAfterDefeat.mGhost.mRadioAvailable ∧
    roomLongAfterDefeat.mGhost.mGhostTargetPosition = roomAfterDefeat.mGhost.mGhostTargetPosition ∧
    roomLongAfterDefeat.mGhost.mGhostDefeated = true :=
  ⟨by decide!, by decide!, by decide!,
    Room.defeated_ghost_never_selects_again quickPlatform (quietEnv []) rawRoom defeatCalls
      callsAfterDefeat roomAfterDefeat roomLongAfterDefeat
      (some_getD (Room.run quickPlatform defeatCalls builtRoom) rawRoom (by decide!)) (by decide!)
      (some_getD (Room.run quickPlatform callsAfterDefeat roomAfterDefeat) rawRoom (by decide!))⟩

/-- C6: in a room reached from construction with all the sounds of the
room valid and the door not open, a MovePlayer call whose probed cell holds
the value of the wall, the table, the piano, the radio, the typewriter or
the door returns, leaves the listener where it was and DoorExited() false,
sets the in-pain flag and plays exactly one sound of the room, the one of
what was hit; neither the player nor the ghost, the critters or the outdoor
emitter are touched otherwise. -/
theorem Room.MovePlayer_blocked (w : Platform) (hv : RoomSoundsValid w) (env0 : Env) (raw : Room)
    (pre : List RoomCall) (r : Room) (hpre : Room.run w pre (Room.new w env0 raw) = some r)
    (ho : r.mDoorOpen = false) (env : Env) (cell : Int)
    (hc : r.mRoomBase.read r.NextCell.1 r.NextCell.2 = some cell)
    (hb : cell = WALL_VALUE ∨ cell = TABLE_VALUE ∨ cell = PIANO_VALUE ∨ cell = RADIO_VALUE ∨
      cell = TYPEWRITER_VALUE ∨ cell = DOOR_VALUE) :
    ∃ r' s, r.MovePlayer w env = some r' ∧
      r'.mPlayer.GetPosition = r.mPlayer.GetPosition ∧
      r'.DoorExited = false ∧
      r'.mPlayer.mInPain = true ∧
      r'.calls = r.calls ++ [AudioCall.Play s] ∧
      r'.mPlayer.calls = r.mPlayer.calls ∧ r'.mGhost = r.mGhost ∧ r'.mCritters = r.mCritters ∧
      r'.mOutdoorEmitter = r.mOutdoorEmitter ∧
      (cell = WALL_VALUE → s = Sound.mHitWallSound) ∧
      (cell = DOOR_VALUE → s = Sound.mHitDoorSound) ∧
      (cell = TABLE_VALUE → s = Sound.mTableCollisionSound) ∧
      (cell = PIANO_VALUE → s = Sound.mPianoCollisionSound) ∧
      (cell = RADIO_VALUE → s = Sound.mRadioCollisionSound) ∧
      (cell = TYPEWRITER_VALUE → s = Sound.mTypeWriterCollisionSound) := by
  have hi := Inv_reached env0 raw pre hpre
  have hex : r.mDoorExited = false := by
    by_contra hn
    rw [hi.exited (by simpa using hn)] at ho
    cases ho
  have hbl : Room.blocks cell = true := by
    simp only [Room.blocks, decide_eq_true_eq]
    tauto
  refine ⟨r.bumped (collisionSound cell), collisionSound cell, ?_, rfl, hex, rfl, rfl, rfl, rfl,
    rfl, rfl, ?_⟩
  · rw [MovePlayer_read, hc, Option.some_bind, hbl]
    exact resolve_bumped w env cell r hv hbl ho hex (hi.flags hv ho)
  · refine ⟨?_, ?_, ?_, ?_, ?_, ?_⟩ <;> intro h <;> subst h <;> rfl

/-- Witness of C6: the player of the built room, turned to the locked door,
steps into it. -/
theorem Room.MovePlayer_blocked_witness :
    RoomSoundsValid quickPlatform ∧
    (Room.run quickPlatform turnToDoor builtRoom).isSome = true ∧
    roomFacingDoor.mDoorOpen = false ∧
    roomFacingDoor.mRoomBase.read roomFacingDoor.NextCell.1 roomFacingDoor.NextCell.2 =
      some DOOR_VALUE ∧
    ∃ r' s, roomFacingDoor.MovePlayer quickPlatform (quietEnv []) = some r' ∧
      r'.mPlayer.GetPosition = roomFacingDoor.mPlayer.GetPosition ∧
      r'.DoorExited = false ∧
      r'.mPlayer.mInPain = true ∧
      r'.calls = roomFacingDoor.calls ++ [AudioCall.Play s] ∧
      r'.mPlayer.calls = roomFacingDoor.mPlayer.calls ∧ r'.mGhost = roomFacingDoor.mGhost ∧
      r'.mCritters = roomFacingDoor.mCritters ∧
      r'.mOutdoorEmitter = roomFacingDoor.mOutdoorEmitter ∧
      (DOOR_VALUE = WALL_VALUE → s = Sound.mHitWallSound) ∧
      (DOOR_VALUE = DOOR_VALUE → s = Sound.mHitDoorSound) ∧
      (DOOR_VALUE = TABLE_VALUE → s = Sound.mTableCollisionSound) ∧
      (DOOR_VALUE = PIANO_VALUE → s = Sound.mPianoCollisionSound) ∧
      (DOOR_VALUE = RADIO_VALUE → s = Sound.mRadioCollisionSound) ∧
      (DOOR_VALUE = TYPEWRITER_VALUE → s = Sound.mTypeWriterCollisionSound) :=
  ⟨fun _ _ => rfl, by decide!, by decide!, by decide!,
    Room.MovePlayer_blocked quickPlatform (fun _ _ => rfl) (quietEnv []) rawRoom turnToDoor
      roomFacingDoor (some_getD (Room.run quickPlatform turnToDoor builtRoom) rawRoom (by decide!))
      (by decide!) (quietEnv []) DOOR_VALUE (by decide!)
      (Or.inr (Or.inr (Or.inr (Or.inr (Or.inr rfl)))))⟩

/-- C7 as the code has it: in a room reached from construction, a
MovePlayer call whose probed cell holds the value of the floor returns;
HitWallOrDoor returns false and changes nothing, the room plays no sound,
the in-pain flag and the sounds of the player are as before, and the
listener moves to the probed position, one step along its facing vector,
when mPlayerCanMove is set and stays where it is when it is not. -/
theorem Room.MovePlayer_floor (w : Platform) (env0 : Env) (raw : Room) (pre : List RoomCall)
    (r : Room) (hpre : Room.run w pre (Room.new w env0 raw) = some r) (env : Env)
    (hc : r.mRoomBase.read r.NextCell.1 r.NextCell.2 = some NORMAL_FLOOR_VALUE) :
    r.HitWallOrDoor = some (false, r) ∧
    ∃ r', r.MovePlayer w env = some r' ∧
      r'.calls = r.calls ∧ r'.mPlayer.mInPain = r.mPlayer.mInPain ∧
      r'.mPlayer.calls = r.mPlayer.calls ∧
      (r.mPlayer.mPlayerCanMove = true →
        r'.mPlayer.GetPosition =
          ⟨r.mPlayer.GetPosition.x + r.mPlayer.mPlayerListener.OrientFront.x,
           r.mPlayer.GetPosition.y + r.mPlayer.mPlayerListener.OrientFront.y,
           r.mPlayer.GetPosition.z + r.mPlayer.mPlayerListener.OrientFront.z⟩) ∧
      (r.mPlayer.mPlayerCanMove = false → r'.mPlayer.GetPosition = r.mPlayer.GetPosition) := by
  have hi := Inv_reached env0 raw pre hpre
  have hb : Room.blocks NORMAL_FLOOR_VALUE = false := by decide
  constructor
  · rw [HitWallOrDoor_eq, hc, Option.map_some', hb, noteCollision_floor]
  · refine ⟨Room.MovePlayer.advance env r, ?_, ?_⟩
    · rw [MovePlayer_read, hc, Option.some_bind, hb, noteCollision_floor]
      rfl
    · obtain ⟨-, -, -, a4, a5, a6⟩ := advance_frame env r
      refine ⟨a4, a5, ?_, ?_, ?_⟩
      · unfold Room.MovePlayer.advance
        split_ifs <;> rfl
      · intro hm
        simp only [Player.GetPosition, a6, hm, if_true, (MoveForward_ok hi.listener).2]
      · intro hm
        simp only [Player.GetPosition, a6, hm, Bool.false_eq_true, if_false]

/-- Witness of C7 as the code has it: the first step in the built room. -/
theorem Room.MovePlayer_floor_witness :
    (Room.run quickPlatform [] builtRoom).isSome = true ∧
    builtRoom.mRoomBase.read builtRoom.NextCell.1 builtRoom.NextCell.2 =
      some NORMAL_FLOOR_VALUE ∧
    builtRoom.HitWallOrDoor = some (false, builtRoom) ∧
    ∃ r', builtRoom.MovePlayer quickPlatform (quietEnv []) = some r' ∧
      r'.calls = builtRoom.calls ∧ r'.mPlayer.mInPain = builtRoom.mPlayer.mInPain ∧
      r'.mPlayer.calls = builtRoom.mPlayer.calls ∧
      (builtRoom.mPlayer.mPlayerCanMove = true →
        r'.mPlayer.GetPosition =
          ⟨builtRoom.mPlayer.GetPosition.x + builtRoom.mPlayer.mPlayerListener.OrientFront.x,
           builtRoom.mPlayer.GetPosition.y + builtRoom.mPlayer.mPlayerListener.OrientFront.y,
           builtRoom.mPlayer.GetPosition.z + builtRoom.mPlayer.mPlayerListener.OrientFront.z⟩) ∧
      (builtRoom.mPlayer.mPlayerCanMove = false →
        r'.mPlayer.GetPosition = builtRoom.mPlayer.GetPosition) :=
  ⟨rfl, by decide!,
    Room.MovePlayer_floor quickPlatform (quietEnv []) rawRoom [] builtRoom rfl (quietEnv [])
      (by decide!)⟩

/-- C7 as stated fails: one frame after the first step, while the
footsteps play, the probed cell holds the value of the floor and the player
faces north, yet MovePlayer returns with the listener where it was. -/
theorem Room.floor_step_without_advance :
    (Room.run quickPlatform stepAndFrame builtRoom).isSome = true ∧
    roomWhileStepping.mRoomBase.read roomWhileStepping.NextCell.1 roomWhileStepping.NextCell.2 =
      some NORMAL_FLOOR_VALUE ∧
    roomWhileStepping.mPlayer.mPlayerListener.OrientFront = ⟨0, 0, 1⟩ ∧
    roomWhileStepping.mPlayer.GetPosition = ⟨8, 0, 3⟩ ∧
    (roomWhileStepping.MovePlayer quickPlatform (quietEnv [])).map
      (fun r => r.mPlayer.GetPosition) = some ⟨8, 0, 3⟩ := by
  decide!

/-- C8: in every room reached from construction by MovePlayer,
TurnPlayerLeft, TurnPlayerRight, TryToCaptureGhost, Reset and UpdateRoom
calls, DoorExited() implies mDoorOpen, mPlayerFree implies mDoorOpen, and
mDoorOpen implies that the ghost is defeated and its mStageCount is
STAGE_LIMIT. -/
theorem Room.door_exit_requires_defeated_ghost (w : Platform) (env0 : Env) (raw : Room)
    (calls : List RoomCall) (r : Room) (h : Room.run w calls (Room.new w env0 raw) = some r) :
    (r.DoorExited = true → r.mDoorOpen = true) ∧
    (r.mPlayerFree = true → r.mDoorOpen = true) ∧
    (r.mDoorOpen = true →
      r.mGhost.mGhostDefeated = true ∧ r.mGhost.mStageCount = STAGE_LIMIT) := by
  have hi := Inv_reached env0 raw calls h
  refine ⟨hi.exited, hi.free, fun ho => ?_⟩
  have hd := hi.opened ho
  exact ⟨hd, (hi.ghost.defeated hd).1⟩

/-- Witness of C8: the ghost is defeated, the door opens and the player
walks out through it. -/
theorem Room.door_exit_requires_defeated_ghost_witness :
    (Room.run quickPlatform exitCalls builtRoom).isSome = true ∧
    roomAfterExit.DoorExited = true ∧
    (roomAfterExit.DoorExited = true → roomAfterExit.mDoorOpen = true) ∧
    (roomAfterExit.mPlayerFree = true → roomAfterExit.mDoorOpen = true) ∧
    (roomAfterExit.mDoorOpen = true →
      roomAfterExit.mGhost.mGhostDefeated = true ∧
        roomAfterExit.mGhost.mStageCount = STAGE_LIMIT) :=
  ⟨by decide!, by decide!,
    Room.door_exit_requires_defeated_ghost quickPlatform (quietEnv []) rawRoom exitCalls
      roomAfterExit (some_getD (Room.run quickPlatform exitCalls builtRoom) rawRoom (by decide!))⟩

/-- C9 fails in the code: on a platform where only the locked-door sound
did not load, Room::IsValid holds of the built room; the player walks into
the locked door (mDoorTry is set and, the sound being invalid, not reset),
moves one cell west and faces the wall beside the door; the ghost is
defeated and the door opens.  DoorExited() is then false, the probed cell
holds the value of the wall, and MovePlayer sets mDoorExited. -/
theorem Room.stale_mDoorTry_exits_through_wall :
    (Room.new noLockedDoorSound (quietEnv []) rawRoom).IsValid noLockedDoorSound = true ∧
    (Room.run noLockedDoorSound staleDoorTryCalls
      (Room.new noLockedDoorSound (quietEnv []) rawRoom)).isSome = true ∧
    roomWithStaleDoorTry.DoorExited = false ∧
    roomWithStaleDoorTry.mDoorOpen = true ∧
    roomWithStaleDoorTry.mDoorTry = true ∧
    roomWithStaleDoorTry.mRoomBase.read roomWithStaleDoorTry.NextCell.1
      roomWithStaleDoorTry.NextCell.2 = some WALL_VALUE ∧
    (roomWithStaleDoorTry.MovePlayer noLockedDoorSound (quietEnv [])).map Room.DoorExited =
      some true := by
  decide!

/-- C10: in every room reached from construction by MovePlayer,
TurnPlayerLeft, TurnPlayerRight, Reset and UpdateRoom calls (and by
TryToCaptureGhost calls as well), while DoorExited() is false the cell of
the grid under the player, (int(x - 1), int(z - 1)), holds the value of the
floor. -/
theorem Room.player_stays_on_floor (w : Platform) (env0 : Env) (raw : Room)
    (calls : List RoomCall) (r : Room) (h : Room.run w calls (Room.new w env0 raw) = some r)
    (hex : r.DoorExited = false) :
    r.mRoomBase.read (toInt (r.mPlayer.GetPosition.x - 1)) (toInt (r.mPlayer.GetPosition.z - 1)) =
      some NORMAL_FLOOR_VALUE :=
  (Inv_reached env0 raw calls h).floor hex

/-- Witness of C10: a step north, two frames, a quarter turn to the right
and a step east. -/
theorem Room.player_stays_on_floor_witness :
    (Room.run quickPlatform walkCalls builtRoom).isSome = true ∧
    roomAfterWalk.DoorExited = false ∧
    roomAfterWalk.mPlayer.GetPosition = ⟨9, 0, 3⟩ ∧
    roomAfterWalk.mRoomBase.read (toInt (roomAfterWalk.mPlayer.GetPosition.x - 1))
      (toInt (roomAfterWalk.mPlayer.GetPosition.z - 1)) = some NORMAL_FLOOR_VALUE :=
  ⟨by decide!, by decide!, by decide!,
    Room.player_stays_on_floor quickPlatform (quietEnv []) rawRoom walkCalls roomAfterWalk
      (some_getD (Room.run quickPlatform walkCalls builtRoom) rawRoom (by decide!)) (by decide!)⟩

/-! ### The listener -/

theorem TurnClockwise_toInt (l : Listener) :
    l.TurnClockwise.mBodyOrientation.toInt =
      (if l.mBodyOrientation.toInt + 1 > 7 then 0 else l.mBodyOrientation.toInt + 1) ∧
    l.TurnClockwise.Position = l.Position ∧ l.TurnClockwise.OrientTop = l.OrientTop ∧
    l.TurnClockwise.OrientFront = Orientations l.TurnClockwise.mBodyOrientation ∧
    l.TurnClockwise.mStartPosition = l.mStartPosition ∧
    l.TurnClockwise.mStartOrientation = l.mStartOrientation := by
  obtain ⟨a1, a2, a3, a4, a5, d, a7, a8, a9, a10⟩ := l
  cases d <;> exact ⟨rfl, rfl, rfl, rfl, rfl, rfl⟩

theorem TurnCounterClockwise_toInt (l : Listener) :
    l.TurnCounterClockwise.mBodyOrientation.toInt =
      (if l.mBodyOrientation.toInt - 1 < 0 then 7 else l.mBodyOrientation.toInt - 1) ∧
    l.TurnCounterClockwise.Position = l.Position ∧
    l.TurnCounterClockwise.OrientTop = l.OrientTop ∧
    l.TurnCounterClockwise.OrientFront = Orientations l.TurnCounterClockwise.mBodyOrientation ∧
    l.TurnCounterClockwise.mStartPosition = l.mStartPosition ∧
    l.TurnCounterClockwise.mStartOrientation = l.mStartOrientation := by
  obtain ⟨a1, a2, a3, a4, a5, d, a7, a8, a9, a10⟩ := l
  cases d <;> exact ⟨rfl, rfl, rfl, rfl, rfl, rfl⟩

theorem toInt_range (d : Direction) : 0 ≤ d.toInt ∧ d.toInt ≤ 7 := by
  cases d <;> decide

theorem toInt_injective {d d' : Direction} (h : d.toInt = d'.toInt) : d = d' := by
  cases d <;> cases d' <;> first | rfl | (exact absurd h (by decide))

theorem iterate_TurnClockwise (n : Nat) :
    ∀ l : Listener, (Nat.iterate Listener.TurnClockwise n l).mBodyOrientation.toInt =
      (l.mBodyOrientation.toInt + n) % 8 := by
  induction n with
  | zero =>
    intro l
    have := toInt_range l.mBodyOrientation
    simp only [Function.iterate_zero, id_eq, Nat.cast_zero, add_zero]
    omega
  | succ n ih =>
    intro l
    have hr := toInt_range l.mBodyOrientation
    rw [Function.iterate_succ_apply, ih, (TurnClockwise_toInt l).1]
    push_cast
    split_ifs <;> omega

theorem iterate_TurnCounterClockwise (n : Nat) :
    ∀ l : Listener, (Nat.iterate Listener.TurnCounterClockwise n l).mBodyOrientation.toInt =
      (l.mBodyOrientation.toInt + 7 * n) % 8 := by
  induction n with
  | zero =>
    intro l
    have := toInt_range l.mBodyOrientation
    simp only [Function.iterate_zero, id_eq, Nat.cast_zero, mul_zero, add_zero]
    omega
  | succ n ih =>
    intro l
    have hr := toInt_range l.mBodyOrientation
    rw [Function.iterate_succ_apply, ih, (TurnCounterClockwise_toInt l).1]
    push_cast
    split_ifs <;> omega

/-- C11: for a listener facing any of the eight directions, eight calls of
TurnClockwise leave mBodyOrientation what it was, and so do eight calls of
TurnCounterClockwise; four calls of either do not. -/
theorem Listener.eight_turns_return (l : Listener) :
    (Nat.iterate Listener.TurnClockwise 8 l).mBodyOrientation = l.mBodyOrientation ∧
    (Nat.iterate Listener.TurnCounterClockwise 8 l).mBodyOrientation = l.mBodyOrientation ∧
    (Nat.iterate Listener.TurnClockwise 4 l).mBodyOrientation ≠ l.mBodyOrientation ∧
    (Nat.iterate Listener.TurnCounterClockwise 4 l).mBodyOrientation ≠ l.mBodyOrientation := by
  have hr := toInt_range l.mBodyOrientation
  have h1 := iterate_TurnClockwise 8 l
  have h2 := iterate_TurnCounterClockwise 8 l
  have h3 := iterate_TurnClockwise 4 l
  have h4 := iterate_TurnCounterClockwise 4 l
  push_cast at h1 h2 h3 h4
  refine ⟨toInt_injective (by omega), toInt_injective (by omega), fun h => ?_, fun h => ?_⟩
  · rw [h] at h3
    omega
  · rw [h] at h4
    omega

/-! ### The listener as the machine holds it -/

theorem binade_search_spec (a : ℚ) :
    ∀ (fuel : Nat) (e : Int), -126 ≤ e → (e = -126 ∨ (2 : ℚ) ^ e ≤ a) →
      -126 ≤ binade.search a fuel e ∧
        (binade.search a fuel e = -126 ∨ (2 : ℚ) ^ (binade.search a fuel e) ≤ a)
  | 0, _, h1, h2 => ⟨h1, h2⟩
  | fuel + 1, e, h1, h2 => by
    unfold binade.search
    split_ifs with h
    · exact ⟨h1, h2⟩
    · exact binade_search_spec a fuel (e + 1) (by omega) (Or.inr (not_lt.1 h))

theorem binade_spec (x : ℚ) :
    -126 ≤ binade x ∧ (binade x = -126 ∨ (2 : ℚ) ^ (binade x) ≤ |x|) :=
  binade_search_spec |x| 253 (-126) le_rfl (Or.inl rfl)

theorem roundHalfEven_intCast (n : Int) : roundHalfEven (n : ℚ) = n := by
  unfold roundHalfEven
  simp only [Int.floor_intCast, sub_self]
  rw [if_pos (by norm_num)]

theorem abs_cast_le (m : Int) (hm : |m| ≤ 2 ^ 24) : |(m : ℚ)| ≤ (2 : ℚ) ^ (24 : Int) := by
  have : ((|m| : Int) : ℚ) ≤ ((2 ^ 24 : Int) : ℚ) := Int.cast_le.2 hm
  rw [Int.cast_abs] at this
  norm_num at this ⊢
  exact this

/-- A rational `m * 2 ^ k` with `|m| ≤ 2 ^ 24`, `-149 ≤ k` and a magnitude
below `2 ^ 128` is a float: rounding leaves it as it is. -/
theorem roundFloat_exact (m k : Int) (hm : |m| ≤ 2 ^ 24) (hk : -149 ≤ k)
    (hx : |(m : ℚ) * (2 : ℚ) ^ k| < (2 : ℚ) ^ (128 : Int)) :
    roundFloat ((m : ℚ) * (2 : ℚ) ^ k) = some ((m : ℚ) * (2 : ℚ) ^ k) := by
  obtain ⟨h1, h2⟩ := binade_spec ((m : ℚ) * (2 : ℚ) ^ k)
  have two : (0 : ℚ) < 2 := by norm_num
  have hmq := abs_cast_le m hm
  have hq : ∃ q : Int,
      (m : ℚ) * (2 : ℚ) ^ k / (2 : ℚ) ^ (binade ((m : ℚ) * (2 : ℚ) ^ k) - 23) = q := by
    generalize binade ((m : ℚ) * (2 : ℚ) ^ k) = e at h1 h2
    have hdiv : (m : ℚ) * (2 : ℚ) ^ k / (2 : ℚ) ^ (e - 23) =
        (m : ℚ) * (2 : ℚ) ^ (k - (e - 23)) := by
      rw [zpow_sub₀ (two.ne') k (e - 23)]
      ring
    rw [hdiv]
    have h2' : e = -126 ∨ (2 : ℚ) ^ e ≤ |(m : ℚ)| * (2 : ℚ) ^ k := by
      rcases h2 with h2 | h2
      · exact Or.inl h2
      · rw [abs_mul, abs_of_pos (zpow_pos two k)] at h2
        exact Or.inr h2
    have he : e ≤ k + 24 := by
      rcases h2' with h2 | h2
      · omega
      · have : (2 : ℚ) ^ e ≤ (2 : ℚ) ^ (24 + k) := by
          rw [zpow_add₀ two.ne']
          exact h2.trans (mul_le_mul_of_nonneg_right hmq (zpow_pos two k).le)
        have := (zpow_le_zpow_iff_right₀ (by norm_num : (1 : ℚ) < 2)).1 this
        omega
    by_cases hp : e - 23 ≤ k
    · refine ⟨m * 2 ^ (k - (e - 23)).toNat, ?_⟩
      have : k - (e - 23) = ((k - (e - 23)).toNat : Int) := (Int.toNat_of_nonneg (by omega)).symm
      rw [this, zpow_natCast]
      push_cast
      rw [← this]
    · have hek : e = k + 24 := by omega
      have h3 : (2 : ℚ) ^ e ≤ |(m : ℚ)| * (2 : ℚ) ^ k := by
        rcases h2' with h2 | h2
        · omega
        · exact h2
      rw [hek, show k + 24 = 24 + k by ring, zpow_add₀ two.ne'] at h3
      have hge : (2 : ℚ) ^ (24 : Int) ≤ |(m : ℚ)| := le_of_mul_le_mul_right h3 (zpow_pos two k)
      have heq : |(m : ℚ)| = (2 : ℚ) ^ (24 : Int) := le_antisymm hmq hge
      have hk1 : k - (e - 23) = -1 := by omega
      rw [hk1]
      rcases abs_cases (m : ℚ) with ⟨ha, -⟩ | ⟨ha, -⟩
      · refine ⟨2 ^ 23, ?_⟩
        rw [← ha, heq]
        norm_num
      · refine ⟨-2 ^ 23, ?_⟩
        have : (m : ℚ) = -(2 : ℚ) ^ (24 : Int) := by rw [← heq, ha]; ring
        rw [this]
        norm_num
  obtain ⟨q, hq⟩ := hq
  unfold roundFloat
  simp only []
  rw [hq, roundHalfEven_intCast, ← hq, div_mul_cancel₀ _ (zpow_pos two _).ne', if_pos hx]

/-- An integer of magnitude up to `2 ^ 24` is a float. -/
theorem roundFloat_intCast (n : Int) (hn : |n| ≤ 2 ^ 24) : roundFloat (n : ℚ) = some (n : ℚ) := by
  have h := roundFloat_exact n 0 hn (by norm_num) (by
    rw [zpow_zero, mul_one]
    exact lt_of_le_of_lt (abs_cast_le n hn) (by norm_num))
  rwa [zpow_zero, mul_one] at h

theorem read_in_range (n : Int) (h : 0 ≤ n ∧ n ≤ 7) : ∃ o, Machine.Orientations.read n = some o := by
  obtain ⟨h0, h7⟩ := h
  interval_cases n <;> exact ⟨_, rfl⟩

theorem read_out_of_range (n : Int) (h : n < 0 ∨ 7 < n) : Machine.Orientations.read n = none := by
  unfold Machine.Orientations.read
  split_ifs with h0
  · rw [List.get?_eq_none]
    have : (Machine.Orientations).length = 8 := rfl
    rw [this]
    omega
  · rfl

theorem TurnTo_in_range (n : Int) (h : 0 ≤ n ∧ n ≤ 7) (l : Machine.Listener)
    (ht : l.OrientTop = ⟨some 0, some 1, some 0⟩) :
    ∃ l', Machine.Listener.TurnTo n l = some l' ∧ l'.Facing ∧ l'.mBodyOrientation = n ∧
      l'.mStartOrientation = l.mStartOrientation ∧ l'.mStartPosition = l.mStartPosition ∧
      l'.Position = l.Position := by
  obtain ⟨o, ho⟩ := read_in_range n h
  refine ⟨{ l with mBodyOrientation := n, OrientFront := o, mListenerTurning := true }, ?_,
    ⟨h, ho, ht⟩, rfl, rfl, rfl, rfl⟩
  unfold Machine.Listener.TurnTo
  simp only [ho, Option.map_some']

theorem wrapInt_small (n : Int) (h : -2147483648 ≤ n ∧ n < 2147483648) : Machine.wrapInt n = n := by
  unfold Machine.wrapInt
  omega

theorem TurnClockwise_in_range (l : Machine.Listener) (h : l.Facing) :
    ∃ l', l.TurnClockwise = some l' ∧ l'.Facing ∧
      l'.mBodyOrientation = (if l.mBodyOrientation + 1 > 7 then 0 else l.mBodyOrientation + 1) ∧
      l'.mStartOrientation = l.mStartOrientation ∧ l'.mStartPosition = l.mStartPosition ∧
      l'.Position = l.Position := by
  have hw : Machine.wrapInt (l.mBodyOrientation + 1) = l.mBodyOrientation + 1 := by
    have := h.1
    exact wrapInt_small _ (by omega)
  have hn : 0 ≤ (if l.mBodyOrientation + 1 > 7 then 0 else l.mBodyOrientation + 1) ∧
      (if l.mBodyOrientation + 1 > 7 then 0 else l.mBodyOrientation + 1) ≤ 7 := by
    have := h.1
    split_ifs <;> omega
  obtain ⟨l', e, f, k1, k2, k3, k4⟩ := TurnTo_in_range _ hn
    { l with mBodyOrientation := if l.mBodyOrientation + 1 > 7 then 0 else l.mBodyOrientation + 1 }
    h.2.2
  refine ⟨{ l' with mListenerTurning := true }, ?_, ⟨f.1, f.2.1, f.2.2⟩, k1, k2, k3, k4⟩
  unfold Machine.Listener.TurnClockwise
  simp only []
  rw [hw, e]
  rfl

theorem TurnCounterClockwise_in_range (l : Machine.Listener) (h : l.Facing) :
    ∃ l', l.TurnCounterClockwise = some l' ∧ l'.Facing ∧
      l'.mBodyOrientation = (if l.mBodyOrientation - 1 < 0 then 7 else l.mBodyOrientation - 1) ∧
      l'.mStartOrientation = l.mStartOrientation ∧ l'.mStartPosition = l.mStartPosition ∧
      l'.Position = l.Position := by
  have hw : Machine.wrapInt (l.mBodyOrientation - 1) = l.mBodyOrientation - 1 := by
    have := h.1
    exact wrapInt_small _ (by omega)
  have hn : 0 ≤ (if l.mBodyOrientation - 1 < 0 then 7 else l.mBodyOrientation - 1) ∧
      (if l.mBodyOrientation - 1 < 0 then 7 else l.mBodyOrientation - 1) ≤ 7 := by
    have := h.1
    split_ifs <;> omega
  obtain ⟨l', e, f, k1, k2, k3, k4⟩ := TurnTo_in_range _ hn
    { l with mBodyOrientation := if l.mBodyOrientation - 1 < 0 then 7 else l.mBodyOrientation - 1 }
    h.2.2
  refine ⟨{ l' with mListenerTurning := true }, ?_, ⟨f.1, f.2.1, f.2.2⟩, k1, k2, k3, k4⟩
  unfold Machine.Listener.TurnCounterClockwise
  simp only []
  rw [hw, e]
  rfl

theorem MoveForward_in_range (l : Machine.Listener) (o : Machine.X3DAUDIO_VECTOR)
    (ho : Machine.Orientations.read l.mBodyOrientation = some o) (t : Option ℚ) :
    l.MoveForward t = some
      { l with
        Position :=
          ⟨Machine.fadd l.Position.x (Machine.fmul o.x t),
           Machine.fadd l.Position.y (Machine.fmul o.y t),
           Machine.fadd l.Position.z (Machine.fmul o.z t)⟩
        mListenerMoving := true } := by
  unfold Machine.Listener.MoveForward
  simp only [ho, Option.map_some']

theorem Facing_step (l : Machine.Listener) (c : Machine.ListenerCall) (h : l.Facing)
    (hs : 0 ≤ l.mStartOrientation ∧ l.mStartOrientation ≤ 7) :
    ∃ l', Machine.Listener.step c l = some l' ∧ l'.Facing ∧
      l'.mStartOrientation = l.mStartOrientation := by
  cases c with
  | MoveForward Distance =>
    exact ⟨_, MoveForward_in_range l l.OrientFront h.2.1 Distance, ⟨h.1, h.2.1, h.2.2⟩, rfl⟩
  | TurnClockwise =>
    obtain ⟨l', e, f, -, k, -, -⟩ := TurnClockwise_in_range l h
    exact ⟨l', e, f, k⟩
  | TurnCounterClockwise =>
    obtain ⟨l', e, f, -, k, -, -⟩ := TurnCounterClockwise_in_range l h
    exact ⟨l', e, f, k⟩
  | Reset =>
    obtain ⟨l', e, f, -, k, -, -⟩ :=
      TurnTo_in_range l.mStartOrientation hs (Machine.Listener.MoveTo l.mStartPosition l) h.2.2
    exact ⟨l', e, f, k⟩

theorem Facing_run :
    ∀ (calls : List Machine.ListenerCall) (l : Machine.Listener), l.Facing →
      (0 ≤ l.mStartOrientation ∧ l.mStartOrientation ≤ 7) →
      ∃ l', Machine.Listener.run calls l = some l' ∧ l'.Facing ∧
        l'.mStartOrientation = l.mStartOrientation
  | [], l, h, _ => ⟨l, rfl, h, rfl⟩
  | c :: cs, l, h, hs => by
    obtain ⟨l1, e1, f1, s1⟩ := Facing_step l c h hs
    obtain ⟨l2, e2, f2, s2⟩ := Facing_run cs l1 f1 (by rw [s1]; exact hs)
    refine ⟨l2, ?_, f2, s2.trans s1⟩
    unfold Machine.Listener.run
    rw [e1]
    exact e2

theorem Facing_new (StartPosition : Machine.X3DAUDIO_VECTOR) (StartOrientation : Int)
    (hd : 0 ≤ StartOrientation ∧ StartOrientation ≤ 7) :
    ∃ l0, Machine.Listener.new StartPosition StartOrientation = some l0 ∧ l0.Facing ∧
      l0.mStartOrientation = StartOrientation ∧ l0.mBodyOrientation = StartOrientation ∧
      l0.Position = StartPosition := by
  obtain ⟨o, ho⟩ := read_in_range StartOrientation hd
  unfold Machine.Listener.new
  simp only [ho, Option.map_some']
  exact ⟨_, rfl, ⟨hd, ho, rfl⟩, rfl, rfl, rfl⟩

/-- C12: with the enum held as the integer the machine stores, the
constructor with a start direction in 0..7 returns a listener whose
mBodyOrientation is in 0..7, whose OrientFront is
Orientations[mBodyOrientation] and whose OrientTop is (0, 1, 0); each of
MoveForward, TurnClockwise, TurnCounterClockwise and Reset, called on a
listener with these three properties and a start direction in 0..7,
returns a listener with them; so does every sequence of such calls after
the constructor.  The range is the work of the two wrap tests: a turn from
7 clockwise gives 0 and from 0 counterclockwise gives 7, where the
unwrapped indices 8 and -1 read outside the array, as the constructor does
for a start direction outside 0..7. -/
theorem Machine.Listener.facing_is_kept (StartPosition : Machine.X3DAUDIO_VECTOR)
    (StartOrientation : Int) (hd : 0 ≤ StartOrientation ∧ StartOrientation ≤ 7) :
    (∃ l0, Machine.Listener.new StartPosition StartOrientation = some l0 ∧ l0.Facing ∧
      l0.mBodyOrientation = StartOrientation) ∧
    (∀ (l : Machine.Listener) (c : Machine.ListenerCall), l.Facing →
      (0 ≤ l.mStartOrientation ∧ l.mStartOrientation ≤ 7) →
      ∃ l', Machine.Listener.step c l = some l' ∧ l'.Facing ∧
        l'.mStartOrientation = l.mStartOrientation) ∧
    (∀ calls : List Machine.ListenerCall, ∃ l0 l,
      Machine.Listener.new StartPosition StartOrientation = some l0 ∧
      Machine.Listener.run calls l0 = some l ∧ l.Facing) ∧
    (∀ l : Machine.Listener, l.Facing → l.mBodyOrientation = 7 →
      ∃ l', l.TurnClockwise = some l' ∧ l'.mBodyOrientation = 0) ∧
    (∀ l : Machine.Listener, l.Facing → l.mBodyOrientation = 0 →
      ∃ l', l.TurnCounterClockwise = some l' ∧ l'.mBodyOrientation = 7) ∧
    (∀ (l : Machine.Listener) (n : Int), n < 0 ∨ 7 < n → Machine.Listener.TurnTo n l = none) ∧
    (∀ n : Int, n < 0 ∨ 7 < n → Machine.Listener.new StartPosition n = none) := by
  obtain ⟨l0, e0, f0, s0, b0, -⟩ := Facing_new StartPosition StartOrientation hd
  refine ⟨⟨l0, e0, f0, b0⟩, fun l c h hs => Facing_step l c h hs, fun calls => ?_,
    fun l h h7 => ?_, fun l h h0 => ?_, fun l n hn => ?_, fun n hn => ?_⟩
  · obtain ⟨l, e, f, -⟩ := Facing_run calls l0 f0 (by rw [s0]; exact hd)
    exact ⟨l0, l, e0, e, f⟩
  · obtain ⟨l', e, -, k, -⟩ := TurnClockwise_in_range l h
    refine ⟨l', e, ?_⟩
    rw [k, h7]
    rfl
  · obtain ⟨l', e, -, k, -⟩ := TurnCounterClockwise_in_range l h
    refine ⟨l', e, ?_⟩
    rw [k, h0]
    rfl
  · unfold Machine.Listener.TurnTo
    simp only [read_out_of_range n hn, Option.map_none']
  · unfold Machine.Listener.new
    simp only [read_out_of_range n hn, Option.map_none']

/-- Witness of C12: the player's listener, constructed at (8, 0, 2) facing
North (0). -/
theorem Machine.Listener.facing_is_kept_witness :
    (0 ≤ (0 : Int) ∧ (0 : Int) ≤ 7) ∧
    ∃ l0, Machine.Listener.new ⟨some 8, some 0, some 2⟩ 0 = some l0 ∧ l0.Facing ∧
      l0.mBodyOrientation = 0 :=
  ⟨by decide, (Machine.Listener.facing_is_kept ⟨some 8, some 0, some 2⟩ 0 (by decide)).1⟩

theorem fadd_intCast (a b : Int) (h : |a + b| ≤ 2 ^ 24) :
    Machine.fadd (some (a : ℚ)) (some (b : ℚ)) = some ((a : ℚ) + (b : ℚ)) := by
  have := roundFloat_intCast (a + b) h
  push_cast at this
  exact this

theorem fmul_one (i : Int) (h : |i| ≤ 2 ^ 24) :
    Machine.fmul (some (i : ℚ)) (some 1) = some (i : ℚ) := by
  have := roundFloat_intCast i h
  unfold Machine.fmul
  simp only [Option.some_bind, mul_one]
  exact this

/-- C13 as the code has it: MoveForward(t) on a listener facing d (an index
of Orientations) returns, sets mListenerMoving and leaves mBodyOrientation,
OrientFront and OrientTop as they were; each coordinate of the position
becomes the float sum of the coordinate and the float product of the
coordinate of Orientations[d] and t.  The position is P + t * Orientations[d]
whenever these three products and three sums are floats; so it is for a
listener facing North at a P with whole coordinates of magnitude up to
2 ^ 24, whose z + 1 is in that range too: MoveForward(1.0) ends at
P + (0, 0, 1). -/
theorem Machine.Listener.MoveForward_adds_rounded (l : Machine.Listener)
    (o : Machine.X3DAUDIO_VECTOR) (t : Option ℚ)
    (ho : Machine.Orientations.read l.mBodyOrientation = some o) :
    ∃ l', l.MoveForward t = some l' ∧
      l'.Position =
        ⟨Machine.fadd l.Position.x (Machine.fmul o.x t),
         Machine.fadd l.Position.y (Machine.fmul o.y t),
         Machine.fadd l.Position.z (Machine.fmul o.z t)⟩ ∧
      l'.mListenerMoving = true ∧ l'.mBodyOrientation = l.mBodyOrientation ∧
      l'.OrientFront = l.OrientFront ∧ l'.OrientTop = l.OrientTop ∧
      (∀ (P O : Escape.X3DAUDIO_VECTOR) (T : ℚ),
        l.Position = Machine.X3DAUDIO_VECTOR.ofRat P → o = Machine.X3DAUDIO_VECTOR.ofRat O →
        t = some T →
        roundFloat (O.x * T) = some (O.x * T) → roundFloat (O.y * T) = some (O.y * T) →
        roundFloat (O.z * T) = some (O.z * T) →
        roundFloat (P.x + O.x * T) = some (P.x + O.x * T) →
        roundFloat (P.y + O.y * T) = some (P.y + O.y * T) →
        roundFloat (P.z + O.z * T) = some (P.z + O.z * T) →
        l'.Position =
          Machine.X3DAUDIO_VECTOR.ofRat ⟨P.x + T * O.x, P.y + T * O.y, P.z + T * O.z⟩) ∧
      (∀ a b c : Int, |a| ≤ 2 ^ 24 → |b| ≤ 2 ^ 24 → |c| ≤ 2 ^ 24 → |c + 1| ≤ 2 ^ 24 →
        l.mBodyOrientation = 0 → l.Position = ⟨some (a : ℚ), some (b : ℚ), some (c : ℚ)⟩ →
        t = some 1 →
        l'.Position = ⟨some (a : ℚ), some (b : ℚ), some ((c : ℚ) + 1)⟩) := by
  refine ⟨_, MoveForward_in_range l o ho t, rfl, rfl, rfl, rfl, rfl, ?_, ?_⟩
  · intro P O T hP hO hT m1 m2 m3 s1 s2 s3
    show (⟨Machine.fadd l.Position.x (Machine.fmul o.x t),
      Machine.fadd l.Position.y (Machine.fmul o.y t),
      Machine.fadd l.Position.z (Machine.fmul o.z t)⟩ : Machine.X3DAUDIO_VECTOR) = _
    rw [hP, hO, hT]
    simp only [Machine.X3DAUDIO_VECTOR.ofRat, Machine.fadd, Machine.fmul, Option.some_bind, m1, m2,
      m3, s1, s2, s3, mul_comm T]
  · intro a b c ha hb hc hc1 hd hP hT
    show (⟨Machine.fadd l.Position.x (Machine.fmul o.x t),
      Machine.fadd l.Position.y (Machine.fmul o.y t),
      Machine.fadd l.Position.z (Machine.fmul o.z t)⟩ : Machine.X3DAUDIO_VECTOR) = _
    rw [hd] at ho
    have ho' : o = ⟨some ((0 : Int) : ℚ), some ((0 : Int) : ℚ), some ((1 : Int) : ℚ)⟩ := by
      have : Machine.Orientations.read 0 = some ⟨some 0, some 0, some 1⟩ := rfl
      rw [this] at ho
      rw [← Option.some.inj ho]
      simp only [Int.cast_zero, Int.cast_one]
    rw [hP, hT, ho']
    simp only
    rw [fmul_one 0 (by decide), fmul_one 1 (by decide), fadd_intCast a 0 (by simpa using ha),
      fadd_intCast b 0 (by simpa using hb), fadd_intCast c 1 hc1]
    simp only [Int.cast_zero, Int.cast_one, add_zero]

/-- Witness of C13: the player's listener as constructed, at (8, 0, 2)
facing North, ends at (8, 0, 3) after MoveForward(1.0). -/
theorem Machine.Listener.MoveForward_adds_rounded_witness :
    Machine.Orientations.read
      (Machine.Listener.ofListener (Escape.Listener.new ⟨8, 0, 2⟩ Direction.North)).mBodyOrientation =
      some ⟨some 0, some 0, some 1⟩ ∧
    ∃ l', (Machine.Listener.ofListener (Escape.Listener.new ⟨8, 0, 2⟩ Direction.North)).MoveForward
        (some 1) = some l' ∧
      l'.Position = ⟨some 8, some 0, some 3⟩ ∧ l'.mListenerMoving = true ∧
      l'.mBodyOrientation = 0 := by
  obtain ⟨l', e, -, k1, k2, -, -, -, k⟩ :=
    Machine.Listener.MoveForward_adds_rounded
      (Machine.Listener.ofListener (Escape.Listener.new ⟨8, 0, 2⟩ Direction.North))
      ⟨some 0, some 0, some 1⟩ (some 1) rfl
  refine ⟨rfl, l', e, ?_, k1, k2⟩
  have := k 8 0 2 (by decide) (by decide) (by decide) (by decide) rfl
    (by simp [Machine.Listener.ofListener, Escape.Listener.new, Machine.X3DAUDIO_VECTOR.ofRat]) rfl
  rw [this]
  norm_num

/-- C13 as stated fails: the sums of MoveForward are float sums.  A
listener at (8, 0, 2) facing NorthEast ends at x = 9130063/1048576 after
MoveForward(1.0), which is not 8 + Orientations[NorthEast].x, and a
listener at (0, 0, 2 ^ 24) facing North stays at z = 2 ^ 24, which is not
P + (0, 0, 1). -/
theorem Machine.Listener.MoveForward_sum_is_rounded :
    ((Machine.Listener.new ⟨some 8, some 0, some 2⟩ 1).bind
        (Machine.Listener.MoveForward (some 1))).map Machine.Listener.Position =
      some ⟨some (9130063 / 1048576), some 0, some (11354429 / 4194304)⟩ ∧
    (9130063 / 1048576 : ℚ) ≠ 8 + 1 * (Escape.Orientations Direction.NorthEast).x ∧
    ((Machine.Listener.new ⟨some 0, some 0, some 16777216⟩ 0).bind
        (Machine.Listener.MoveForward (some 1))).map Machine.Listener.Position =
      some ⟨some 0, some 0, some 16777216⟩ ∧
    (16777216 : ℚ) ≠ 16777216 + 1 * (Escape.Orientations Direction.North).z ∧
    roundFloat 8 = some 8 ∧ roundFloat 2 = some 2 ∧ roundFloat 16777216 = some 16777216 ∧
    roundFloat NormalisedDirection = some NormalisedDirection := by
  decide!

/-! ### The listener of the rooms and the listener of the machine -/

theorem ofListener_new (P : X3DAUDIO_VECTOR) (d : Direction) :
    Machine.Listener.new (Machine.X3DAUDIO_VECTOR.ofRat P) d.toInt =
      some (Machine.Listener.ofListener (Listener.new P d)) := by
  cases d <;> rfl

theorem ofListener_TurnClockwise (l : Listener) :
    (Machine.Listener.ofListener l).TurnClockwise =
      some (Machine.Listener.ofListener l.TurnClockwise) := by
  obtain ⟨a1, a2, a3, a4, a5, d, a7, a8, a9, a10⟩ := l
  cases d <;> rfl

theorem ofListener_TurnCounterClockwise (l : Listener) :
    (Machine.Listener.ofListener l).TurnCounterClockwise =
      some (Machine.Listener.ofListener l.TurnCounterClockwise) := by
  obtain ⟨a1, a2, a3, a4, a5, d, a7, a8, a9, a10⟩ := l
  cases d <;> rfl

theorem ofListener_Reset (l : Listener) :
    (Machine.Listener.ofListener l).Reset = some (Machine.Listener.ofListener l.Reset) := by
  obtain ⟨a1, a2, a3, a4, a5, a6, a7, d, a9, a10⟩ := l
  cases d <;> rfl

/-- On the grid the exact sums of the listener of the rooms are the float
sums of the machine: for a listener on a point with whole coordinates of
magnitude below 2 ^ 24 that looks along an axis, MoveForward(1.0) of the
machine is MoveForward(1.0) of the listener of the rooms. -/
theorem ofListener_MoveForward (l : Listener) (a b c : Int)
    (hd : l.mBodyOrientation = Direction.North ∨ l.mBodyOrientation = Direction.East ∨
      l.mBodyOrientation = Direction.South ∨ l.mBodyOrientation = Direction.West)
    (hP : l.Position = ⟨(a : ℚ), (b : ℚ), (c : ℚ)⟩)
    (ha : |a| < 2 ^ 24) (hb : |b| < 2 ^ 24) (hc : |c| < 2 ^ 24) :
    (Machine.Listener.ofListener l).MoveForward (some 1) =
      some (Machine.Listener.ofListener (l.MoveForward 1)) := by
  obtain ⟨p, a2, a3, a4, a5, d, a7, a8, a9, a10⟩ := l
  simp only at hd hP
  subst hP
  have z : Machine.fmul (some 0) (some 1) = some 0 := by
    simpa using fmul_one 0 (by decide)
  have o : Machine.fmul (some 1) (some 1) = some 1 := by
    simpa using fmul_one 1 (by decide)
  have m : Machine.fmul (some (-1)) (some 1) = some (-1) := by
    simpa using fmul_one (-1) (by decide)
  have s0 : ∀ n : Int, |n| < 2 ^ 24 → Machine.fadd (some (n : ℚ)) (some 0) = some ((n : ℚ) + 0 * 1) :=
    fun n hn => by simpa using fadd_intCast n 0 (by simpa using hn.le)
  have s1 : ∀ n : Int, |n| < 2 ^ 24 → Machine.fadd (some (n : ℚ)) (some 1) = some ((n : ℚ) + 1 * 1) :=
    fun n hn => by
      have h := fadd_intCast n 1 (by rw [abs_le] at *; rw [abs_lt] at hn; constructor <;> omega)
      simpa using h
  have sm : ∀ n : Int, |n| < 2 ^ 24 →
      Machine.fadd (some (n : ℚ)) (some (-1)) = some ((n : ℚ) + -1 * 1) :=
    fun n hn => by
      have h := fadd_intCast n (-1) (by rw [abs_le] at *; rw [abs_lt] at hn; constructor <;> omega)
      simpa using h
  rcases hd with hd | hd | hd | hd <;> subst hd
  · rw [MoveForward_in_range (Machine.Listener.ofListener
      ⟨⟨(a : ℚ), (b : ℚ), (c : ℚ)⟩, a2, a3, a4, a5, Direction.North, a7, a8, a9, a10⟩) ⟨some 0, some 0, some 1⟩ rfl]
    simp only [Machine.Listener.ofListener, Machine.X3DAUDIO_VECTOR.ofRat, Listener.MoveForward,
      Orientations, z, o, m, s0 a ha, s0 b hb, s0 c hc, s1 c hc]
  · rw [MoveForward_in_range (Machine.Listener.ofListener
      ⟨⟨(a : ℚ), (b : ℚ), (c : ℚ)⟩, a2, a3, a4, a5, Direction.East, a7, a8, a9, a10⟩) ⟨some 1, some 0, some 0⟩ rfl]
    simp only [Machine.Listener.ofListener, Machine.X3DAUDIO_VECTOR.ofRat, Listener.MoveForward,
      Orientations, z, o, m, s0 a ha, s0 b hb, s0 c hc, s1 a ha]
  · rw [MoveForward_in_range (Machine.Listener.ofListener
      ⟨⟨(a : ℚ), (b : ℚ), (c : ℚ)⟩, a2, a3, a4, a5, Direction.South, a7, a8, a9, a10⟩) ⟨some 0, some 0, some (-1)⟩ rfl]
    simp only [Machine.Listener.ofListener, Machine.X3DAUDIO_VECTOR.ofRat, Listener.MoveForward,
      Orientations, z, o, m, s0 a ha, s0 b hb, s0 c hc, sm c hc]
  · rw [MoveForward_in_range (Machine.Listener.ofListener
      ⟨⟨(a : ℚ), (b : ℚ), (c : ℚ)⟩, a2, a3, a4, a5, Direction.West, a7, a8, a9, a10⟩) ⟨some (-1), some 0, some 0⟩ rfl]
    simp only [Machine.Listener.ofListener, Machine.X3DAUDIO_VECTOR.ofRat, Listener.MoveForward,
      Orientations, z, o, m, s0 a ha, s0 b hb, s0 c hc, sm a ha]

/-! ### Reset of the listener -/

theorem run_start :
    ∀ (calls : List ListenerCall) (l : Listener),
      (Listener.run calls l).mStartPosition = l.mStartPosition ∧
        (Listener.run calls l).mStartOrientation = l.mStartOrientation
  | [], _ => ⟨rfl, rfl⟩
  | c :: cs, l => by
    have ih := run_start cs (Listener.step c l)
    have hs : (Listener.step c l).mStartPosition = l.mStartPosition ∧
        (Listener.step c l).mStartOrientation = l.mStartOrientation := by
      cases c with
      | MoveForward Distance => exact ⟨rfl, rfl⟩
      | TurnClockwise => exact ⟨(TurnClockwise_toInt l).2.2.2.2.1, (TurnClockwise_toInt l).2.2.2.2.2⟩
      | TurnCounterClockwise =>
        exact ⟨(TurnCounterClockwise_toInt l).2.2.2.2.1, (TurnCounterClockwise_toInt l).2.2.2.2.2⟩
      | Reset => exact ⟨rfl, rfl⟩
    exact ⟨ih.1.trans hs.1, ih.2.trans hs.2⟩

/-- C14: after any sequence of MoveForward, TurnClockwise,
TurnCounterClockwise and Reset calls on a listener constructed at P facing
d, Reset puts the position back to P, mBodyOrientation back to d and
OrientFront back to Orientations[d]. -/
theorem Listener.Reset_restores_start (StartPosition : X3DAUDIO_VECTOR)
    (StartOrientation : Direction) (calls : List ListenerCall) :
    (Listener.run calls (Listener.new StartPosition StartOrientation)).Reset.Position =
      StartPosition ∧
    (Listener.run calls (Listener.new StartPosition StartOrientation)).Reset.mBodyOrientation =
      StartOrientation ∧
    (Listener.run calls (Listener.new StartPosition StartOrientation)).Reset.OrientFront =
      Orientations StartOrientation := by
  obtain ⟨h1, h2⟩ := run_start calls (Listener.new StartPosition StartOrientation)
  refine ⟨h1, h2, ?_⟩
  show Orientations (Listener.run calls (Listener.new StartPosition StartOrientation)).mStartOrientation
    = Orientations StartOrientation
  rw [h2]
  rfl

/-! ### The critters -/

theorem MoveCritter_eq (w : Platform) (env : Env) (c : MovingCritter) :
    c.MoveCritter w env =
      MovingCritter.MoveCritter.fromRight w env
        (MovingCritter.MoveCritter.fromLeft w env (MovingCritter.MoveCritter.moved env c)) := rfl

theorem finish_frame (w : Platform) (env : Env) (NewSide : Int) (c : MovingCritter) :
    (MovingCritter.MoveCritter.finish w env NewSide c).RoomSide = NewSide ∧
    (MovingCritter.MoveCritter.finish w env NewSide c).mCurrentType = c.mCurrentType.other ∧
    (MovingCritter.MoveCritter.finish w env NewSide c).mMoving = false ∧
    (MovingCritter.MoveCritter.finish w env NewSide c).mCritterPosition = c.mCritterPosition ∧
    (MovingCritter.MoveCritter.finish w env NewSide c).mCritterTargetX = c.mCritterTargetX := by
  obtain ⟨a1, a2, t, a4, a5, a6, a7, a8, a9, a10, a11⟩ := c
  cases t <;> exact ⟨rfl, rfl, rfl, rfl, rfl⟩

/-- C15: a MoveCritter call whose step takes x past the target on the side
the critter is heading for (from LEFT_SIDE above mCritterTargetX, from
RIGHT_SIDE below it) runs the completion block exactly once: the result is
one `finish` of the moved critter, RoomSide is the other side,
mCurrentType the other animal and mMoving false.  The second block never
runs on the result of the first. -/
theorem MovingCritter.MoveCritter_crossing_flips_once (w : Platform) (env : Env)
    (c : MovingCritter)
    (h : (c.RoomSide = LEFT_SIDE ∧
            c.mCritterPosition.x + c.mDirectionVector.x > c.mCritterTargetX) ∨
         (c.RoomSide = RIGHT_SIDE ∧
            c.mCritterPosition.x + c.mDirectionVector.x < c.mCritterTargetX)) :
    c.MoveCritter w env =
      MovingCritter.MoveCritter.finish w env (otherSide c.RoomSide)
        (MovingCritter.MoveCritter.moved env c) ∧
    (c.MoveCritter w env).RoomSide = otherSide c.RoomSide ∧
    (c.RoomSide = LEFT_SIDE → (c.MoveCritter w env).RoomSide = RIGHT_SIDE) ∧
    (c.RoomSide = RIGHT_SIDE → (c.MoveCritter w env).RoomSide = LEFT_SIDE) ∧
    (c.MoveCritter w env).mCurrentType = c.mCurrentType.other ∧
    (c.MoveCritter w env).mMoving = false ∧
    ¬ (((MovingCritter.MoveCritter.moved env c).RoomSide = LEFT_SIDE ∧
          (MovingCritter.MoveCritter.moved env c).mCritterPosition.x >
            (MovingCritter.MoveCritter.moved env c).mCritterTargetX) ∧
        ((MovingCritter.MoveCritter.fromLeft w env
            (MovingCritter.MoveCritter.moved env c)).RoomSide = RIGHT_SIDE ∧
          (MovingCritter.MoveCritter.fromLeft w env
            (MovingCritter.MoveCritter.moved env c)).mCritterPosition.x <
          (MovingCritter.MoveCritter.fromLeft w env
            (MovingCritter.MoveCritter.moved env c)).mCritterTargetX)) := by
  have hm1 : (MovingCritter.MoveCritter.moved env c).RoomSide = c.RoomSide := rfl
  have hm2 : (MovingCritter.MoveCritter.moved env c).mCritterPosition.x =
      c.mCritterPosition.x + c.mDirectionVector.x := rfl
  have hm3 : (MovingCritter.MoveCritter.moved env c).mCritterTargetX = c.mCritterTargetX := rfl
  have hm4 : (MovingCritter.MoveCritter.moved env c).mCurrentType = c.mCurrentType := rfl
  have key : c.MoveCritter w env =
      MovingCritter.MoveCritter.finish w env (otherSide c.RoomSide)
        (MovingCritter.MoveCritter.moved env c) := by
    rw [MoveCritter_eq]
    rcases h with ⟨hs, hx⟩ | ⟨hs, hx⟩
    · have h1 : MovingCritter.MoveCritter.fromLeft w env (MovingCritter.MoveCritter.moved env c) =
          MovingCritter.MoveCritter.finish w env RIGHT_SIDE
            (MovingCritter.MoveCritter.moved env c) := by
        unfold MovingCritter.MoveCritter.fromLeft
        rw [if_pos ⟨hm1.trans hs, by rw [hm2, hm3]; exact hx⟩]
      obtain ⟨-, -, -, f4, f5⟩ := finish_frame w env RIGHT_SIDE (MovingCritter.MoveCritter.moved env c)
      rw [h1]
      unfold MovingCritter.MoveCritter.fromRight
      rw [if_neg, otherSide, if_pos hs]
      rintro ⟨-, hlt⟩
      rw [f4, f5, hm2, hm3] at hlt
      exact absurd hlt (not_lt.2 (le_of_lt hx))
    · have hne : ¬ c.RoomSide = LEFT_SIDE := by rw [hs]; decide
      have h1 : MovingCritter.MoveCritter.fromLeft w env (MovingCritter.MoveCritter.moved env c) =
          MovingCritter.MoveCritter.moved env c := by
        unfold MovingCritter.MoveCritter.fromLeft
        rw [if_neg]
        rintro ⟨hl, -⟩
        exact hne (hm1.symm.trans hl)
      rw [h1]
      unfold MovingCritter.MoveCritter.fromRight
      rw [if_pos ⟨hm1.trans hs, by rw [hm2, hm3]; exact hx⟩, otherSide, if_neg hne]
  obtain ⟨f1, f2, f3, -, -⟩ :=
    finish_frame w env (otherSide c.RoomSide) (MovingCritter.MoveCritter.moved env c)
  refine ⟨key, by rw [key, f1], ?_, ?_, by rw [key, f2, hm4], by rw [key, f3], ?_⟩
  · intro hs
    rw [key, f1, otherSide, if_pos hs]
  · intro hs
    have hne : ¬ c.RoomSide = LEFT_SIDE := by rw [hs]; decide
    rw [key, f1, otherSide, if_neg hne]
  · rintro ⟨hfirst, -, hlt⟩
    obtain ⟨-, -, -, g4, g5⟩ :=
      finish_frame w env RIGHT_SIDE (MovingCritter.MoveCritter.moved env c)
    unfold MovingCritter.MoveCritter.fromLeft at hlt
    rw [if_pos hfirst, g4, g5] at hlt
    exact absurd hlt (not_lt.2 (le_of_lt hfirst.2))

/-- Witness of C15: a critter of bats coming from the left steps over the
right limit. -/
theorem MovingCritter.MoveCritter_crossing_flips_once_witness :
    critterAtRightLimit.RoomSide = LEFT_SIDE ∧
    critterAtRightLimit.mCurrentType = AnimalType.BATS ∧
    (critterAtRightLimit.MoveCritter quickPlatform (quietEnv [])).RoomSide = RIGHT_SIDE ∧
    (critterAtRightLimit.MoveCritter quickPlatform (quietEnv [])).mCurrentType =
      AnimalType.MICE ∧
    (critterAtRightLimit.MoveCritter quickPlatform (quietEnv [])).mMoving = false :=
  have h := MovingCritter.MoveCritter_crossing_flips_once quickPlatform (quietEnv [])
    critterAtRightLimit (Or.inl (by decide!))
  ⟨by decide!, by decide!, h.2.2.1 (by decide!), h.2.2.2.2.1, h.2.2.2.2.2.1⟩

/-! ### The emitters -/

/-- C16: an emitter built by either constructor on a sound that is not
valid (and so never reports that it is playing) has forwarded nothing to
the sound; PlayEmitter, StopEmitter, PauseEmitter and UpdateEmitter return
it unchanged, nothing added to the calls forwarded, and EmitterActive is
false. -/
theorem Emitter.invalid_sound_is_inert (w : Platform) (env : Env) (raw : Emitter) (s : Sound)
    (EmitterPosition SoundPosition OrientationPosition : X3DAUDIO_VECTOR) (IsLooped : Bool)
    (hv : w.IsValid s = false) (hp : env.IsPlaying s = false) (e : Emitter)
    (he : e = Emitter.new w raw s EmitterPosition IsLooped ∨
      e = Emitter.newWithCone w raw s EmitterPosition SoundPosition OrientationPosition IsLooped) :
    e.calls = raw.calls ∧
    e.PlayEmitter w = e ∧ e.StopEmitter w = e ∧ e.PauseEmitter w = e ∧
    e.UpdateEmitter env = e ∧ e.EmitterActive env = false := by
  have hs : e = { raw with mSound := s, mStartPosition := EmitterPosition } := by
    rcases he with he | he <;> rw [he]
    · simp only [Emitter.new, hv, Bool.not_false, if_true]
    · simp only [Emitter.newWithCone, hv, Bool.not_false, if_true]
  subst hs
  refine ⟨rfl, ?_, ?_, ?_, ?_, ?_⟩
  · simp only [Emitter.PlayEmitter, hv, Bool.false_eq_true, if_false]
  · simp only [Emitter.StopEmitter, hv, Bool.false_eq_true, if_false]
  · simp only [Emitter.PauseEmitter, hv, Bool.false_eq_true, if_false]
  · simp only [Emitter.UpdateEmitter, hp, Bool.false_eq_true, if_false]
  · simp only [Emitter.EmitterActive, hp, Bool.false_eq_true, if_false]

/-- Witness of C16: an emitter for the locked-door sound on the platform
where that file did not load. -/
theorem Emitter.invalid_sound_is_inert_witness :
    noLockedDoorSound.IsValid Sound.mHitDoorSound = false ∧
    (quietEnv []).IsPlaying Sound.mHitDoorSound = false ∧
    (Emitter.new noLockedDoorSound rawEmitter Sound.mHitDoorSound ⟨8, 0, 0⟩ true).calls =
      rawEmitter.calls ∧
    (Emitter.new noLockedDoorSound rawEmitter Sound.mHitDoorSound ⟨8, 0, 0⟩ true).PlayEmitter
        noLockedDoorSound =
      Emitter.new noLockedDoorSound rawEmitter Sound.mHitDoorSound ⟨8, 0, 0⟩ true ∧
    (Emitter.new noLockedDoorSound rawEmitter Sound.mHitDoorSound ⟨8, 0, 0⟩ true).StopEmitter
        noLockedDoorSound =
      Emitter.new noLockedDoorSound rawEmitter Sound.mHitDoorSound ⟨8, 0, 0⟩ true ∧
    (Emitter.new noLockedDoorSound rawEmitter Sound.mHitDoorSound ⟨8, 0, 0⟩ true).PauseEmitter
        noLockedDoorSound =
      Emitter.new noLockedDoorSound rawEmitter Sound.mHitDoorSound ⟨8, 0, 0⟩ true ∧
    (Emitter.new noLockedDoorSound rawEmitter Sound.mHitDoorSound ⟨8, 0, 0⟩ true).UpdateEmitter
        (quietEnv []) =
      Emitter.new noLockedDoorSound rawEmitter Sound.mHitDoorSound ⟨8, 0, 0⟩ true ∧
    (Emitter.new noLockedDoorSound rawEmitter Sound.mHitDoorSound ⟨8, 0, 0⟩ true).EmitterActive
        (quietEnv []) = false :=
  ⟨by decide, by decide,
    Emitter.invalid_sound_is_inert noLockedDoorSound (quietEnv []) rawEmitter Sound.mHitDoorSound
      ⟨8, 0, 0⟩ ⟨0, 0, 0⟩ ⟨0, 0, 0⟩ true (by decide) (by decide)
      (Emitter.new noLockedDoorSound rawEmitter Sound.mHitDoorSound ⟨8, 0, 0⟩ true) (Or.inl rfl)⟩

theorem step_cone (w : Platform) (c : EmitterCall) (e : Emitter)
    (h : e.mConeOn = false ∧ e.pCone = false) :
    (Emitter.step w c e).mConeOn = false ∧ (Emitter.step w c e).pCone = false := by
  cases c with
  | UpdateEmitter env =>
    simp only [Emitter.step, Emitter.UpdateEmitter]
    split_ifs <;> exact h
  | ResetEmitter env IsPlaying =>
    obtain ⟨a1, a2, a3, a4, a5, a6, a7, a8, a9, a10, a11, a12⟩ := e
    obtain ⟨h1, h2⟩ := h
    simp only at h1 h2
    subst h1 h2
    simp only [Emitter.step, Emitter.ResetEmitter, Emitter.UpdateEmitter, Bool.false_eq_true,
      if_false]
    split_ifs <;> exact ⟨rfl, rfl⟩
  | StopEmitter =>
    simp only [Emitter.step, Emitter.StopEmitter]
    split_ifs <;> exact h
  | PlayEmitter =>
    simp only [Emitter.step, Emitter.PlayEmitter]
    split_ifs <;> exact h
  | PauseEmitter =>
    simp only [Emitter.step, Emitter.PauseEmitter]
    split_ifs <;> exact h
  | SetEmitterFilter kind Frequency AttenuationFactor => exact h
  | SetPosition NewPosition => exact h

theorem run_cone (w : Platform) :
    ∀ (calls : List EmitterCall) (e : Emitter), e.mConeOn = false ∧ e.pCone = false →
      (Emitter.run w calls e).mConeOn = false ∧ (Emitter.run w calls e).pCone = false
  | [], _, h => h
  | c :: cs, e, h => run_cone w cs _ (step_cone w c e h)

theorem ChangeEmitterSound_frame (w : Platform) (env : Env) (s : Sound)
    (p : X3DAUDIO_VECTOR) (b : Bool) (e : Emitter) :
    (e.ChangeEmitterSound w env s p b).mConeOn = false ∧
    (e.ChangeEmitterSound w env s p b).pCone = false ∧
    (e.ChangeEmitterSound w env s p b).Position = p ∧
    (e.ChangeEmitterSound w env s p b).mSound = s := by
  simp only [Emitter.ChangeEmitterSound, Emitter.UpdateEmitter]
  split_ifs <;> exact ⟨rfl, rfl, rfl, rfl⟩

/-- C19: after ChangeEmitterSound on any emitter, with or without a cone,
mConeOn is false, the pointer pCone is null, the position is the new
position and the sound the new sound; ResetEmitter afterwards leaves pCone
null, also after any sequence of UpdateEmitter, ResetEmitter, StopEmitter,
PlayEmitter, PauseEmitter, SetEmitterFilter and SetPosition calls. -/
theorem Emitter.ChangeEmitterSound_drops_cone (w : Platform) (env : Env) (e : Emitter)
    (EmitterSound : Sound) (EmitterPosition : X3DAUDIO_VECTOR) (IsLooped : Bool)
    (calls : List EmitterCall) (env' : Env) (IsPlaying : Bool) :
    (e.ChangeEmitterSound w env EmitterSound EmitterPosition IsLooped).mConeOn = false ∧
    (e.ChangeEmitterSound w env EmitterSound EmitterPosition IsLooped).pCone = false ∧
    (e.ChangeEmitterSound w env EmitterSound EmitterPosition IsLooped).Position =
      EmitterPosition ∧
    (e.ChangeEmitterSound w env EmitterSound EmitterPosition IsLooped).mSound = EmitterSound ∧
    ((e.ChangeEmitterSound w env EmitterSound EmitterPosition IsLooped).ResetEmitter w env'
      IsPlaying).pCone = false ∧
    ((Emitter.run w calls
      (e.ChangeEmitterSound w env EmitterSound EmitterPosition IsLooped)).ResetEmitter w env'
      IsPlaying).pCone = false ∧
    (Emitter.run w calls
      (e.ChangeEmitterSound w env EmitterSound EmitterPosition IsLooped)).mConeOn = false := by
  obtain ⟨h1, h2, h3, h4⟩ := ChangeEmitterSound_frame w env EmitterSound EmitterPosition IsLooped e
  have hr := run_cone w calls _ ⟨h1, h2⟩
  exact ⟨h1, h2, h3, h4,
    (step_cone w (EmitterCall.ResetEmitter env' IsPlaying) _ ⟨h1, h2⟩).2,
    (step_cone w (EmitterCall.ResetEmitter env' IsPlaying) _ hr).2, hr.1⟩

/-! ### Validity, the capture and the layout of the grid -/

/-- C17 fails in the code: nothing is ever added to mCritterSounds, so
MovingCritter::IsValid returns true on every platform; on the platform
where the files of the bats and of the mice did not load, Room::IsValid
holds of the constructed room, as it does where the locked-door sound did
not load. -/
theorem Room.IsValid_misses_invalid_sounds :
    (∀ (w : Platform) (env : Env) (raw : MovingCritter),
      (MovingCritter.new w env raw).IsValid w = true) ∧
    noCritterSounds.IsValid Sound.mBatsSound = false ∧
    noCritterSounds.IsValid Sound.mMiceSound = false ∧
    (Room.new noCritterSounds (quietEnv []) rawRoom).mCritters.IsValid noCritterSounds = true ∧
    (Room.new noCritterSounds (quietEnv []) rawRoom).IsValid noCritterSounds = true ∧
    noLockedDoorSound.IsValid Sound.mHitDoorSound = false ∧
    (Room.new noLockedDoorSound (quietEnv []) rawRoom).IsValid noLockedDoorSound = true :=
  ⟨fun _ _ _ => rfl, by decide, by decide, by decide!, by decide!, by decide, by decide!⟩

/-- C18 as the code has it: TryToCaptureGhost forwards CaptureGhost to the
player and touches nothing else but the ghost; when the ghost is active the
ghost becomes the result of SetNewStage if mGhostDistance is below
DETECTION_RANGE (3.5) and mAtStage is true, and of GhostLaugh otherwise;
when the ghost is not active it is left as it is. -/
theorem Room.TryToCaptureGhost_selects_or_laughs (w : Platform) (env : Env) (r : Room) :
    DETECTION_RANGE = 7 / 2 ∧
    (r.TryToCaptureGhost w env).map (fun r' => r'.mGhost) =
      (if r.mGhost.mGhostActive = true then
        if r.mGhostDistance < DETECTION_RANGE ∧ r.mGhost.mAtStage = true then
          (r.mGhost.SetNewStage w env env.stageDraws).map Prod.fst
        else some (r.mGhost.GhostLaugh w env)
      else some r.mGhost) ∧
    (r.TryToCaptureGhost w env).map (fun r' => r'.mPlayer) =
      (r.TryToCaptureGhost w env).map (fun _ => r.mPlayer.CaptureGhost w) ∧
    (r.TryToCaptureGhost w env).map (fun r' => r'.flags) =
      (r.TryToCaptureGhost w env).map (fun _ => r.flags) := by
  refine ⟨rfl, ?_, ?_, ?_⟩
  · unfold Room.TryToCaptureGhost
    simp only []
    by_cases ha : r.mGhost.mGhostActive = true
    · by_cases hc : r.mGhostDistance < DETECTION_RANGE ∧ r.mGhost.mAtStage = true
      · have hc' : (decide (r.mGhostDistance < DETECTION_RANGE) && r.mGhost.mAtStage) = true := by
          simp only [Bool.and_eq_true, decide_eq_true_eq]
          exact hc
        rw [if_pos ha, if_pos hc', if_pos ha, if_pos hc]
        cases r.mGhost.SetNewStage w env env.stageDraws with
        | none => rfl
        | some p => rfl
      · have hc' : ¬ (decide (r.mGhostDistance < DETECTION_RANGE) && r.mGhost.mAtStage) = true := by
          simp only [Bool.and_eq_true, decide_eq_true_eq]
          exact hc
        rw [if_pos ha, if_neg hc', if_pos ha, if_neg hc]
        rfl
    · rw [if_neg ha, if_neg ha]
      rfl
  · cases h : r.TryToCaptureGhost w env with
    | none => rfl
    | some r' =>
      unfold Room.TryToCaptureGhost at h
      simp only [] at h
      split_ifs at h
      · cases hs : r.mGhost.SetNewStage w env env.stageDraws with
        | none => rw [hs] at h; cases h
        | some p => rw [hs] at h; cases h; rfl
      · cases h; rfl
      · cases h; rfl
  · cases h : r.TryToCaptureGhost w env with
    | none => rfl
    | some r' =>
      simp only [Option.map_some', (TryToCaptureGhost_frame w env r r' h).2.1]

/-- C18 as stated fails: in the constructed room the ghost is not yet
active; a capture attempt returns with the ghost as it was, although
neither SetNewStage nor GhostLaugh leaves the ghost as it was. -/
theorem Room.capture_before_ghost_is_active :
    builtRoom.mGhost.mGhostActive = false ∧
    builtRoom.mGhost.mAtStage = false ∧
    (builtRoom.TryToCaptureGhost quickPlatform (quietEnv [0])).map (fun r' => r'.mGhost) =
      some builtRoom.mGhost ∧
    builtRoom.mGhost.GhostLaugh quickPlatform (quietEnv [0]) ≠ builtRoom.mGhost ∧
    (builtRoom.mGhost.SetNewStage quickPlatform (quietEnv [0]) [0]).map Prod.fst ≠
      some builtRoom.mGhost := by
  decide!

theorem count_congr {g g' : Grid} (h : ∀ i j, g.read i j = g'.read i j) (v : Int) :
    g.count v = g'.count v := by
  simp only [Grid.count, h]

theorem layout_classify :
    ∀ i ∈ List.range 16, ∀ j ∈ List.range 16,
      Room.layout (i : Int) (j : Int) = some (Room.classify (i : Int) (j : Int)) := by
  decide!

theorem layout_count :
    Room.layout.count PIANO_VALUE = 16 ∧ Room.layout.count TYPEWRITER_VALUE = 4 ∧
    Room.layout.count RADIO_VALUE = 4 ∧ Room.layout.count TABLE_VALUE = 8 ∧
    Room.layout.count DOOR_VALUE = 3 := by
  decide!

/-- C20: in the grid of the constructed room (SetUpRoom on the positions
set by the constructors) every cell (i, j) with 0 <= i, j < 16 holds the
value the layout gives it: piano, typewriter, radio, table, otherwise door,
otherwise wall on the border, otherwise floor; the piano covers 16 cells,
the typewriter 4, the radio 4, the table 8 and the door 3. -/
theorem Room.SetUpRoom_grid (w : Platform) (env : Env) (raw : Room) (i j : Int)
    (hi : 0 ≤ i ∧ i < 16) (hj : 0 ≤ j ∧ j < 16) :
    (Room.new w env raw).mRoomBase.read i j = some (Room.classify i j) ∧
    (Room.new w env raw).mRoomBase.count PIANO_VALUE = 16 ∧
    (Room.new w env raw).mRoomBase.count TYPEWRITER_VALUE = 4 ∧
    (Room.new w env raw).mRoomBase.count RADIO_VALUE = 4 ∧
    (Room.new w env raw).mRoomBase.count TABLE_VALUE = 8 ∧
    (Room.new w env raw).mRoomBase.count DOOR_VALUE = 3 := by
  have hc := fun v => count_congr (new_read w env raw) v
  obtain ⟨c1, c2, c3, c4, c5⟩ := layout_count
  refine ⟨?_, (hc _).trans c1, (hc _).trans c2, (hc _).trans c3, (hc _).trans c4,
    (hc _).trans c5⟩
  rw [new_read]
  have h1 : i.toNat ∈ List.range 16 := by
    simp only [List.mem_range]
    omega
  have h2 : j.toNat ∈ List.range 16 := by
    simp only [List.mem_range]
    omega
  have := layout_classify _ h1 _ h2
  rw [Int.toNat_of_nonneg hi.1, Int.toNat_of_nonneg hj.1] at this
  unfold Grid.read
  rw [if_pos ⟨hi.1, hi.2, hj.1, hj.2⟩]
  exact this

/-- Witness of C20: the cell (7, 9) of the built room is part of the table. -/
theorem Room.SetUpRoom_grid_witness :
    builtRoom.mRoomBase.read 7 9 = some TABLE_VALUE ∧
    builtRoom.mRoomBase.count PIANO_VALUE = 16 ∧
    builtRoom.mRoomBase.count TYPEWRITER_VALUE = 4 ∧
    builtRoom.mRoomBase.count RADIO_VALUE = 4 ∧
    builtRoom.mRoomBase.count TABLE_VALUE = 8 ∧
    builtRoom.mRoomBase.count DOOR_VALUE = 3 :=
  Room.SetUpRoom_grid quickPlatform (quietEnv []) rawRoom 7 9 (by decide) (by decide)

/-! ### The border of the grid, its writes, and the critter's waiting time -/

theorem layout_border :
    ∀ i ∈ List.range 16, ∀ j ∈ List.range 16,
      ((i : Int) = 0 ∨ (i : Int) = 15 ∨ (j : Int) = 0 ∨ (j : Int) = 15) →
      Room.layout.read (i : Int) (j : Int) =
        some (if 7 ≤ (i : Int) ∧ (i : Int) ≤ 9 ∧ (j : Int) = 0 then DOOR_VALUE
          else if (i : Int) ≤ 3 ∧ 12 ≤ (j : Int) then PIANO_VALUE else WALL_VALUE) := by
  decide!

/-- C21 as the code has it: in the grid of the constructed room a border
cell (i = 0, i = 15, j = 0 or j = 15) holds the value of the door when it
is one of the three door cells (7..9, 0), the value of the piano when it
lies under the piano, whose footprint (0..3, 12..15) reaches the border
(i = 0 with 12 <= j, or j = 15 with i <= 3), and the value of the wall
otherwise; no border cell holds the value of the floor. -/
theorem Room.SetUpRoom_border (w : Platform) (env : Env) (raw : Room) (i j : Int)
    (hi : 0 ≤ i ∧ i < 16) (hj : 0 ≤ j ∧ j < 16)
    (hb : i = 0 ∨ i = 15 ∨ j = 0 ∨ j = 15) :
    (Room.new w env raw).mRoomBase.read i j =
        some (if 7 ≤ i ∧ i ≤ 9 ∧ j = 0 then DOOR_VALUE
          else if i ≤ 3 ∧ 12 ≤ j then PIANO_VALUE else WALL_VALUE) ∧
    (Room.new w env raw).mRoomBase.read i j ≠ some NORMAL_FLOOR_VALUE := by
  have h1 : i.toNat ∈ List.range 16 := by
    simp only [List.mem_range]
    omega
  have h2 : j.toNat ∈ List.range 16 := by
    simp only [List.mem_range]
    omega
  have := layout_border _ h1 _ h2
  rw [Int.toNat_of_nonneg hi.1, Int.toNat_of_nonneg hj.1] at this
  have h := this hb
  rw [new_read, h]
  refine ⟨rfl, ?_⟩
  split_ifs <;> decide

/-- Witness of C21 as the code has it: the border cell (15, 8) of the built
room is wall. -/
theorem Room.SetUpRoom_border_witness :
    builtRoom.mRoomBase.read 15 8 =
        some (if (7 : Int) ≤ 15 ∧ (15 : Int) ≤ 9 ∧ (8 : Int) = 0 then DOOR_VALUE
          else if (15 : Int) ≤ 3 ∧ (12 : Int) ≤ 8 then PIANO_VALUE else WALL_VALUE) ∧
    builtRoom.mRoomBase.read 15 8 ≠ some NORMAL_FLOOR_VALUE :=
  Room.SetUpRoom_border quickPlatform (quietEnv []) rawRoom 15 8 (by decide) (by decide)
    (Or.inr (Or.inl rfl))

/-- C21 as stated fails: the border cell (0, 12) of the built room is not
one of the three door cells, and it holds the value of the piano, not of
the wall. -/
theorem Room.piano_on_the_border :
    builtRoom.mRoomBase.read 0 12 = some PIANO_VALUE ∧
    builtRoom.mRoomBase.read 0 12 ≠ some WALL_VALUE ∧
    builtRoom.mRoomBase.read 0 12 ≠ some DOOR_VALUE := by
  decide!

theorem writes_in_range :
    ∀ c ∈ Room.SetUpRoom.writes ⟨8, 0, 0⟩
        [⟨PIANO_VALUE, ⟨2, 0, 14⟩, 4, 4⟩, ⟨TYPEWRITER_VALUE, ⟨2, 0, 2⟩, 2, 2⟩,
         ⟨RADIO_VALUE, ⟨13, 0, 9⟩, 2, 2⟩, ⟨TABLE_VALUE, ⟨8, 0, 9⟩, 2, 4⟩],
      0 ≤ c.1 ∧ c.1 < ROOM_X_SIZE ∧ 0 ≤ c.2.1 ∧ c.2.1 < ROOM_Z_SIZE := by
  decide!

/-- C29: the writes `mRoomBase[i][j] = v` of SetUpRoom in the constructor
are the double loop over the grid followed by the footprints of the piano,
the typewriter, the radio and the table at the positions of
Ghost::SetUpGhost and the sizes of SetUpRoom, and every one of them has
0 <= i < ROOM_X_SIZE and 0 <= j < ROOM_Z_SIZE. -/
theorem Room.SetUpRoom_writes_in_bounds (w : Platform) (env : Env) (raw : Room) :
    (Room.new w env raw).mRoomBase =
      (Room.SetUpRoom.writes (Room.new w env raw).mDoorPosition
        [(Room.new w env raw).mPianoObject, (Room.new w env raw).mTypewriterObject,
         (Room.new w env raw).mRadioObject, (Room.new w env raw).mTableObject]).foldl
        (fun (g : Grid) (c : Int × Int × Int) => g.write c.1 c.2.1 c.2.2) raw.mRoomBase ∧
    ∀ c ∈ Room.SetUpRoom.writes (Room.new w env raw).mDoorPosition
        [(Room.new w env raw).mPianoObject, (Room.new w env raw).mTypewriterObject,
         (Room.new w env raw).mRadioObject, (Room.new w env raw).mTableObject],
      0 ≤ c.1 ∧ c.1 < ROOM_X_SIZE ∧ 0 ≤ c.2.1 ∧ c.2.1 < ROOM_Z_SIZE :=
  ⟨rfl, writes_in_range⟩

/-- C30: for every draw r of rand(), GetNextTime sets NextCritterTime to
15 + (r mod 5), a value in 15..19, below 20. -/
theorem MovingCritter.GetNextTime_range (env : Env) (c : MovingCritter) :
    (c.GetNextTime env).NextCritterTime = 15 + ((env.critterTimeDraw % 5 : Nat) : Int) ∧
    15 ≤ (c.GetNextTime env).NextCritterTime ∧ (c.GetNextTime env).NextCritterTime ≤ 19 ∧
    (c.GetNextTime env).NextCritterTime < 20 := by
  have h : (c.GetNextTime env).NextCritterTime = (env.critterTimeDraw : Int) % 5 + 15 := rfl
  rw [h]
  push_cast
  omega

/-! ### The start of a crossing and the path of the ghost -/

/-- C22 fails in the code: SetCritterPath computes the spawn point in the
local `CritterPosition` and uses it for the direction only; mCritterPosition
and the emitter are left as they were.  In the constructed room, thirty
seconds after the player became active, the first crossing (from
LEFT_SIDE, as BATS, drawn depth 1) starts at (0, 0, 0): after the first
step the critter and its emitter are at (1/20030, 0, 1/360540), not at
x = -10, y = 1, z = 1. -/
theorem MovingCritter.crossing_does_not_start_at_spawn_point :
    (∀ (w : Platform) (env : Env) (PlayerPos : X3DAUDIO_VECTOR) (c : MovingCritter),
      (c.SetCritterPath w env PlayerPos).mCritterPosition = c.mCritterPosition ∧
      (c.SetCritterPath w env PlayerPos).mAnimalEmitter = c.mAnimalEmitter) ∧
    (Room.run decimalPlatform firstCrossingCalls
      (Room.new decimalPlatform (quietEnv []) rawRoom)).isSome = true ∧
    (Room.new decimalPlatform (quietEnv []) rawRoom).mCritters.RoomSide = LEFT_SIDE ∧
    (Room.new decimalPlatform (quietEnv []) rawRoom).mCritters.mCurrentType = AnimalType.BATS ∧
    (Room.new decimalPlatform (quietEnv []) rawRoom).mCritters.mCritterPosition = ⟨0, 0, 0⟩ ∧
    crittersOnFirstCrossing.mMoving = true ∧
    crittersOnFirstCrossing.mCritterTargetX = RIGHT_X_LIMIT ∧
    crittersOnFirstCrossing.mCritterPosition = ⟨1 / 20030, 0, 1 / 360540⟩ ∧
    crittersOnFirstCrossing.mCritterPosition = crittersOnFirstCrossing.mDirectionVector ∧
    crittersOnFirstCrossing.mAnimalEmitter.Position = ⟨1 / 20030, 0, 1 / 360540⟩ := by
  refine ⟨fun w env PlayerPos c => ?_, by decide!, by decide!, by decide!, by decide!, by decide!,
    by decide!, by decide!, by decide!, by decide!⟩
  unfold MovingCritter.SetCritterPath
  simp only []
  split_ifs <;> cases c.mCurrentType <;> exact ⟨rfl, rfl⟩

theorem path_some (w : Platform) (g : Ghost) (v : X3DAUDIO_VECTOR)
    (h : Ghost.SetGhostPath.path w g = some v) : (g.SetGhostPath w).mGhostPath = v := by
  unfold Ghost.SetGhostPath.path floatDiv at h
  simp only [] at h
  split_ifs at h with h0
  · cases h
  · simp only [Option.some_bind, Option.some.injEq] at h
    rw [← h]
    rfl

theorem arrive_frame (w : Platform) (env : Env) (g : Ghost) :
    (g.arrive w env).mGhostPosition = g.mGhostTargetPosition ∧
    (g.arrive w env).mMoving = false ∧ (g.arrive w env).mAtStage = true ∧
    (g.arrive w env).mEventEmitter =
      (g.mEventEmitter.PlayEmitter w).ChangeEmitterSound w env (Ghost.stageSound g.mCurrentState)
        g.mGhostTargetPosition true ∧
    (g.arrive w env).mGhostEmitter =
      (g.mGhostEmitter.SetPosition g.mGhostTargetPosition).ChangeEmitterSound w env
        Sound.mGhostDefaultSound g.mGhostTargetPosition true ∧
    (g.arrive w env).mGhostLaughing = g.mGhostLaughing ∧
    (g.arrive w env).mGhostTargetPosition = g.mGhostTargetPosition ∧
    (g.arrive w env).mCurrentState = g.mCurrentState := by
  obtain ⟨a1, a2, a3, a4, a5, a6, a7, a8, a9, a10, a11, a12, st, a14, a15, a16, a17, a18, a19,
    a20, a21, a22, a23, a24⟩ := g
  cases st <;> exact ⟨rfl, rfl, rfl, rfl, rfl, rfl, rfl, rfl⟩

theorem laughEnds_frame (w : Platform) (env : Env) (g : Ghost) :
    (g.laughEnds w env).mGhostPosition = g.mGhostPosition ∧
    (g.laughEnds w env).mMoving = g.mMoving ∧ (g.laughEnds w env).mAtStage = g.mAtStage ∧
    (g.laughEnds w env).mEventEmitter = g.mEventEmitter ∧
    (g.laughEnds w env).mGhostPath = g.mGhostPath ∧
    ((g.laughEnds w env).mGhostEmitter = g.mGhostEmitter ∨
      (g.laughEnds w env).mGhostEmitter =
        g.mGhostEmitter.ChangeEmitterSound w env Sound.mGhostDefaultSound g.mGhostPosition true) ∧
    (¬ (g.mGhostLaughing = true ∧ g.mGhostEmitter.EmitterActive env = false) →
      g.laughEnds w env = g) := by
  unfold Ghost.laughEnds
  split_ifs with h1 h2
  · exact ⟨rfl, rfl, rfl, rfl, rfl, Or.inr rfl, fun h => absurd ⟨h1, h2⟩ h⟩
  · exact ⟨rfl, rfl, rfl, rfl, rfl, Or.inl rfl, fun _ => rfl⟩
  · exact ⟨rfl, rfl, rfl, rfl, rfl, Or.inl rfl, fun _ => rfl⟩

/-- C25 as the code has it.  For a moving ghost, with P the position plus
mGhostPath: if the distance from P to the target is below
HIT_TARGET_RANGE, UpdateGhost leaves mGhostPosition equal to
mGhostTargetPosition, mMoving false and mAtStage true, the event emitter
changed to the looped sound of mCurrentState at the target, and the ghost
emitter changed to the looped default sound at the target; otherwise the
step adds mGhostPath to the position, copies it to the ghost emitter and
updates that emitter, and changes nothing else unless the ghost is
laughing and its emitter has fallen silent, in which case the end of the
laugh follows (default sound back, mGhostLaughing cleared). -/
theorem Ghost.UpdateGhost_of_moving (w : Platform) (env : Env) (g : Ghost)
    (hm : g.mMoving = true) :
    (g.moved env).mGhostPosition =
      ⟨g.mGhostPosition.x + g.mGhostPath.x, g.mGhostPosition.y + g.mGhostPath.y,
       g.mGhostPosition.z + g.mGhostPath.z⟩ ∧
    (g.moved env).mGhostEmitter =
      (g.mGhostEmitter.SetPosition (g.moved env).mGhostPosition).UpdateEmitter env ∧
    (v3f.Distance w (g.moved env).mGhostPosition g.mGhostTargetPosition < HIT_TARGET_RANGE →
      (g.UpdateGhost w env).mGhostPosition = g.mGhostTargetPosition ∧
      (g.UpdateGhost w env).mMoving = false ∧ (g.UpdateGhost w env).mAtStage = true ∧
      (g.UpdateGhost w env).mEventEmitter =
        (g.mEventEmitter.PlayEmitter w).ChangeEmitterSound w env
          (Ghost.stageSound g.mCurrentState) g.mGhostTargetPosition true ∧
      (g.UpdateGhost w env).mEventEmitter.mSound = Ghost.stageSound g.mCurrentState ∧
      (g.UpdateGhost w env).mEventEmitter.Position = g.mGhostTargetPosition ∧
      (∃ e : Emitter, (g.UpdateGhost w env).mGhostEmitter =
        e.ChangeEmitterSound w env Sound.mGhostDefaultSound g.mGhostTargetPosition true) ∧
      (g.UpdateGhost w env).mGhostEmitter.mSound = Sound.mGhostDefaultSound ∧
      (g.UpdateGhost w env).mGhostEmitter.Position = g.mGhostTargetPosition) ∧
    (¬ v3f.Distance w (g.moved env).mGhostPosition g.mGhostTargetPosition < HIT_TARGET_RANGE →
      g.UpdateGhost w env = (g.moved env).laughEnds w env ∧
      (g.UpdateGhost w env).mGhostPosition = (g.moved env).mGhostPosition ∧
      (¬ (g.mGhostLaughing = true ∧ (g.moved env).mGhostEmitter.EmitterActive env = false) →
        g.UpdateGhost w env = g.moved env)) := by
  have hu : g.UpdateGhost w env = (g.MoveGhostToNewPosition w env).laughEnds w env := by
    rw [UpdateGhost_eq, if_pos hm]
  have ht : (g.moved env).mGhostTargetPosition = g.mGhostTargetPosition := rfl
  refine ⟨rfl, rfl, fun hd => ?_, fun hd => ?_⟩
  · have hmv : g.MoveGhostToNewPosition w env = (g.moved env).arrive w env := by
      rw [MoveGhost_eq, if_pos (by rw [ht]; exact hd)]
    obtain ⟨a1, a2, a3, a4, a5, -, a7, -⟩ := arrive_frame w env (g.moved env)
    obtain ⟨l1, l2, l3, l4, -, l6, -⟩ := laughEnds_frame w env ((g.moved env).arrive w env)
    have he : ∃ e : Emitter, (g.UpdateGhost w env).mGhostEmitter =
        e.ChangeEmitterSound w env Sound.mGhostDefaultSound g.mGhostTargetPosition true := by
      rw [hu, hmv]
      rcases l6 with l6 | l6
      · exact ⟨_, l6.trans a5⟩
      · exact ⟨_, l6.trans (by rw [a1]; rfl)⟩
    obtain ⟨e, hee⟩ := he
    obtain ⟨-, -, c3, c4⟩ :=
      ChangeEmitterSound_frame w env Sound.mGhostDefaultSound g.mGhostTargetPosition true e
    obtain ⟨-, -, d3, d4⟩ :=
      ChangeEmitterSound_frame w env (Ghost.stageSound g.mCurrentState) g.mGhostTargetPosition
        true (g.mEventEmitter.PlayEmitter w)
    have hev : (g.UpdateGhost w env).mEventEmitter =
        (g.mEventEmitter.PlayEmitter w).ChangeEmitterSound w env
          (Ghost.stageSound g.mCurrentState) g.mGhostTargetPosition true := by
      rw [hu, hmv, l4, a4]
      rfl
    refine ⟨by rw [hu, hmv, l1, a1]; rfl, by rw [hu, hmv, l2, a2], by rw [hu, hmv, l3, a3], hev,
      by rw [hev, d4], by rw [hev, d3], ⟨e, hee⟩, by rw [hee, c4], by rw [hee, c3]⟩
  · have hmv : g.MoveGhostToNewPosition w env = g.moved env := by
      rw [MoveGhost_eq, if_neg (by rw [ht]; exact hd)]
    obtain ⟨l1, -, -, -, -, -, l7⟩ := laughEnds_frame w env (g.moved env)
    refine ⟨by rw [hu, hmv], by rw [hu, hmv, l1], fun hn => ?_⟩
    rw [hu, hmv]
    exact l7 hn

/-- Witness of C25 as the code has it: the ghost on its way to the piano,
far from it. -/
theorem Ghost.UpdateGhost_of_moving_witness :
    ghostLaughingOnTheWay.mMoving = true ∧
    ¬ v3f.Distance decimalPlatform (ghostLaughingOnTheWay.moved (quietEnv [])).mGhostPosition
        ghostLaughingOnTheWay.mGhostTargetPosition < HIT_TARGET_RANGE ∧
    (ghostLaughingOnTheWay.UpdateGhost decimalPlatform (quietEnv [])).mGhostPosition =
      (ghostLaughingOnTheWay.moved (quietEnv [])).mGhostPosition :=
  ⟨by decide!, by decide!,
    ((Ghost.UpdateGhost_of_moving decimalPlatform (quietEnv []) ghostLaughingOnTheWay
      (by decide!)).2.2.2 (by decide!)).2.1⟩

/-- C25 as stated fails: on the platform with the decimal square root the
ghost is on its way to the piano, some fifteen units off, when the player
tries a capture and the ghost laughs; in the next UpdateGhost, the laugh
over, the step does not come within range and yet does more than move the
ghost: the emitter is given the default sound and mGhostLaughing is
cleared. -/
theorem Ghost.laugh_ends_on_the_way :
    (Room.run decimalPlatform captureOnTheWay
      (Room.new decimalPlatform (quietEnv []) rawRoom)).isSome = true ∧
    ghostLaughingOnTheWay.mMoving = true ∧
    ghostLaughingOnTheWay.mGhostLaughing = true ∧
    ghostLaughingOnTheWay.mGhostEmitter.mSound = Sound.mGhostLaugh1 ∧
    ¬ v3f.Distance decimalPlatform (ghostLaughingOnTheWay.moved (quietEnv [])).mGhostPosition
        ghostLaughingOnTheWay.mGhostTargetPosition < HIT_TARGET_RANGE ∧
    ghostLaughingOnTheWay.UpdateGhost decimalPlatform (quietEnv []) ≠
      ghostLaughingOnTheWay.moved (quietEnv []) ∧
    (ghostLaughingOnTheWay.UpdateGhost decimalPlatform (quietEnv [])).mGhostLaughing = false ∧
    (ghostLaughingOnTheWay.UpdateGhost decimalPlatform (quietEnv [])).mGhostEmitter.mSound =
      Sound.mGhostDefaultSound := by
  decide!

/-! ### The stage loop and the list of remaining stages -/

theorem mem_remaining (g : Ghost) (k : GhostState) : k ∈ g.remaining ↔ g.available k = true := by
  unfold Ghost.remaining
  cases k <;> simp

theorem select_chosen (w : Platform) (g : Ghost) (k : GhostState) :
    ((g.select w k).mCurrentState, (g.select w k).mGhostTargetPosition, (g.select w k).remaining,
      (g.select w k).mStageCount) = g.chosen k := by
  obtain ⟨a1, a2, a3, a4, a5, a6, a7, a8, a9, a10, a11, a12, a13, a14, a15, a16, a17, a18, p, t, d,
    r, a23, a24⟩ := g
  cases p <;> cases t <;> cases d <;> cases r <;> cases k <;> rfl

theorem draw_of (k : GhostState) : GhostState.ofDraw k.toInt.toNat = k := by
  cases k <;> rfl

/-- C26: for every ghost and every draw sequence on which the loop of
SetNewStage ends, the stage selected is the one named by the first draw
(rand mod 4) whose stage is in the list of remaining stages, the draws
before it name stages not in the list, and the current stage, the target
position, the remaining stages and the stage count afterwards are those of
choosing that element of the list and marking it used; the loop ends as
soon as such a draw comes and not before; and every remaining stage is
selected on some draw sequence. -/
theorem Ghost.stage_loop_chooses_from_remaining (w : Platform) (g : Ghost) :
    (∀ (rand rest : List Nat) (g' : Ghost), Ghost.SetNewStage.loop w rand g = some (g', rest) →
      ∃ pre d, rand = pre ++ d :: rest ∧ (∀ x ∈ pre, GhostState.ofDraw x ∉ g.remaining) ∧
        GhostState.ofDraw d ∈ g.remaining ∧
        (g'.mCurrentState, g'.mGhostTargetPosition, g'.remaining, g'.mStageCount) =
          g.chosen (GhostState.ofDraw d)) ∧
    (∀ (pre : List Nat) (d : Nat) (post : List Nat),
      (∀ x ∈ pre, GhostState.ofDraw x ∉ g.remaining) → GhostState.ofDraw d ∈ g.remaining →
      ∃ g', Ghost.SetNewStage.loop w (pre ++ d :: post) g = some (g', post) ∧
        (g'.mCurrentState, g'.mGhostTargetPosition, g'.remaining, g'.mStageCount) =
          g.chosen (GhostState.ofDraw d)) ∧
    (∀ rand : List Nat, (∀ x ∈ rand, GhostState.ofDraw x ∉ g.remaining) →
      Ghost.SetNewStage.loop w rand g = none) ∧
    (∀ k ∈ g.remaining, ∃ (rand rest : List Nat) (g' : Ghost),
      Ghost.SetNewStage.loop w rand g = some (g', rest) ∧ g'.mCurrentState = k) := by
  have hno : ∀ x, GhostState.ofDraw x ∉ g.remaining → g.available (GhostState.ofDraw x) = false := by
    intro x hx
    rw [mem_remaining] at hx
    simpa using hx
  refine ⟨?_, ?_, ?_, ?_⟩
  · intro rand rest g' h
    obtain ⟨pre, d, h1, h2, h3, h4⟩ := loop_some w rand g g' rest h
    refine ⟨pre, d, h1, ?_, (mem_remaining g _).2 h3, ?_⟩
    · intro x hx hm
      rw [mem_remaining, h2 x hx] at hm
      cases hm
    · rw [h4]
      exact select_chosen w g _
  · intro pre d post hpre hd
    have hd' := (mem_remaining g _).1 hd
    exact ⟨_, loop_first w g d post hd' pre (fun x hx => hno x (hpre x hx)),
      select_chosen w g _⟩
  · intro rand
    induction rand with
    | nil => intro _; rfl
    | cons x rand ih =>
      intro h
      have hx := hno x (h x (by simp))
      simp only [Ghost.SetNewStage.loop, body_eq, hx, Bool.false_eq_true, if_false]
      exact ih (fun y hy => h y (by simp [hy]))
  · intro k hk
    have hk' := (mem_remaining g _).1 hk
    have hl := loop_first w g k.toInt.toNat [] (by rw [draw_of]; exact hk') [] (by simp)
    rw [draw_of] at hl
    refine ⟨_, _, _, hl, ?_⟩
    have := congrArg (fun p => p.1) (select_chosen w g k)
    exact this

/-! ### The cell ahead of the player -/

theorem toInt_cast (n : Int) : toInt (n : ℚ) = n := by
  unfold toInt
  split_ifs
  · exact Int.floor_intCast n
  · exact Int.ceil_intCast n

theorem OnGrid_of_pose {l l' : Listener} (h : l'.pose = l.pose) (hg : l.OnGrid) : l'.OnGrid := by
  have e1 : l'.Position = l.Position := congrArg (fun p => p.1) h
  have e3 : l'.mBodyOrientation = l.mBodyOrientation := congrArg (fun p => p.2.2.1) h
  have e5 : l'.mStartOrientation = l.mStartOrientation := congrArg (fun p => p.2.2.2.2) h
  unfold Listener.OnGrid
  rw [e1, e3, e5]
  exact hg

theorem OnGrid_turns (l : Listener) (hg : l.OnGrid) :
    l.TurnClockwise.TurnClockwise.OnGrid ∧ l.TurnCounterClockwise.TurnCounterClockwise.OnGrid := by
  obtain ⟨a1, a2, a3, a4, a5, d, a7, a8, a9, a10⟩ := l
  obtain ⟨hd, hs, hp⟩ := hg
  simp only at hd hs hp
  rcases hd with hd | hd | hd | hd <;> subst hd
  · exact ⟨⟨Or.inr (Or.inl rfl), hs, hp⟩, ⟨Or.inr (Or.inr (Or.inr rfl)), hs, hp⟩⟩
  · exact ⟨⟨Or.inr (Or.inr (Or.inl rfl)), hs, hp⟩, ⟨Or.inl rfl, hs, hp⟩⟩
  · exact ⟨⟨Or.inr (Or.inr (Or.inr rfl)), hs, hp⟩, ⟨Or.inr (Or.inl rfl), hs, hp⟩⟩
  · exact ⟨⟨Or.inl rfl, hs, hp⟩, ⟨Or.inr (Or.inr (Or.inl rfl)), hs, hp⟩⟩

theorem OnGrid_MoveForward (l : Listener) (hg : l.OnGrid) : (l.MoveForward 1).OnGrid := by
  obtain ⟨hd, hs, a, b, ha, hb⟩ := hg
  refine ⟨hd, hs, ?_⟩
  rcases hd with hd | hd | hd | hd
  · exact ⟨a, b + 1, by simp [Listener.MoveForward, hd, Orientations, ha],
      by simp [Listener.MoveForward, hd, Orientations, hb]⟩
  · exact ⟨a + 1, b, by simp [Listener.MoveForward, hd, Orientations, ha],
      by simp [Listener.MoveForward, hd, Orientations, hb]⟩
  · exact ⟨a, b - 1, by simp [Listener.MoveForward, hd, Orientations, ha],
      by simp [Listener.MoveForward, hd, Orientations, hb, sub_eq_add_neg]⟩
  · exact ⟨a - 1, b, by simp [Listener.MoveForward, hd, Orientations, ha, sub_eq_add_neg],
      by simp [Listener.MoveForward, hd, Orientations, hb]⟩

theorem OnGrid_Reset (l : Listener) (hk : l.Ok) (hg : l.OnGrid) : l.Reset.OnGrid := by
  refine ⟨Or.inl hg.2.1, hg.2.1, 8, 2, ?_, ?_⟩
  · show l.mStartPosition.x = ((8 : Int) : ℚ)
    rw [hk.2]
    norm_num
  · show l.mStartPosition.z = ((2 : Int) : ℚ)
    rw [hk.2]
    norm_num

theorem OnGrid_new (w : Platform) (env : Env) (raw : Room) :
    (Room.new w env raw).mPlayer.mPlayerListener.OnGrid :=
  ⟨Or.inl rfl, rfl, 8, 2, by show (8 : ℚ) = ((8 : Int) : ℚ); norm_num,
    by show (2 : ℚ) = ((2 : Int) : ℚ); norm_num⟩

theorem OnGrid_step {w : Platform} (c : RoomCall) {r r' : Room} (hi : r.Inv w)
    (hg : r.mPlayer.mPlayerListener.OnGrid) (h : Room.step w c r = some r') :
    r'.mPlayer.mPlayerListener.OnGrid := by
  cases c with
  | MovePlayer env =>
    obtain ⟨cell, -, -, -, hk⟩ := MovePlayer_cases w env r r' hi h
    obtain ⟨-, n2, -⟩ := noteCollision_frame cell r
    have hadv : ∀ r1 : Room, r1.mPlayer = r.mPlayer →
        (Room.MovePlayer.advance env r1).mPlayer.mPlayerListener.OnGrid := by
      intro r1 h1
      rw [(advance_frame env r1).2.2.2.2.2, h1]
      split_ifs
      · exact OnGrid_MoveForward _ hg
      · exact hg
    rcases hk with ⟨-, he, hr⟩ | ⟨-, hr⟩ | ⟨-, -, hr⟩
    · have hx : (r.noteCollision cell).mDoorExited = false :=
        (noteCollision_frame cell r).2.2.2.2.2.2.1.trans he
      rw [(resolve_blocked w env _ r' hx hr).2.2.2.2.2.2.1, n2]
      exact hg
    · rw [hr]
      exact hadv _ n2
    · rw [hr]
      exact hadv _ rfl
  | TurnPlayerLeft env =>
    cases h
    unfold Room.TurnPlayerLeft
    split_ifs
    · exact (OnGrid_turns _ hg).2
    · exact hg
  | TurnPlayerRight env =>
    cases h
    unfold Room.TurnPlayerRight
    split_ifs
    · exact (OnGrid_turns _ hg).1
    · exact hg
  | TryToCaptureGhost env =>
    rw [(TryToCaptureGhost_frame w env r r' h).2.2.1]
    exact hg
  | Reset env =>
    cases h
    exact OnGrid_Reset _ hi.listener hg
  | UpdateRoom env =>
    have h' : r.UpdateRoom w env = some r' := h
    rw [UpdateRoom_eq] at h'
    simp only [Option.map_eq_some'] at h'
    obtain ⟨r1, h1, h2⟩ := h'
    subst h2
    have e1 : r1.mPlayer = r.mPlayer := by
      split_ifs at h1
      · exact (InitialiseRoomObjects_frame w env r r1 h1).2.2.1
      · cases h1
        rfl
    refine OnGrid_of_pose (objects_frame w env _).2.2.1 ?_
    rw [(door_frame env r1).2.1, e1]
    exact hg

theorem OnGrid_run {w : Platform} :
    ∀ (calls : List RoomCall) {r r' : Room}, r.Inv w → r.mPlayer.mPlayerListener.OnGrid →
      Room.run w calls r = some r' → r'.mPlayer.mPlayerListener.OnGrid
  | [], r, r', _, hg, h => by cases h; exact hg
  | c :: cs, r, r', hi, hg, h => by
    simp only [Room.run] at h
    cases hs : Room.step w c r with
    | none => rw [hs] at h; cases h
    | some r1 =>
      rw [hs] at h
      exact OnGrid_run cs (Inv_step c hi hs) (OnGrid_step c hi hg hs) h

theorem classify_floor {i j : Int} (h : Room.classify i j = NORMAL_FLOOR_VALUE)
    (hi : 0 ≤ i ∧ i < 16) (hj : 0 ≤ j ∧ j < 16) : 1 ≤ i ∧ i ≤ 14 ∧ 1 ≤ j ∧ j ≤ 14 := by
  unfold Room.classify at h
  simp only [PIANO_VALUE, TYPEWRITER_VALUE, RADIO_VALUE, TABLE_VALUE, DOOR_VALUE, WALL_VALUE,
    NORMAL_FLOOR_VALUE] at h
  split_ifs at h <;> omega

theorem resolve_some (w : Platform) (env : Env) (hit : Bool) (r : Room) :
    ∃ r', Room.MovePlayer.resolve w env hit r = some r' := by
  unfold Room.MovePlayer.resolve
  simp only []
  split_ifs <;> exact ⟨_, rfl⟩

/-- C28: in every room reached from construction by MovePlayer,
TurnPlayerLeft, TurnPlayerRight, Reset and UpdateRoom calls (and by
TryToCaptureGhost calls as well), while DoorExited() is false the indices
NextX and NextZ of HitWallOrDoor are in 0..15, the lookup finds a cell of
the grid, and MovePlayer returns. -/
theorem Room.HitWallOrDoor_in_bounds (w : Platform) (env0 : Env) (raw : Room)
    (calls : List RoomCall) (r : Room) (h : Room.run w calls (Room.new w env0 raw) = some r)
    (hex : r.DoorExited = false) :
    0 ≤ (toInt (r.mPlayer.GetNextPosition.x - 1)) ∧ toInt (r.mPlayer.GetNextPosition.x - 1) < 16 ∧
    0 ≤ (toInt (r.mPlayer.GetNextPosition.z - 1)) ∧ toInt (r.mPlayer.GetNextPosition.z - 1) < 16 ∧
    (∃ cell, r.mRoomBase.read (toInt (r.mPlayer.GetNextPosition.x - 1))
      (toInt (r.mPlayer.GetNextPosition.z - 1)) = some cell) ∧
    (∃ p, r.HitWallOrDoor = some p) ∧
    ∀ env, ∃ r', r.MovePlayer w env = some r' := by
  have hi := Inv_reached env0 raw calls h
  obtain ⟨hd, -, a, b, ha, hb⟩ := OnGrid_run calls (Inv_new w env0 raw) (OnGrid_new w env0 raw) h
  have hf := hi.floor hex
  have hpc : r.PlayerCell = (a - 1, b - 1) := by
    simp only [Room.PlayerCell, Player.GetPosition, ha, hb]
    rw [show ((a : ℚ) - 1) = ((a - 1 : Int) : ℚ) by push_cast; ring,
      show ((b : ℚ) - 1) = ((b - 1 : Int) : ℚ) by push_cast; ring, toInt_cast, toInt_cast]
  rw [hpc, hi.grid] at hf
  have hr : (0 ≤ a - 1 ∧ a - 1 < 16) ∧ (0 ≤ b - 1 ∧ b - 1 < 16) := by
    unfold Grid.read at hf
    split_ifs at hf with hb'
    simp only [ROOM_X_SIZE, ROOM_Z_SIZE] at hb'
    exact ⟨⟨hb'.1, hb'.2.1⟩, ⟨hb'.2.2.1, hb'.2.2.2⟩⟩
  have hcl : Room.classify (a - 1) (b - 1) = NORMAL_FLOOR_VALUE := by
    have h1 : (a - 1).toNat ∈ List.range 16 := by
      simp only [List.mem_range]
      omega
    have h2 : (b - 1).toNat ∈ List.range 16 := by
      simp only [List.mem_range]
      omega
    have := layout_classify _ h1 _ h2
    rw [Int.toNat_of_nonneg hr.1.1, Int.toNat_of_nonneg hr.2.1] at this
    unfold Grid.read at hf
    rw [if_pos ⟨hr.1.1, hr.1.2, hr.2.1, hr.2.2⟩, this] at hf
    exact Option.some.inj hf
  obtain ⟨i1, i2, j1, j2⟩ := classify_floor hcl hr.1 hr.2
  have hnext : ∃ da db : Int, (-1 ≤ da ∧ da ≤ 1) ∧ (-1 ≤ db ∧ db ≤ 1) ∧
      toInt (r.mPlayer.GetNextPosition.x - 1) = a - 1 + da ∧
      toInt (r.mPlayer.GetNextPosition.z - 1) = b - 1 + db := by
    have hfront := hi.listener.1
    rcases hd with hd | hd | hd | hd
    · refine ⟨0, 1, by omega, by omega, ?_, ?_⟩
      · rw [← toInt_cast (a - 1 + 0)]
        simp only [Player.GetNextPosition, hfront, hd, Orientations, ha]
        push_cast
        ring_nf
      · rw [← toInt_cast (b - 1 + 1)]
        simp only [Player.GetNextPosition, hfront, hd, Orientations, hb]
        push_cast
        ring_nf
    · refine ⟨1, 0, by omega, by omega, ?_, ?_⟩
      · rw [← toInt_cast (a - 1 + 1)]
        simp only [Player.GetNextPosition, hfront, hd, Orientations, ha]
        push_cast
        ring_nf
      · rw [← toInt_cast (b - 1 + 0)]
        simp only [Player.GetNextPosition, hfront, hd, Orientations, hb]
        push_cast
        ring_nf
    · refine ⟨0, -1, by omega, by omega, ?_, ?_⟩
      · rw [← toInt_cast (a - 1 + 0)]
        simp only [Player.GetNextPosition, hfront, hd, Orientations, ha]
        push_cast
        ring_nf
      · rw [← toInt_cast (b - 1 + -1)]
        simp only [Player.GetNextPosition, hfront, hd, Orientations, hb]
        push_cast
        ring_nf
    · refine ⟨-1, 0, by omega, by omega, ?_, ?_⟩
      · rw [← toInt_cast (a - 1 + -1)]
        simp only [Player.GetNextPosition, hfront, hd, Orientations, ha]
        push_cast
        ring_nf
      · rw [← toInt_cast (b - 1 + 0)]
        simp only [Player.GetNextPosition, hfront, hd, Orientations, hb]
        push_cast
        ring_nf
  obtain ⟨da, db, hda, hdb, hx, hz⟩ := hnext
  have b1 : 0 ≤ toInt (r.mPlayer.GetNextPosition.x - 1) := by rw [hx]; omega
  have b2 : toInt (r.mPlayer.GetNextPosition.x - 1) < 16 := by rw [hx]; omega
  have b3 : 0 ≤ toInt (r.mPlayer.GetNextPosition.z - 1) := by rw [hz]; omega
  have b4 : toInt (r.mPlayer.GetNextPosition.z - 1) < 16 := by rw [hz]; omega
  have hcell : ∃ cell, r.mRoomBase.read (toInt (r.mPlayer.GetNextPosition.x - 1))
      (toInt (r.mPlayer.GetNextPosition.z - 1)) = some cell := by
    have h1 : (toInt (r.mPlayer.GetNextPosition.x - 1)).toNat ∈ List.range 16 := by
      simp only [List.mem_range]
      omega
    have h2 : (toInt (r.mPlayer.GetNextPosition.z - 1)).toNat ∈ List.range 16 := by
      simp only [List.mem_range]
      omega
    have := layout_classify _ h1 _ h2
    rw [Int.toNat_of_nonneg b1, Int.toNat_of_nonneg b3] at this
    refine ⟨Room.classify (toInt (r.mPlayer.GetNextPosition.x - 1))
      (toInt (r.mPlayer.GetNextPosition.z - 1)), ?_⟩
    rw [hi.grid]
    unfold Grid.read
    rw [if_pos ⟨b1, b2, b3, b4⟩]
    exact this
  refine ⟨b1, b2, b3, b4, hcell, ?_, fun env => ?_⟩
  · obtain ⟨cell, hc⟩ := hcell
    have hc' : r.mRoomBase.read r.NextCell.1 r.NextCell.2 = some cell := hc
    rw [HitWallOrDoor_eq, hc']
    exact ⟨_, rfl⟩
  · obtain ⟨cell, hc⟩ := hcell
    have hc' : r.mRoomBase.read r.NextCell.1 r.NextCell.2 = some cell := hc
    rw [MovePlayer_read, hc']
    exact resolve_some w env _ _

/-- Witness of C28: the room after a step north, two frames, a quarter
turn to the right and a step east. -/
theorem Room.HitWallOrDoor_in_bounds_witness :
    (Room.run quickPlatform walkCalls builtRoom).isSome = true ∧
    roomAfterWalk.DoorExited = false ∧
    0 ≤ (toInt (roomAfterWalk.mPlayer.GetNextPosition.x - 1)) ∧
    toInt (roomAfterWalk.mPlayer.GetNextPosition.x - 1) < 16 ∧
    0 ≤ (toInt (roomAfterWalk.mPlayer.GetNextPosition.z - 1)) ∧
    toInt (roomAfterWalk.mPlayer.GetNextPosition.z - 1) < 16 :=
  have h := Room.HitWallOrDoor_in_bounds quickPlatform (quietEnv []) rawRoom walkCalls
    roomAfterWalk (some_getD (Room.run quickPlatform walkCalls builtRoom) rawRoom (by decide!))
    (by decide!)
  ⟨by decide!, by decide!, h.1, h.2.1, h.2.2.1, h.2.2.2.1⟩

/-! ### Where the ghost stands when its path is set -/

theorem logic_available (g : Ghost) (k : GhostState) : g.logic.available k = g.available k := by
  cases k <;> rfl

theorem stageOf_stages (g : Ghost) (k : GhostState) : stageOf g.stages k = g.stagePosition k := by
  cases k <;> rfl

theorem Placed_of_eq {g g' : Ghost} (h1 : g'.logic = g.logic) (h2 : g'.stages = g.stages)
    (h3 : g'.mGhostPosition = g.mGhostPosition) (hp : g.Placed) : g'.Placed := by
  unfold Ghost.Placed
  rw [h1, h2, h3]
  exact hp

theorem Placed_new (w : Platform) (raw : Ghost) : (Ghost.new w raw).Placed :=
  ⟨rfl, fun _ => rfl, fun h => absurd rfl h, fun h => (by cases h), fun h => (by cases h)⟩

theorem SetNewStage_place (w : Platform) (env : Env) (rand rest : List Nat) (g g' : Ghost)
    (h : g.SetNewStage w env rand = some (g', rest)) :
    g'.mGhostPosition = g.mGhostPosition ∧
    ((g.mStageCount = STAGE_LIMIT ∧ g'.mGhostPath = g.mGhostPath) ∨
      (g.mStageCount ≠ STAGE_LIMIT ∧
        g'.mGhostPath = pathFrom w g.mGhostPosition g'.mGhostTargetPosition)) := by
  by_cases hc : g.mStageCount = STAGE_LIMIT
  · simp only [Ghost.SetNewStage, hc, if_true, Option.some.injEq, Prod.mk.injEq] at h
    rw [← h.1]
    exact ⟨rfl, Or.inl ⟨hc, rfl⟩⟩
  · simp only [Ghost.SetNewStage, hc, if_false] at h
    cases hl : Ghost.SetNewStage.loop w rand
        { { g with mEventEmitter := g.mEventEmitter.PauseEmitter w } with mAtStage := false } with
    | none => rw [hl] at h; cases h
    | some p =>
      obtain ⟨g1, rand1⟩ := p
      rw [hl] at h
      obtain ⟨pre, d, -, -, -, h4⟩ := loop_some w _ _ _ _ hl
      subst h4
      simp only [] at h
      split_ifs at h <;> cases h <;>
        cases GhostState.ofDraw d <;> exact ⟨rfl, Or.inr ⟨hc, rfl⟩⟩

theorem Placed_SetNewStage (w : Platform) (env : Env) (rand rest : List Nat) (g g' : Ghost)
    (h : g.SetNewStage w env rand = some (g', rest)) (hp : g.Placed) (hc : g.logic.Counted) :
    g'.Placed ∧
    (g.mStageCount = STAGE_LIMIT → g'.mStageCount = g.mStageCount ∧
      g'.mGhostTargetPosition = g.mGhostTargetPosition) ∧
    (g.mStageCount ≠ STAGE_LIMIT → g'.mStageCount = g.mStageCount + 1 ∧
      ∃ k, g.available k = true ∧ g'.mGhostTargetPosition = g.stagePosition k) := by
  obtain ⟨hpos, -⟩ := SetNewStage_place w env rand rest g g' h
  by_cases hl : g.mStageCount = STAGE_LIMIT
  · obtain ⟨g'', h1, h2, h3⟩ := SetNewStage_defeat w env rand g hl
    rw [h] at h1
    cases h1
    have e1 := congrArg Ghost.Logic.mStageCount h2
    have e2 := congrArg Ghost.Logic.mGhostTargetPosition h2
    simp only [Ghost.logic] at e1 e2
    refine ⟨?_, fun _ => ⟨e1, e2⟩, fun hn => absurd hl hn⟩
    unfold Ghost.Placed
    rw [h2, h3, hpos]
    exact ⟨hp.stages, hp.start, hp.target, hp.moving, fun hx => (by cases hx)⟩
  · obtain ⟨pre, d, -, -, h3, h4, h5⟩ := SetNewStage_select w env rand rest g g' hl h
    have e1 := congrArg Ghost.Logic.mStageCount h5
    have e2 := congrArg Ghost.Logic.mGhostTargetPosition h5
    simp only [Ghost.logic] at e1 e2
    have h0 : (0 : Int) ≤ g.mStageCount := (Counted_le hc).1
    refine ⟨?_, fun hx => absurd hx hl, fun _ => ⟨e1, _, h3, e2⟩⟩
    unfold Ghost.Placed
    rw [h5, h4, hpos]
    refine ⟨hp.stages, fun hx => ?_, fun _ => ⟨(stageOf_stages g _).symm, ?_⟩, fun _ hx => ?_,
      fun hx => (by cases hx)⟩
    · simp only at hx
      omega
    · cases GhostState.ofDraw d <;> rfl
    · simp only at hx
      omega

theorem arrive_path (w : Platform) (env : Env) (g : Ghost) :
    (g.arrive w env).mGhostPath = g.mGhostPath := by
  obtain ⟨a1, a2, a3, a4, a5, a6, a7, a8, a9, a10, a11, a12, st, a14, a15, a16, a17, a18, a19,
    a20, a21, a22, a23, a24⟩ := g
  cases st <;> rfl

theorem UpdateGhost_place (w : Platform) (env : Env) (g : Ghost) :
    (g.UpdateGhost w env).mGhostPath = g.mGhostPath ∧
    (g.UpdateGhost w env).stages = g.stages ∧
    (g.mMoving = false → (g.UpdateGhost w env).logic = g.logic ∧
      (g.UpdateGhost w env).mGhostPosition = g.mGhostPosition) ∧
    (g.mMoving = true →
      (g.UpdateGhost w env).logic = g.logic ∨
      ((g.UpdateGhost w env).logic = { g.logic with mMoving := false, mAtStage := true } ∧
        (g.UpdateGhost w env).mGhostPosition = g.mGhostTargetPosition)) := by
  refine ⟨?_, (UpdateGhost_logic w env g).1, fun hm => ?_, fun hm => ?_⟩
  · rw [UpdateGhost_eq, (laughEnds_frame w env _).2.2.2.2.1]
    split_ifs
    · rw [MoveGhost_eq]
      split_ifs
      · rw [arrive_path]
        rfl
      · rfl
    · rfl
  · rw [UpdateGhost_eq, hm]
    simp only [Bool.false_eq_true, if_false]
    exact ⟨(laughEnds_logic w env g).2, (laughEnds_frame w env g).1⟩
  · rw [UpdateGhost_eq, if_pos hm, (laughEnds_logic w env _).2, (laughEnds_frame w env _).1,
      MoveGhost_eq]
    split_ifs
    · right
      exact ⟨(arrive_logic w env _).2, (arrive_frame w env _).1⟩
    · left
      rfl

theorem Placed_UpdateGhost (w : Platform) (env : Env) (g : Ghost) (hp : g.Placed)
    (hs : g.logic.Steady) :
    (g.UpdateGhost w env).Placed ∧ (g.UpdateGhost w env).mStageCount = g.mStageCount ∧
    (g.UpdateGhost w env).mGhostTargetPosition = g.mGhostTargetPosition ∧
    (g.UpdateGhost w env).mGhostPath = g.mGhostPath := by
  obtain ⟨h1, h2, h3, h4⟩ := UpdateGhost_place w env g
  have hct : (g.UpdateGhost w env).mStageCount = g.mStageCount ∧
      (g.UpdateGhost w env).mGhostTargetPosition = g.mGhostTargetPosition := by
    rcases (UpdateGhost_logic w env g).2 with k | ⟨-, k⟩
    · have e1 := congrArg Ghost.Logic.mStageCount k
      have e2 := congrArg Ghost.Logic.mGhostTargetPosition k
      exact ⟨e1, e2⟩
    · have e1 := congrArg Ghost.Logic.mStageCount k
      have e2 := congrArg Ghost.Logic.mGhostTargetPosition k
      exact ⟨e1, e2⟩
  refine ⟨?_, hct.1, hct.2, h1⟩
  by_cases hm : g.mMoving = true
  · have hcount : g.logic.mStageCount ≠ 0 := hp.moving hm
    have hnat : g.logic.mAtStage = true → False := fun hx => by
      have := hs.atStage hx
      rw [show g.logic.mMoving = g.mMoving from rfl, hm] at this
      cases this
    rcases h4 hm with k | ⟨k, kp⟩
    · unfold Ghost.Placed
      rw [k, h2]
      exact ⟨hp.stages, fun hx => absurd hx hcount, hp.target, hp.moving,
        fun hx => (hnat hx).elim⟩
    · unfold Ghost.Placed
      rw [k, h2, kp]
      exact ⟨hp.stages, fun hx => absurd hx hcount, hp.target, fun hx => (by cases hx),
        fun _ => ⟨rfl, hcount⟩⟩
  · have hm' : g.mMoving = false := by simpa using hm
    exact Placed_of_eq (h3 hm').1 h2 (h3 hm').2 hp

theorem GhostLaugh_place (w : Platform) (env : Env) (g : Ghost) :
    (g.GhostLaugh w env).mGhostPosition = g.mGhostPosition ∧
    (g.GhostLaugh w env).mGhostPath = g.mGhostPath := by
  unfold Ghost.GhostLaugh Ghost.SetGhostLaugh
  simp only []
  split_ifs <;> exact ⟨rfl, rfl⟩

theorem InitialiseGhost_place (w : Platform) (env : Env) (g g' : Ghost)
    (h : g.InitialiseGhost w env = some g') :
    (g'.stages = g.stages ∧ g'.mGhostPosition = g.mGhostPosition ∧
      g'.mGhostPath = g.mGhostPath ∧
      (g'.logic = g.logic ∨ g'.logic = { g.logic with mGhostActive := true })) ∨
    (g.mInitialised = false ∧ ∃ (ga gs : Ghost) (rest : List Nat), ga.stages = g.stages ∧
      ga.mGhostPosition = g.mGhostPosition ∧
      ga.logic = { g.logic with mGhostActive := true } ∧
      ga.SetNewStage w env env.stageDraws = some (gs, rest) ∧
      g'.stages = gs.stages ∧ g'.mGhostPosition = gs.mGhostPosition ∧
      g'.mGhostPath = gs.mGhostPath ∧ g'.logic = { gs.logic with mInitialised := true }) := by
  unfold Ghost.InitialiseGhost at h
  by_cases hi : g.mInitialised = true
  · simp only [hi, Bool.not_true, Bool.false_eq_true, if_false] at h
    cases h
    exact Or.inl ⟨rfl, rfl, rfl, Or.inl rfl⟩
  · have hi' : g.mInitialised = false := by simpa using hi
    simp only [hi', Bool.not_false, if_true] at h
    have hga : ∃ ga : Ghost, ga = (if (!g.mGhostActive) = true then g.SetGhostActive w env else g) ∧
        ga.stages = g.stages ∧ ga.mGhostPosition = g.mGhostPosition ∧
        ga.mGhostPath = g.mGhostPath ∧
        (ga.logic = g.logic ∨ ga.logic = { g.logic with mGhostActive := true }) ∧
        (ga.mGhostActive = true → ga.logic = { g.logic with mGhostActive := true }) := by
      refine ⟨_, rfl, ?_, ?_, ?_, ?_, ?_⟩
      · split_ifs <;> rfl
      · split_ifs <;> rfl
      · split_ifs <;> rfl
      · split_ifs
        · exact Or.inr rfl
        · exact Or.inl rfl
      · intro ha
        split_ifs with hx
        · rfl
        · have : g.mGhostActive = true := by simpa using hx
          simp [Ghost.logic, this]
    obtain ⟨ga, hga, hs, hpos, hpath, hl, hact⟩ := hga
    simp only [← hga] at h
    split_ifs at h with hc
    · right
      refine ⟨hi', ?_⟩
      simp only [Bool.and_eq_true] at hc
      cases hsn : Ghost.SetNewStage w env env.stageDraws ga with
      | none => rw [hsn] at h; cases h
      | some p =>
        rw [hsn] at h
        cases h
        exact ⟨ga, p.1, p.2, hs, hpos, hact hc.1.1, hsn, rfl, rfl, rfl, rfl⟩
    · cases h
      exact Or.inl ⟨hs, hpos, hpath, hl⟩

theorem advance_ghost (env : Env) (r : Room) :
    (Room.MovePlayer.advance env r).mGhost = r.mGhost.UpdateEmitter env := by
  unfold Room.MovePlayer.advance
  split_ifs <;> rfl

theorem Placed_active {g : Ghost} {l : Ghost.Logic} (hl : l = { g.logic with mGhostActive := true })
    (hp : g.Placed) : l.Placed g.stages g.mGhostPosition := by
  subst hl
  exact ⟨hp.stages, hp.start, hp.target, hp.moving, hp.atStage⟩

theorem Placed_step {w : Platform} (c : RoomCall) {r r' : Room} (hi : r.Inv w)
    (hp : r.mGhost.Placed) (h : Room.step w c r = some r') :
    r'.mGhost.Placed ∧
    (r'.mGhost.mStageCount ≠ r.mGhost.mStageCount →
      (r.mGhost.mStageCount = 0 ∨ r.mGhost.mAtStage = true) ∧
      (∃ k, r.mGhost.available k = true ∧
        r'.mGhost.mGhostTargetPosition = r.mGhost.stagePosition k) ∧
      r'.mGhost.mGhostPath =
        pathFrom w r.mGhost.mGhostPosition r'.mGhost.mGhostTargetPosition) := by
  have quiet : ∀ g' : Ghost, g'.logic = r.mGhost.logic → g'.stages = r.mGhost.stages →
      g'.mGhostPosition = r.mGhost.mGhostPosition →
      g'.Placed ∧ (g'.mStageCount ≠ r.mGhost.mStageCount →
        (r.mGhost.mStageCount = 0 ∨ r.mGhost.mAtStage = true) ∧
        (∃ k, r.mGhost.available k = true ∧
          g'.mGhostTargetPosition = r.mGhost.stagePosition k) ∧
        g'.mGhostPath = pathFrom w r.mGhost.mGhostPosition g'.mGhostTargetPosition) := by
    intro g' h1 h2 h3
    refine ⟨Placed_of_eq h1 h2 h3 hp, fun hn => absurd ?_ hn⟩
    exact congrArg Ghost.Logic.mStageCount h1
  cases c with
  | MovePlayer env =>
    obtain ⟨cell, -, -, -, hk⟩ := MovePlayer_cases w env r r' hi h
    obtain ⟨-, -, n3, -⟩ := noteCollision_frame cell r
    rcases hk with ⟨-, he, hr⟩ | ⟨-, hr⟩ | ⟨-, -, hr⟩
    · have hx : (r.noteCollision cell).mDoorExited = false :=
        (noteCollision_frame cell r).2.2.2.2.2.2.1.trans he
      have e : r'.mGhost = r.mGhost := (resolve_blocked w env _ r' hx hr).2.1.trans n3
      rw [e]
      exact quiet _ rfl rfl rfl
    · rw [hr, advance_ghost, n3]
      exact quiet _ rfl rfl rfl
    · rw [hr, advance_ghost]
      exact quiet _ rfl rfl rfl
  | TurnPlayerLeft env =>
    cases h
    unfold Room.TurnPlayerLeft
    split_ifs
    · exact quiet _ rfl rfl rfl
    · exact quiet _ rfl rfl rfl
  | TurnPlayerRight env =>
    cases h
    unfold Room.TurnPlayerRight
    split_ifs
    · exact quiet _ rfl rfl rfl
    · exact quiet _ rfl rfl rfl
  | Reset env =>
    cases h
    exact quiet _ rfl rfl rfl
  | TryToCaptureGhost env =>
    obtain ⟨-, -, -, h4⟩ := TryToCaptureGhost_frame w env r r' h
    rcases h4 with h4 | h4 | ⟨hat, rest, h4⟩
    · rw [h4]
      exact quiet _ rfl rfl rfl
    · rw [h4]
      exact quiet _ (GhostLaugh_logic w env _).2 (GhostLaugh_logic w env _).1
        (GhostLaugh_place w env _).1
    · obtain ⟨p1, p2, p3⟩ := Placed_SetNewStage w env _ rest _ _ h4 hp hi.ghost.counted
      obtain ⟨-, q⟩ := SetNewStage_place w env _ rest _ _ h4
      refine ⟨p1, fun hn => ?_⟩
      rcases q with ⟨hl, -⟩ | ⟨hl, hq⟩
      · exact absurd (p2 hl).1 hn
      · exact ⟨Or.inr hat, (p3 hl).2, hq⟩
  | UpdateRoom env =>
    have h' : r.UpdateRoom w env = some r' := h
    rw [UpdateRoom_eq] at h'
    simp only [Option.map_eq_some'] at h'
    obtain ⟨r1, h1, h2⟩ := h'
    subst h2
    have hgo : (Room.UpdateRoom.objects w env (Room.UpdateRoom.door env r1)).mGhost =
        r1.mGhost.UpdateGhost w env := by
      rw [(objects_frame w env _).2.2.2, (door_frame env r1).2.2.1]
    rw [hgo]
    have key : r1.mGhost.Placed ∧ r1.mGhost.logic.Steady ∧
        (r1.mGhost.mStageCount ≠ r.mGhost.mStageCount →
          (r.mGhost.mStageCount = 0 ∨ r.mGhost.mAtStage = true) ∧
          (∃ k, r.mGhost.available k = true ∧
            r1.mGhost.mGhostTargetPosition = r.mGhost.stagePosition k) ∧
          r1.mGhost.mGhostPath =
            pathFrom w r.mGhost.mGhostPosition r1.mGhost.mGhostTargetPosition) := by
      split_ifs at h1
      · obtain ⟨-, -, -, k4⟩ := InitialiseRoomObjects_frame w env r r1 h1
        have hst := (Steady_InitialiseGhost w env _ _ hi.ghost k4).1
        rcases InitialiseGhost_place w env _ _ k4 with
          ⟨e1, e2, -, e4⟩ | ⟨hini, ga, gs, rest, a1, a2, a3, a4, a5, a6, a7, a8⟩
        · rcases e4 with e4 | e4
          · exact ⟨Placed_of_eq e4 e1 e2 hp, hst,
              fun hn => absurd (congrArg Ghost.Logic.mStageCount e4) hn⟩
          · refine ⟨?_, hst, fun hn => absurd (congrArg Ghost.Logic.mStageCount e4) hn⟩
            unfold Ghost.Placed
            rw [e1, e2]
            exact Placed_active e4 hp
        · have hga : ga.Placed := by
            unfold Ghost.Placed
            rw [a1, a2]
            exact Placed_active a3 hp
          have hgc : ga.logic.Counted := by
            rw [a3]
            exact hi.ghost.counted
          have c0 : r.mGhost.mStageCount = 0 := (hi.ghost.fresh hini).1
          have cga : ga.mStageCount = r.mGhost.mStageCount :=
            congrArg Ghost.Logic.mStageCount a3
          have aga : ∀ k, ga.available k = r.mGhost.available k := fun k => by
            rw [← logic_available, a3, ← logic_available]
            cases k <;> rfl
          have sga : ∀ k, ga.stagePosition k = r.mGhost.stagePosition k := fun k => by
            rw [← stageOf_stages, a1, stageOf_stages]
          obtain ⟨p1, -, p3⟩ := Placed_SetNewStage w env _ rest _ _ a4 hga hgc
          obtain ⟨q1, q⟩ := SetNewStage_place w env _ rest _ _ a4
          have hne : ga.mStageCount ≠ STAGE_LIMIT := by
            rw [cga, c0]
            decide
          have t1 : r1.mGhost.mGhostTargetPosition = gs.mGhostTargetPosition :=
            congrArg Ghost.Logic.mGhostTargetPosition a8
          refine ⟨?_, hst, fun _ => ⟨Or.inl c0, ?_, ?_⟩⟩
          · unfold Ghost.Placed
            rw [a8, a5, a6]
            exact ⟨p1.stages, p1.start, p1.target, p1.moving, p1.atStage⟩
          · obtain ⟨k, k1, k2⟩ := (p3 hne).2
            exact ⟨k, (aga k).symm.trans k1, by rw [t1, k2, sga]⟩
          · rcases q with ⟨hl, -⟩ | ⟨-, hq⟩
            · exact absurd hl hne
            · rw [a7, hq, t1, a2]
      · cases h1
        exact ⟨hp, hi.ghost, fun hn => absurd rfl hn⟩
    obtain ⟨k1, k2, k3⟩ := key
    obtain ⟨u1, u2, u3, u4⟩ := Placed_UpdateGhost w env _ k1 k2
    refine ⟨u1, fun hn => ?_⟩
    rw [u2] at hn
    rw [u3, u4]
    exact k3 hn

theorem Placed_run {w : Platform} :
    ∀ (calls : List RoomCall) {r r' : Room}, r.Inv w → r.mGhost.Placed →
      Room.run w calls r = some r' → r'.mGhost.Placed
  | [], r, r', _, hg, h => by cases h; exact hg
  | c :: cs, r, r', hi, hg, h => by
    simp only [Room.run] at h
    cases hs : Room.step w c r with
    | none => rw [hs] at h; cases h
    | some r1 =>
      rw [hs] at h
      exact Placed_run cs (Inv_step c hi hs) (Placed_step c hi hg hs).1 h

theorem stage_distance (k : GhostState) (p : X3DAUDIO_VECTOR)
    (hp : p = ⟨8, 0, -1⟩ ∨ ∃ k0, k0 ≠ k ∧
      p = stageOf (⟨8, 0, 0⟩, ⟨2, 0, 14⟩, ⟨2, 0, 2⟩, ⟨13, 0, 9⟩) k0) :
    ((stageOf (⟨8, 0, 0⟩, ⟨2, 0, 14⟩, ⟨2, 0, 2⟩, ⟨13, 0, 9⟩) k).x ≠ p.x ∨
      (stageOf (⟨8, 0, 0⟩, ⟨2, 0, 14⟩, ⟨2, 0, 2⟩, ⟨13, 0, 9⟩) k).z ≠ p.z) ∧
    1 ≤ ((stageOf (⟨8, 0, 0⟩, ⟨2, 0, 14⟩, ⟨2, 0, 2⟩, ⟨13, 0, 9⟩) k).x - p.x) *
          ((stageOf (⟨8, 0, 0⟩, ⟨2, 0, 14⟩, ⟨2, 0, 2⟩, ⟨13, 0, 9⟩) k).x - p.x) + 0 * 0 +
        ((stageOf (⟨8, 0, 0⟩, ⟨2, 0, 14⟩, ⟨2, 0, 2⟩, ⟨13, 0, 9⟩) k).z - p.z) *
          ((stageOf (⟨8, 0, 0⟩, ⟨2, 0, 14⟩, ⟨2, 0, 2⟩, ⟨13, 0, 9⟩) k).z - p.z) := by
  rcases hp with hp | ⟨k0, hne, hp⟩
  · subst hp
    cases k <;> simp only [stageOf] <;> norm_num
  · subst hp
    cases k <;> cases k0 <;> first | exact absurd rfl hne | (simp only [stageOf]; norm_num)

/-- C27: in a room reached from construction, a call of a public operation
that selects a stage (and so runs SetGhostPath) finds the ghost at its
start point (8, 0, -1) or on the position of a used stage, while the new
target is the position of an available stage; the two differ in x or in
z, the sum of squares under the square root is at least 1, and where the
square root of such a number is not 0, `Length` is not 0 and mGhostPath is
the result of three divisions by a non-zero `Length`. -/
theorem Room.SetGhostPath_length_nonzero (w : Platform)
    (hs : ∀ x : ℚ, 1 ≤ x → w.sqrt x ≠ 0) (env0 : Env) (raw : Room) (calls : List RoomCall)
    (r : Room) (h : Room.run w calls (Room.new w env0 raw) = some r) (c : RoomCall) (r' : Room)
    (hstep : Room.step w c r = some r')
    (hsel : r'.mGhost.mStageCount ≠ r.mGhost.mStageCount) :
    (r.mGhost.mGhostPosition = ⟨8, 0, -1⟩ ∨
      ∃ k, r.mGhost.available k = false ∧ r.mGhost.mGhostPosition = r.mGhost.stagePosition k) ∧
    (∃ k, r.mGhost.available k = true ∧
      r'.mGhost.mGhostTargetPosition = r.mGhost.stagePosition k) ∧
    (r'.mGhost.mGhostTargetPosition.x ≠ r.mGhost.mGhostPosition.x ∨
      r'.mGhost.mGhostTargetPosition.z ≠ r.mGhost.mGhostPosition.z) ∧
    Ghost.PathLength w
      { r.mGhost with mGhostTargetPosition := r'.mGhost.mGhostTargetPosition } ≠ 0 ∧
    Ghost.SetGhostPath.path w
      { r.mGhost with mGhostTargetPosition := r'.mGhost.mGhostTargetPosition } =
        some r'.mGhost.mGhostPath := by
  have hi := Inv_reached env0 raw calls h
  have hp : r.mGhost.Placed :=
    Placed_run calls (Inv_new w env0 raw) (Placed_new w raw.mGhost) h
  obtain ⟨-, hk⟩ := Placed_step c hi hp hstep
  obtain ⟨hwhere, ⟨k, hk1, hk2⟩, hpath⟩ := hk hsel
  have sp : ∀ k, r.mGhost.stagePosition k =
      stageOf (⟨8, 0, 0⟩, ⟨2, 0, 14⟩, ⟨2, 0, 2⟩, ⟨13, 0, 9⟩) k := fun k => by
    rw [← stageOf_stages]
    exact congrArg (fun s => stageOf s k) hp.stages
  have hpos : r.mGhost.mGhostPosition = ⟨8, 0, -1⟩ ∨
      ∃ k0, r.mGhost.available k0 = false ∧
        r.mGhost.mGhostPosition = r.mGhost.stagePosition k0 := by
    by_cases h0 : r.mGhost.mStageCount = 0
    · exact Or.inl (hp.start h0)
    · have hat : r.mGhost.mAtStage = true := by
        rcases hwhere with hw | hw
        · exact absurd hw h0
        · exact hw
      obtain ⟨t1, t2⟩ := hp.target h0
      refine Or.inr ⟨r.mGhost.mCurrentState, ?_, ?_⟩
      · rw [← logic_available]
        exact t2
      · rw [(hp.atStage hat).1, ← stageOf_stages]
        exact t1
  have hd := stage_distance k r.mGhost.mGhostPosition (by
    rcases hpos with hq | ⟨k0, a1, a2⟩
    · exact Or.inl hq
    · refine Or.inr ⟨k0, fun he => ?_, by rw [a2, sp]⟩
      rw [he, hk1] at a1
      cases a1)
  rw [← sp, ← hk2] at hd
  have hlen : Ghost.PathLength w
      { r.mGhost with mGhostTargetPosition := r'.mGhost.mGhostTargetPosition } ≠ 0 :=
    hs _ hd.2
  refine ⟨hpos, ⟨k, hk1, hk2⟩, hd.1, hlen, ?_⟩
  have hlen' : ¬ w.sqrt
      ((r'.mGhost.mGhostTargetPosition.x - r.mGhost.mGhostPosition.x) *
          (r'.mGhost.mGhostTargetPosition.x - r.mGhost.mGhostPosition.x) + 0 * 0 +
        (r'.mGhost.mGhostTargetPosition.z - r.mGhost.mGhostPosition.z) *
          (r'.mGhost.mGhostTargetPosition.z - r.mGhost.mGhostPosition.z)) = 0 := hlen
  unfold Ghost.SetGhostPath.path floatDiv
  simp only [if_neg hlen', Option.some_bind]
  rw [hpath]
  rfl

/-- Witness of C27: the frame of the built room that initialises the ghost
and selects its first stage. -/
theorem Room.SetGhostPath_length_nonzero_witness :
    (Room.run quickPlatform [RoomCall.UpdateRoom (quietEnv [])] builtRoom).isSome = true ∧
    (Room.step quickPlatform (RoomCall.UpdateRoom (quietEnv [1])) roomWithPlayerActive).isSome =
      true ∧
    roomWithFirstStage.mGhost.mStageCount ≠ roomWithPlayerActive.mGhost.mStageCount ∧
    roomWithPlayerActive.mGhost.mGhostPosition = ⟨8, 0, -1⟩ ∧
    roomWithFirstStage.mGhost.mGhostTargetPosition = ⟨2, 0, 14⟩ ∧
    Ghost.PathLength quickPlatform
      { roomWithPlayerActive.mGhost with
        mGhostTargetPosition := roomWithFirstStage.mGhost.mGhostTargetPosition } ≠ 0 ∧
    Ghost.SetGhostPath.path quickPlatform
      { roomWithPlayerActive.mGhost with
        mGhostTargetPosition := roomWithFirstStage.mGhost.mGhostTargetPosition } =
        some roomWithFirstStage.mGhost.mGhostPath :=
  have h := Room.SetGhostPath_length_nonzero quickPlatform (fun _ _ => one_ne_zero) (quietEnv [])
    rawRoom [RoomCall.UpdateRoom (quietEnv [])] roomWithPlayerActive
    (some_getD (Room.run quickPlatform [RoomCall.UpdateRoom (quietEnv [])] builtRoom) rawRoom
      (by decide!))
    (RoomCall.UpdateRoom (quietEnv [1])) roomWithFirstStage
    (some_getD (Room.step quickPlatform (RoomCall.UpdateRoom (quietEnv [1]))
      roomWithPlayerActive) rawRoom (by decide!))
    (by decide!)
  ⟨by decide!, by decide!, by decide!, by decide!, by decide!, h.2.2.2.1, h.2.2.2.2⟩

/-! ### The sound of the critters over the first two crossings -/

theorem UpdateCritter_moving (w : Platform) (env : Env) (P : X3DAUDIO_VECTOR) (c : MovingCritter)
    (hm : c.mMoving = true) : c.UpdateCritter w env P = c.MoveCritter w env := by
  unfold MovingCritter.UpdateCritter
  simp only [hm, Bool.not_true, Bool.false_and, Bool.false_eq_true, if_false, ite_self, if_true]

theorem MoveCritter_completes (w : Platform) (env : Env) (c : MovingCritter)
    (h : (c.RoomSide = LEFT_SIDE ∧
            c.mCritterPosition.x + c.mDirectionVector.x > c.mCritterTargetX) ∨
         (c.RoomSide = RIGHT_SIDE ∧
            c.mCritterPosition.x + c.mDirectionVector.x < c.mCritterTargetX)) :
    c.MoveCritter w env =
      MovingCritter.MoveCritter.finish w env (otherSide c.RoomSide)
        (MovingCritter.MoveCritter.moved env c) := by
  have hm1 : (MovingCritter.MoveCritter.moved env c).RoomSide = c.RoomSide := rfl
  have hm2 : (MovingCritter.MoveCritter.moved env c).mCritterPosition.x =
      c.mCritterPosition.x + c.mDirectionVector.x := rfl
  have hm3 : (MovingCritter.MoveCritter.moved env c).mCritterTargetX = c.mCritterTargetX := rfl
  rw [MoveCritter_eq]
  rcases h with ⟨hs, hx⟩ | ⟨hs, hx⟩
  · have h1 : MovingCritter.MoveCritter.fromLeft w env (MovingCritter.MoveCritter.moved env c) =
        MovingCritter.MoveCritter.finish w env RIGHT_SIDE
          (MovingCritter.MoveCritter.moved env c) := by
      unfold MovingCritter.MoveCritter.fromLeft
      rw [if_pos ⟨hm1.trans hs, by rw [hm2, hm3]; exact hx⟩]
    obtain ⟨-, -, -, f4, f5⟩ := finish_frame w env RIGHT_SIDE (MovingCritter.MoveCritter.moved env c)
    rw [h1]
    unfold MovingCritter.MoveCritter.fromRight
    rw [if_neg, otherSide, if_pos hs]
    rintro ⟨-, hlt⟩
    rw [f4, f5, hm2, hm3] at hlt
    exact absurd hlt (not_lt.2 (le_of_lt hx))
  · have hne : ¬ c.RoomSide = LEFT_SIDE := by rw [hs]; decide
    have h1 : MovingCritter.MoveCritter.fromLeft w env (MovingCritter.MoveCritter.moved env c) =
        MovingCritter.MoveCritter.moved env c := by
      unfold MovingCritter.MoveCritter.fromLeft
      rw [if_neg]
      rintro ⟨hl, -⟩
      exact hne (hm1.symm.trans hl)
    rw [h1]
    unfold MovingCritter.MoveCritter.fromRight
    rw [if_pos ⟨hm1.trans hs, by rw [hm2, hm3]; exact hx⟩, otherSide, if_neg hne]

theorem MoveCritter_flies (w : Platform) (env : Env) (c : MovingCritter)
    (h : (c.RoomSide = LEFT_SIDE ∧
            c.mCritterPosition.x + c.mDirectionVector.x ≤ c.mCritterTargetX) ∨
         (c.RoomSide = RIGHT_SIDE ∧
            c.mCritterTargetX ≤ c.mCritterPosition.x + c.mDirectionVector.x)) :
    c.MoveCritter w env = MovingCritter.MoveCritter.moved env c := by
  have hm1 : (MovingCritter.MoveCritter.moved env c).RoomSide = c.RoomSide := rfl
  have hm2 : (MovingCritter.MoveCritter.moved env c).mCritterPosition.x =
      c.mCritterPosition.x + c.mDirectionVector.x := rfl
  have hm3 : (MovingCritter.MoveCritter.moved env c).mCritterTargetX = c.mCritterTargetX := rfl
  have h1 : MovingCritter.MoveCritter.fromLeft w env (MovingCritter.MoveCritter.moved env c) =
      MovingCritter.MoveCritter.moved env c := by
    unfold MovingCritter.MoveCritter.fromLeft
    rw [if_neg]
    rintro ⟨hl, hgt⟩
    rw [hm2, hm3] at hgt
    rcases h with ⟨-, hx⟩ | ⟨hs, -⟩
    · exact absurd hgt (not_lt.2 hx)
    · rw [hm1, hs] at hl
      exact absurd hl (by decide)
  rw [MoveCritter_eq, h1]
  unfold MovingCritter.MoveCritter.fromRight
  rw [if_neg]
  rintro ⟨hl, hlt⟩
  rw [hm2, hm3] at hlt
  rcases h with ⟨hs, -⟩ | ⟨-, hx⟩
  · rw [hm1, hs] at hl
    exact absurd hl (by decide)
  · exact absurd hlt (not_lt.2 hx)

theorem finish_sound (w : Platform) (env : Env) (NewSide : Int) (c : MovingCritter) :
    (MovingCritter.MoveCritter.finish w env NewSide c).mAnimalEmitter.mSound =
      (match c.mCurrentType with
        | AnimalType.BATS => Sound.mMiceSound
        | AnimalType.MICE => Sound.mBatsSound) ∧
    (MovingCritter.MoveCritter.finish w env NewSide c).mInitialised = c.mInitialised ∧
    (MovingCritter.MoveCritter.finish w env NewSide c).NextCritterTime = c.NextCritterTime := by
  have hp : ∀ e : Emitter, (e.PauseEmitter w).mSound = e.mSound := fun e => by
    unfold Emitter.PauseEmitter
    split_ifs <;> rfl
  obtain ⟨a1, a2, t, a4, a5, a6, a7, a8, a9, a10, a11⟩ := c
  cases t
  · refine ⟨?_, rfl, rfl⟩
    simp only [MovingCritter.MoveCritter.finish, hp]
    exact (ChangeEmitterSound_frame w env _ _ _ _).2.2.2
  · refine ⟨?_, rfl, rfl⟩
    simp only [MovingCritter.MoveCritter.finish, hp]
    exact (ChangeEmitterSound_frame w env _ _ _ _).2.2.2

theorem moved_sound (env : Env) (c : MovingCritter) :
    (MovingCritter.MoveCritter.moved env c).mAnimalEmitter.mSound = c.mAnimalEmitter.mSound := by
  unfold MovingCritter.MoveCritter.moved Emitter.UpdateEmitter Emitter.SetPosition
  simp only []
  split_ifs <;> rfl

theorem fly_step (w : Platform) (env : Env) (P : X3DAUDIO_VECTOR) (c : MovingCritter) (d T : ℚ)
    (s : Sound) (k : AnimalType) (t : Int)
    (h : c.mInitialised = true ∧ c.mMoving = true ∧ c.RoomSide = LEFT_SIDE ∧
      c.mCurrentType = k ∧ c.mDirectionVector.x = d ∧ c.mCritterTargetX = T ∧
      c.mAnimalEmitter.mSound = s ∧ c.NextCritterTime = t)
    (hx : c.mCritterPosition.x + d ≤ T) :
    ((c.UpdateCritter w env P).mInitialised = true ∧ (c.UpdateCritter w env P).mMoving = true ∧
      (c.UpdateCritter w env P).RoomSide = LEFT_SIDE ∧
      (c.UpdateCritter w env P).mCurrentType = k ∧
      (c.UpdateCritter w env P).mDirectionVector.x = d ∧
      (c.UpdateCritter w env P).mCritterTargetX = T ∧
      (c.UpdateCritter w env P).mAnimalEmitter.mSound = s ∧
      (c.UpdateCritter w env P).NextCritterTime = t) ∧
    (c.UpdateCritter w env P).mCritterPosition.x = c.mCritterPosition.x + d := by
  obtain ⟨h1, h2, h3, h4, h5, h6, h7, h8⟩ := h
  rw [UpdateCritter_moving w env P c h2,
    MoveCritter_flies w env c (Or.inl ⟨h3, by rw [h5, h6]; exact hx⟩)]
  exact ⟨⟨h1, h2, h3, h4, h5, h6, (moved_sound env c).trans h7, h8⟩,
    by rw [← h5]; rfl⟩

theorem fly_iterate (w : Platform) (env : Env) (P : X3DAUDIO_VECTOR) (d T : ℚ) (hd : 0 ≤ d)
    (s : Sound) (k : AnimalType) (t : Int) :
    ∀ (n : Nat) (c : MovingCritter),
      (c.mInitialised = true ∧ c.mMoving = true ∧ c.RoomSide = LEFT_SIDE ∧
        c.mCurrentType = k ∧ c.mDirectionVector.x = d ∧ c.mCritterTargetX = T ∧
        c.mAnimalEmitter.mSound = s ∧ c.NextCritterTime = t) →
      c.mCritterPosition.x + n * d ≤ T →
      ((Nat.iterate (MovingCritter.UpdateCritter w env P) n c).mInitialised = true ∧
        (Nat.iterate (MovingCritter.UpdateCritter w env P) n c).mMoving = true ∧
        (Nat.iterate (MovingCritter.UpdateCritter w env P) n c).RoomSide = LEFT_SIDE ∧
        (Nat.iterate (MovingCritter.UpdateCritter w env P) n c).mCurrentType = k ∧
        (Nat.iterate (MovingCritter.UpdateCritter w env P) n c).mDirectionVector.x = d ∧
        (Nat.iterate (MovingCritter.UpdateCritter w env P) n c).mCritterTargetX = T ∧
        (Nat.iterate (MovingCritter.UpdateCritter w env P) n c).mAnimalEmitter.mSound = s ∧
        (Nat.iterate (MovingCritter.UpdateCritter w env P) n c).NextCritterTime = t) ∧
      (Nat.iterate (MovingCritter.UpdateCritter w env P) n c).mCritterPosition.x =
        c.mCritterPosition.x + n * d
  | 0, c, h, _ => ⟨h, by simp⟩
  | n + 1, c, h, hx => by
    have hn : c.mCritterPosition.x + n * d ≤ T := by
      push_cast at hx
      nlinarith
    obtain ⟨ih1, ih2⟩ := fly_iterate w env P d T hd s k t n c h hn
    rw [Function.iterate_succ_apply']
    obtain ⟨k1, k2⟩ := fly_step w env P _ d T s k t ih1 (by
      rw [ih2]
      push_cast at hx
      linarith)
    refine ⟨k1, ?_⟩
    rw [k2, ih2]
    push_cast
    ring

theorem UpdateCritter_due (w : Platform) (env : Env) (P : X3DAUDIO_VECTOR) (c : MovingCritter)
    (hi : c.mInitialised = true) (hm : c.mMoving = false)
    (ht : env.critterElapsed > c.NextCritterTime) :
    c.UpdateCritter w env P =
      (MovingCritter.GetNextTime env
        { c.SetCritterPath w env P with
          mAnimalEmitter := (c.SetCritterPath w env P).mAnimalEmitter.PlayEmitter w }).MoveCritter
        w env := by
  have hmv : (MovingCritter.GetNextTime env
      { c.SetCritterPath w env P with
        mAnimalEmitter := (c.SetCritterPath w env P).mAnimalEmitter.PlayEmitter w }).mMoving =
      true := by
    unfold MovingCritter.SetCritterPath
    rfl
  unfold MovingCritter.UpdateCritter
  simp only [hi, hm, Bool.not_false, Bool.true_and, decide_eq_true_eq, ht, if_true]
  rw [if_pos hmv]

theorem SetCritterPath_fromRight (w : Platform) (env : Env) (P : X3DAUDIO_VECTOR)
    (c : MovingCritter) (hs : c.RoomSide = RIGHT_SIDE) (ht : c.mCurrentType = AnimalType.MICE) :
    (c.SetCritterPath w env P).mDirectionVector =
      v3f.scale (v3f.Normalise w (v3f.sub ⟨P.x, 0, P.z⟩
        ⟨RIGHT_X_LIMIT, 0, ((env.critterZDraw % 16 + 1 : Nat) : ℚ)⟩)) SPEED ∧
    (c.SetCritterPath w env P).mCritterTargetX = LEFT_X_LIMIT ∧
    (c.SetCritterPath w env P).RoomSide = RIGHT_SIDE ∧
    (c.SetCritterPath w env P).mCurrentType = AnimalType.MICE ∧
    (c.SetCritterPath w env P).mCritterPosition = c.mCritterPosition ∧
    (c.SetCritterPath w env P).mAnimalEmitter = c.mAnimalEmitter := by
  obtain ⟨a1, a2, t, a4, a5, a6, side, a8, a9, a10, a11⟩ := c
  simp only at hs ht
  subst hs ht
  exact ⟨rfl, rfl, rfl, rfl, rfl, rfl⟩

theorem first_crossing_state :
    (crittersFirstCrossing.mInitialised = true ∧ crittersFirstCrossing.mMoving = true ∧
      crittersFirstCrossing.RoomSide = LEFT_SIDE ∧
      crittersFirstCrossing.mCurrentType = AnimalType.BATS ∧
      crittersFirstCrossing.mDirectionVector.x = 1 / 20030 ∧
      crittersFirstCrossing.mCritterTargetX = 31 ∧
      crittersFirstCrossing.mAnimalEmitter.mSound = Sound.mMiceSound ∧
      crittersFirstCrossing.NextCritterTime = 15) ∧
    crittersFirstCrossing.mCritterPosition.x = 1 / 20030 := by
  decide!

theorem UpdateCritter_due_fromRight (w : Platform) (env : Env) (P : X3DAUDIO_VECTOR)
    (c : MovingCritter) (hi : c.mInitialised = true) (hm : c.mMoving = false)
    (ht : env.critterElapsed > c.NextCritterTime) (hs : c.RoomSide = RIGHT_SIDE)
    (hk : c.mCurrentType = AnimalType.MICE)
    (hx : (LEFT_X_LIMIT : ℚ) ≤ c.mCritterPosition.x +
      (v3f.scale (v3f.Normalise w (v3f.sub ⟨P.x, 0, P.z⟩
        ⟨RIGHT_X_LIMIT, 0, ((env.critterZDraw % 16 + 1 : Nat) : ℚ)⟩)) SPEED).x) :
    (c.UpdateCritter w env P).mMoving = true ∧
    (c.UpdateCritter w env P).mCurrentType = AnimalType.MICE ∧
    (c.UpdateCritter w env P).mAnimalEmitter.mSound = c.mAnimalEmitter.mSound := by
  obtain ⟨s1, s2, s3, s4, s5, s6⟩ := SetCritterPath_fromRight w env P c hs hk
  have hp : ∀ e : Emitter, (e.PlayEmitter w).mSound = e.mSound := fun e => by
    unfold Emitter.PlayEmitter
    split_ifs <;> rfl
  have hfly : (MovingCritter.GetNextTime env
      { c.SetCritterPath w env P with
        mAnimalEmitter := (c.SetCritterPath w env P).mAnimalEmitter.PlayEmitter w }).MoveCritter
        w env =
      MovingCritter.MoveCritter.moved env (MovingCritter.GetNextTime env
        { c.SetCritterPath w env P with
          mAnimalEmitter := (c.SetCritterPath w env P).mAnimalEmitter.PlayEmitter w }) := by
    refine MoveCritter_flies w env _ (Or.inr ⟨s3, ?_⟩)
    show (c.SetCritterPath w env P).mCritterTargetX ≤
      (c.SetCritterPath w env P).mCritterPosition.x + (c.SetCritterPath w env P).mDirectionVector.x
    rw [s2, s5, s1]
    exact hx
  have hmv : (c.SetCritterPath w env P).mMoving = true := by
    unfold MovingCritter.SetCritterPath
    rfl
  rw [UpdateCritter_due w env P c hi hm ht, hfly]
  refine ⟨hmv, s4, ?_⟩
  rw [moved_sound]
  exact (hp _).trans (congrArg Emitter.mSound s6)

theorem UpdateCritter_completes_fromLeft (w : Platform) (env : Env) (P : X3DAUDIO_VECTOR)
    (c : MovingCritter) (hm : c.mMoving = true) (hs : c.RoomSide = LEFT_SIDE)
    (hx : c.mCritterPosition.x + c.mDirectionVector.x > c.mCritterTargetX) :
    (c.UpdateCritter w env P).mInitialised = c.mInitialised ∧
    (c.UpdateCritter w env P).mMoving = false ∧
    (c.UpdateCritter w env P).RoomSide = RIGHT_SIDE ∧
    (c.UpdateCritter w env P).mCurrentType = c.mCurrentType.other ∧
    (c.UpdateCritter w env P).mAnimalEmitter.mSound =
      (match c.mCurrentType with
        | AnimalType.BATS => Sound.mMiceSound
        | AnimalType.MICE => Sound.mBatsSound) ∧
    (c.UpdateCritter w env P).NextCritterTime = c.NextCritterTime ∧
    (c.UpdateCritter w env P).mCritterPosition.x =
      c.mCritterPosition.x + c.mDirectionVector.x := by
  obtain ⟨f1, f2, f3, f4, -⟩ := finish_frame w env (otherSide c.RoomSide)
    (MovingCritter.MoveCritter.moved env c)
  obtain ⟨g1, g2, g3⟩ := finish_sound w env (otherSide c.RoomSide)
    (MovingCritter.MoveCritter.moved env c)
  rw [UpdateCritter_moving w env P c hm, MoveCritter_completes w env c (Or.inl ⟨hs, hx⟩)]
  refine ⟨g2, f3, ?_, f2, g1, g3, ?_⟩
  · rw [f1, hs]
    rfl
  · rw [f4]
    rfl

theorem in_flight_state :
    crittersInFlight.mInitialised = true ∧ crittersInFlight.mMoving = true ∧
    crittersInFlight.RoomSide = LEFT_SIDE ∧
    crittersInFlight.mCurrentType = AnimalType.BATS ∧
    crittersInFlight.mDirectionVector.x = 1 / 20030 ∧
    crittersInFlight.mCritterTargetX = 31 ∧
    crittersInFlight.mAnimalEmitter.mSound = Sound.mMiceSound ∧
    crittersInFlight.NextCritterTime = 15 ∧
    crittersInFlight.mCritterPosition.x = 31 := by
  obtain ⟨h, hx⟩ := first_crossing_state
  obtain ⟨⟨k1, k2, k3, k4, k5, k6, k7, k8⟩, kx⟩ :=
    fly_iterate decimalPlatform (quietEnv []) playerStart (1 / 20030) 31 (by norm_num)
      Sound.mMiceSound AnimalType.BATS 15 620929 crittersFirstCrossing h
      (by rw [hx]; norm_num)
  rw [hx] at kx
  have hc : Nat.iterate (MovingCritter.UpdateCritter decimalPlatform (quietEnv []) playerStart)
      620929 crittersFirstCrossing = crittersInFlight := by
    rw [crittersInFlight]
  rw [hc] at k1 k2 k3 k4 k5 k6 k7 k8 kx
  refine ⟨k1, k2, k3, k4, k5, k6, k7, k8, ?_⟩
  rw [kx]
  norm_num

theorem across_state :
    crittersAcross.mInitialised = true ∧ crittersAcross.mMoving = false ∧
    crittersAcross.RoomSide = RIGHT_SIDE ∧ crittersAcross.mCurrentType = AnimalType.MICE ∧
    crittersAcross.mAnimalEmitter.mSound = Sound.mMiceSound ∧
    crittersAcross.NextCritterTime = 15 ∧
    crittersAcross.mCritterPosition.x = 31 + 1 / 20030 := by
  obtain ⟨k1, k2, k3, k4, k5, k6, k7, k8, kx⟩ := in_flight_state
  obtain ⟨c1, c2, c3, c4, c5, c6, c7⟩ :=
    UpdateCritter_completes_fromLeft decimalPlatform (quietEnv []) playerStart crittersInFlight
      k2 k3 (by rw [kx, k5, k6]; norm_num)
  rw [crittersAcross]
  refine ⟨c1.trans k1, c2, c3, ?_, ?_, c6.trans k8, ?_⟩
  · rw [c4, k4]
    rfl
  · rw [c5, k4]
  · rw [c7, kx, k5]

theorem second_crossing_state :
    crittersSecondCrossing.mMoving = true ∧
    crittersSecondCrossing.mCurrentType = AnimalType.MICE ∧
    crittersSecondCrossing.mAnimalEmitter.mSound = Sound.mMiceSound := by
  obtain ⟨a1, a2, a3, a4, a5, a6, a7⟩ := across_state
  have hd : (v3f.scale (v3f.Normalise decimalPlatform (v3f.sub ⟨playerStart.x, 0, playerStart.z⟩
      ⟨RIGHT_X_LIMIT, 0, (((dueEnv []).critterZDraw % 16 + 1 : Nat) : ℚ)⟩)) SPEED).x =
      -23 / 460420 := by
    decide!
  obtain ⟨r1, r2, r3⟩ := UpdateCritter_due_fromRight decimalPlatform (dueEnv []) playerStart
    crittersAcross a1 a2 (by rw [a6]; decide) a3 a4 (by
      rw [hd, a7]
      show ((-10 : Int) : ℚ) ≤ _
      norm_num)
  rw [crittersSecondCrossing]
  exact ⟨r1, r2, r3.trans a5⟩

/-- C23 fails in the code: on the platform with the decimal square root and
the player at the start position, the first crossing is made as BATS with
the sound object mMiceSound on the emitter (the constructor creates the
emitter with mMiceSound while the kind is BATS), the frame that completes it
turns the kind to MICE and assigns mMiceSound again, and the second
crossing is made as MICE with that same sound object: the sound of one
crossing does not differ from the sound of the next. -/
theorem MovingCritter.first_two_crossings_share_the_sound :
    (crittersFirstCrossing.mMoving = true ∧
      crittersFirstCrossing.mCurrentType = AnimalType.BATS ∧
      crittersFirstCrossing.mAnimalEmitter.mSound = Sound.mMiceSound) ∧
    (crittersAcross.mMoving = false ∧ crittersAcross.RoomSide = RIGHT_SIDE ∧
      crittersAcross.mCurrentType = AnimalType.MICE) ∧
    (crittersSecondCrossing.mMoving = true ∧
      crittersSecondCrossing.mCurrentType = AnimalType.MICE ∧
      crittersSecondCrossing.mAnimalEmitter.mSound = Sound.mMiceSound) := by
  obtain ⟨⟨-, h2, -, h4, -, -, h7, -⟩, -⟩ := first_crossing_state
  obtain ⟨-, a2, a3, a4, -, -, -⟩ := across_state
  exact ⟨⟨h2, h4, h7⟩, ⟨a2, a3, a4⟩, second_crossing_state⟩

end Escape
